import Mathlib

/-!
# Black point detection of lcms2 (`src/thirdparty/lcms2/src/cmssamp.c`)

A shallow embedding of the black point estimators of `cmssamp.c` and the
properties proved about them.

Conventions of the embedding.

* A C `double` is an exact rational number. The two divisions of the file are
  evaluated by explicit case analysis on a zero divisor, because the IEEE
  quotient is then an infinity or a NaN and not a number.
* A profile handle is the record of the answers the introspection functions
  give for it. Output pointers are never NULL: a function takes the content
  the pointed-to triplet has before the call and returns its content after.
* Every call returns, next to its C results, the trace of the calls it made
  on profile handles and of the resources it created and released.
-/

namespace Cmssamp

/-! ## Data model -/

/-- The type `cmsCIEXYZ` of lcms2: a triplet X, Y, Z. -/
structure cmsCIEXYZ where
  X : ℚ
  Y : ℚ
  Z : ℚ
deriving DecidableEq, Repr

/-- The type `cmsCIELab` of lcms2: a triplet L*, a*, b*. -/
structure cmsCIELab where
  L : ℚ
  a : ℚ
  b : ℚ
deriving DecidableEq, Repr

/-- The type `cmsVEC3` of lcms2: `n[0]`, `n[1]`, `n[2]`. -/
structure cmsVEC3 where
  n0 : ℚ
  n1 : ℚ
  n2 : ℚ
deriving DecidableEq, Repr

/-- The type `cmsMAT3` of lcms2: the rows `v[0]`, `v[1]`, `v[2]`. -/
structure cmsMAT3 where
  v0 : cmsVEC3
  v1 : cmsVEC3
  v2 : cmsVEC3
deriving DecidableEq, Repr

/-- Modelled from the spec: the header `lcms2.h` with the intent codes is not
among the sources; the four rendering intents of the glossary carry their ICC
codes. This one is the perceptual intent. -/
def INTENT_PERCEPTUAL : Nat := 0

/-- Modelled from the spec: the relative-colorimetric intent (ICC code 1). -/
def INTENT_RELATIVE_COLORIMETRIC : Nat := 1

/-- Modelled from the spec: the saturation intent (ICC code 2). -/
def INTENT_SATURATION : Nat := 2

/-- Modelled from the spec: the absolute-colorimetric intent (ICC code 3). -/
def INTENT_ABSOLUTE_COLORIMETRIC : Nat := 3

/-- Modelled from the spec: direction "used as input" of the intent-support
and CLUT queries (`lcms2.h` is not among the sources). -/
def LCMS_USED_AS_INPUT : Nat := 0

/-- Modelled from the spec: direction "used as output" of the same queries. -/
def LCMS_USED_AS_OUTPUT : Nat := 1

/-- Modelled from the spec: device class signature of device-link profiles,
the ICC tag "link". -/
def cmsSigLinkClass : Nat := 0x6C696E6B

/-- Modelled from the spec: device class signature of output profiles, the
ICC tag "prtr". -/
def cmsSigOutputClass : Nat := 0x70727472

/-- Modelled from the spec: color space signature "GRAY". -/
def cmsSigGrayData : Nat := 0x47524159

/-- Modelled from the spec: color space signature "RGB ". -/
def cmsSigRgbData : Nat := 0x52474220

/-- Modelled from the spec: color space signature "CMYK". -/
def cmsSigCmykData : Nat := 0x434D594B

/-- A profile handle `cmsHPROFILE`, given by what the introspection functions
answer for it. The profile is only read. -/
structure Profile where
  /-- Answer of `cmsGetDeviceClass`. -/
  cmsGetDeviceClass : Nat
  /-- Answer of `cmsGetColorSpace`. -/
  cmsGetColorSpace : Nat
  /-- Answer of `cmsGetEncodedICCversion`. -/
  cmsGetEncodedICCversion : Nat
  /-- Answer of `cmsIsMatrixShaper`. -/
  cmsIsMatrixShaper : Bool
  /-- Answer of `cmsIsIntentSupported` for an intent and a direction. -/
  cmsIsIntentSupported : Nat → Nat → Bool
  /-- Answer of `cmsIsCLUT` for an intent and a direction. -/
  cmsIsCLUT : Nat → Nat → Bool
  /-- Answer of `cmsFormatterForColorspaceOfProfile(h, 2, FALSE)`. -/
  cmsFormatterForColorspaceOfProfile : Nat
  /-- Answer of `cmsIsTag(h, cmsSigMediaBlackPointTag)`. -/
  cmsIsTag : Bool
  /-- Answer of `cmsReadTag(h, cmsSigMediaBlackPointTag)`; `none` is NULL. -/
  cmsReadTag : Option cmsCIEXYZ
  /-- The triplet `_cmsReadMediaWhitePoint` writes. -/
  _cmsReadMediaWhitePoint : cmsCIEXYZ

/-- Everything outside `cmssamp.c` that a call depends on: the collaborators
(transform engine, colorimetric primitives, linear solver, `sqrt`), the
constants and macros of the missing headers, and the indeterminate content of
memory that was never written. -/
structure Env where
  /-- Whether `cmsCreateLab4Profile(NULL)` returns a profile. -/
  cmsCreateLab4Profile : Bool
  /-- Whether `cmsCreateLab2ProfileTHR(ContextID, NULL)` returns a profile. -/
  cmsCreateLab2ProfileTHR : Bool
  /-- The transform Lab -> profile -> profile -> Lab that
  `cmsCreateExtendedTransform` builds in `CreateRoundtripXForm`, as the
  function `cmsDoTransform` computes with it; `none` is NULL. The first
  argument tells whether the Lab profile handle passed is valid. -/
  cmsCreateExtendedTransform : Bool → Profile → Nat → Option (cmsCIELab → cmsCIELab)
  /-- The transform profile -> Lab that `cmsCreateTransformTHR` builds for an
  input format and an intent; `none` is NULL. -/
  cmsCreateTransformTHR : Profile → Nat → Nat → Option (List Nat → cmsCIELab)
  /-- The table `_cmsEndPointsBySpace`: for a color space, the darkest
  colorant `Black` and `nChannels`; `none` is FALSE. -/
  _cmsEndPointsBySpace : Nat → Option (List Nat × Nat)
  /-- The macro `T_CHANNELS` of `lcms2.h`. -/
  T_CHANNELS : Nat → Nat
  /-- The conversion `cmsLab2XYZ` with the default white point. -/
  cmsLab2XYZ : cmsCIELab → cmsCIEXYZ
  /-- The conversion `cmsXYZ2Lab` with the default white point. -/
  cmsXYZ2Lab : cmsCIEXYZ → cmsCIELab
  /-- The triplet `cmsAdaptToIlluminant` writes for a source white point, an
  illuminant and a value. -/
  cmsAdaptToIlluminant : cmsCIEXYZ → cmsCIEXYZ → cmsCIEXYZ → cmsCIEXYZ
  /-- The triplet `cmsD50_XYZ()` points to. -/
  cmsD50_XYZ : cmsCIEXYZ
  /-- The solver `_cmsMAT3solve`; `none` is FALSE. -/
  _cmsMAT3solve : cmsMAT3 → cmsVEC3 → Option cmsVEC3
  /-- The function `sqrt` of the C library. -/
  sqrt : ℚ → ℚ
  /-- The constant `cmsPERCEPTUAL_BLACK_X` of `lcms2.h`. -/
  cmsPERCEPTUAL_BLACK_X : ℚ
  /-- The constant `cmsPERCEPTUAL_BLACK_Y` of `lcms2.h`. -/
  cmsPERCEPTUAL_BLACK_Y : ℚ
  /-- The constant `cmsPERCEPTUAL_BLACK_Z` of `lcms2.h`. -/
  cmsPERCEPTUAL_BLACK_Z : ℚ
  /-- Whether `CMS_USE_PROFILE_BLACK_POINT_TAG` is defined at compile time. -/
  CMS_USE_PROFILE_BLACK_POINT_TAG : Bool
  /-- The value a read finds in a cell that was never written or that lies
  outside its array, by cell offset. -/
  indeterminate : Int → ℚ

/-- One entry of the call trace: a query on the profile handle, or the
creation or release of a resource. A creation is recorded only when it
succeeds, a release only when the handle is not NULL. -/
inductive Event where
  | cmsGetProfileContextID
  | cmsIsIntentSupported
  | cmsFormatterForColorspaceOfProfile
  | cmsGetColorSpace
  | cmsGetDeviceClass
  | cmsGetEncodedICCversion
  | cmsIsMatrixShaper
  | cmsIsCLUT
  | cmsIsTag
  | cmsReadTag
  | _cmsReadMediaWhitePoint
  | profileCreated
  | profileClosed
  | transformCreated
  | transformDeleted
deriving DecidableEq, Repr

/-- What a call leaves behind: the returned `cmsBool`, the content of
`*BlackPoint` after the call, and the trace of the call. -/
structure Ret where
  ok : Bool
  BlackPoint : cmsCIEXYZ
  trace : List Event
deriving DecidableEq, Repr

/-- The result of a callee whose call was preceded by the events `t`. -/
def Ret.after (t : List Event) (r : Ret) : Ret :=
  { r with trace := t ++ r.trace }

/-- The triplet written by `BlackPoint -> X = BlackPoint ->Y = BlackPoint -> Z = 0.0`. -/
def zeroXYZ : cmsCIEXYZ := ⟨0, 0, 0⟩

/-! ## The estimators -/

/-- `CreateRoundtripXForm` (lines 38-57): the returned transform handle and
the trace. The Lab profile is not checked for NULL before it is used. -/
def CreateRoundtripXForm (E : Env) (hProfile : Profile) (nIntent : Nat) :
    Option (cmsCIELab → cmsCIELab) × List Event :=
  let hLab := E.cmsCreateLab4Profile
  let xform := E.cmsCreateExtendedTransform hLab hProfile nIntent
  (xform,
    (if hLab then [Event.profileCreated] else []) ++ [Event.cmsGetProfileContextID] ++
    (if xform.isSome then [Event.transformCreated] else []) ++
    (if hLab then [Event.profileClosed] else []))

/-- `BlackPointAsDarkerColorant` (lines 61-140). -/
def BlackPointAsDarkerColorant (E : Env) (hInput : Profile) (Intent : Nat)
    (BlackPoint : cmsCIEXYZ) (dwFlags : Nat) : Ret :=
  let _unused := (BlackPoint, dwFlags)
  let t0 := [Event.cmsGetProfileContextID, Event.cmsIsIntentSupported]
  if !hInput.cmsIsIntentSupported Intent LCMS_USED_AS_INPUT then
    ⟨false, zeroXYZ, t0⟩
  else
    let dwFormat := hInput.cmsFormatterForColorspaceOfProfile
    let Space := hInput.cmsGetColorSpace
    let t1 := t0 ++ [Event.cmsFormatterForColorspaceOfProfile, Event.cmsGetColorSpace]
    match E._cmsEndPointsBySpace Space with
    | none => ⟨false, zeroXYZ, t1⟩
    | some (Black, nChannels) =>
      if nChannels ≠ E.T_CHANNELS dwFormat then
        ⟨false, zeroXYZ, t1⟩
      else if !E.cmsCreateLab2ProfileTHR then
        ⟨false, zeroXYZ, t1⟩
      else
        match E.cmsCreateTransformTHR hInput dwFormat Intent with
        | none => ⟨false, zeroXYZ, t1 ++ [Event.profileCreated, Event.profileClosed]⟩
        | some xform =>
          let Lab := xform Black
          let Lab : cmsCIELab := ⟨Lab.L, 0, 0⟩
          let Lab : cmsCIELab := if Lab.L > 50 then ⟨50, Lab.a, Lab.b⟩ else Lab
          let BlackXYZ := E.cmsLab2XYZ Lab
          ⟨true, BlackXYZ, t1 ++ [Event.profileCreated, Event.transformCreated,
            Event.profileClosed, Event.transformDeleted]⟩

/-- `BlackPointUsingPerceptualBlack` (lines 145-182). -/
def BlackPointUsingPerceptualBlack (E : Env) (BlackPoint : cmsCIEXYZ)
    (hProfile : Profile) : Ret :=
  let _unused := BlackPoint
  if !hProfile.cmsIsIntentSupported INTENT_PERCEPTUAL LCMS_USED_AS_INPUT then
    ⟨true, zeroXYZ, [Event.cmsIsIntentSupported]⟩
  else
    match CreateRoundtripXForm E hProfile INTENT_PERCEPTUAL with
    | (none, t) => ⟨false, zeroXYZ, [Event.cmsIsIntentSupported] ++ t⟩
    | (some hRoundTrip, t) =>
      let LabIn : cmsCIELab := ⟨0, 0, 0⟩
      let LabOut := hRoundTrip LabIn
      let LabOut : cmsCIELab := if LabOut.L > 50 then ⟨50, LabOut.a, LabOut.b⟩ else LabOut
      let LabOut : cmsCIELab := ⟨LabOut.L, 0, 0⟩
      let BlackXYZ := E.cmsLab2XYZ LabOut
      ⟨true, BlackXYZ, [Event.cmsIsIntentSupported] ++ t ++ [Event.transformDeleted]⟩

/-- The block of `cmsDetectBlackPoint` under `#ifdef CMS_USE_PROFILE_BLACK_POINT_TAG`
(lines 219-251): `some` is its `return TRUE`, `none` falls through to the
code after the block, with the trace of the block in both cases. -/
def ProfileBlackPointTag (E : Env) (hProfile : Profile) (Intent : Nat) :
    Option cmsCIEXYZ × List Event :=
  if hProfile.cmsIsTag ∧ Intent = INTENT_RELATIVE_COLORIMETRIC then
    match hProfile.cmsReadTag with
    | some BlackXYZ =>
      let MediaWhite := hProfile._cmsReadMediaWhitePoint
      let UntrustedBlackPoint := E.cmsAdaptToIlluminant MediaWhite E.cmsD50_XYZ BlackXYZ
      let Lab := E.cmsXYZ2Lab UntrustedBlackPoint
      let Lab : cmsCIELab := ⟨Lab.L, 0, 0⟩
      let Lab : cmsCIELab := if Lab.L > 50 then ⟨50, Lab.a, Lab.b⟩ else Lab
      let TrustedBlackPoint := E.cmsLab2XYZ Lab
      (some TrustedBlackPoint, [Event.cmsIsTag, Event.cmsReadTag, Event._cmsReadMediaWhitePoint])
    | none => (none, [Event.cmsIsTag, Event.cmsReadTag])
  else (none, [Event.cmsIsTag])

/-- The end of `cmsDetectBlackPoint` (lines 253-262), "that is about v2
profiles": the perceptual round trip for output CMYK profiles under the
relative-colorimetric intent, the darker colorant otherwise. -/
def DetectBlackPointV2 (E : Env) (BlackPoint : cmsCIEXYZ) (hProfile : Profile)
    (Intent dwFlags : Nat) : Ret :=
  if Intent ≠ INTENT_RELATIVE_COLORIMETRIC then
    BlackPointAsDarkerColorant E hProfile Intent BlackPoint dwFlags
  else if hProfile.cmsGetDeviceClass ≠ cmsSigOutputClass then
    (BlackPointAsDarkerColorant E hProfile Intent BlackPoint dwFlags).after
      [Event.cmsGetDeviceClass]
  else if hProfile.cmsGetColorSpace ≠ cmsSigCmykData then
    (BlackPointAsDarkerColorant E hProfile Intent BlackPoint dwFlags).after
      [Event.cmsGetDeviceClass, Event.cmsGetColorSpace]
  else
    (BlackPointUsingPerceptualBlack E BlackPoint hProfile).after
      [Event.cmsGetDeviceClass, Event.cmsGetColorSpace]

/-- `cmsDetectBlackPoint` (lines 190-263). -/
def cmsDetectBlackPoint (E : Env) (BlackPoint : cmsCIEXYZ) (hProfile : Profile)
    (Intent dwFlags : Nat) : Ret :=
  if hProfile.cmsGetDeviceClass = cmsSigLinkClass then
    ⟨false, zeroXYZ, [Event.cmsGetDeviceClass]⟩
  else if hProfile.cmsGetEncodedICCversion ≥ 0x4000000 ∧
      (Intent = INTENT_PERCEPTUAL ∨ Intent = INTENT_SATURATION) then
    if hProfile.cmsIsMatrixShaper then
      (BlackPointAsDarkerColorant E hProfile INTENT_RELATIVE_COLORIMETRIC BlackPoint 0).after
        [Event.cmsGetDeviceClass, Event.cmsGetEncodedICCversion, Event.cmsIsMatrixShaper]
    else
      ⟨true, ⟨E.cmsPERCEPTUAL_BLACK_X, E.cmsPERCEPTUAL_BLACK_Y, E.cmsPERCEPTUAL_BLACK_Z⟩,
        [Event.cmsGetDeviceClass, Event.cmsGetEncodedICCversion, Event.cmsIsMatrixShaper]⟩
  else
    let t0 := [Event.cmsGetDeviceClass, Event.cmsGetEncodedICCversion]
    if E.CMS_USE_PROFILE_BLACK_POINT_TAG then
      match ProfileBlackPointTag E hProfile Intent with
      | (some TrustedBlackPoint, t) => ⟨true, TrustedBlackPoint, t0 ++ t⟩
      | (none, t) => (DetectBlackPointV2 E BlackPoint hProfile Intent dwFlags).after (t0 ++ t)
    else
      (DetectBlackPointV2 E BlackPoint hProfile Intent dwFlags).after t0

/-! ## Curve fitting -/

/-- A `cmsFloat64Number` that may fail to be a number: the quotients of the
file are of this kind. -/
inductive cmsFloat64Number where
  | value (r : ℚ)
  | infinite
  | nan
deriving DecidableEq, Repr

/-- The IEEE quotient `a / b` of two numbers: an infinity when only the
divisor is zero (its sign is not recorded), NaN for `0 / 0`. -/
def cmsFloat64Number.div (a b : ℚ) : cmsFloat64Number :=
  if b = 0 then (if a = 0 then .nan else .infinite) else .value (a / b)

/-- An array of doubles on the stack, seen through the pointer to its first
cell: the cells written so far, and indeterminate content everywhere else. -/
def stackArray (E : Env) (cells : List ℚ) : Int → ℚ :=
  fun i => if 0 ≤ i then cells.getD i.toNat (E.indeterminate i) else E.indeterminate i

/-- The linear system that `RootOfLeastSquaresFitQuadraticCurve` builds from
the first `n` samples (lines 284-303): the matrix `m` and the vector `v`. -/
def LeastSquaresSystem (n : Nat) (x y : Int → ℚ) : cmsMAT3 × cmsVEC3 :=
  let idx := List.range n
  let sum_x := (idx.map fun (i : Nat) => x i).sum
  let sum_x2 := (idx.map fun (i : Nat) => x i * x i).sum
  let sum_x3 := (idx.map fun (i : Nat) => x i * x i * x i).sum
  let sum_x4 := (idx.map fun (i : Nat) => x i * x i * x i * x i).sum
  let sum_y := (idx.map fun (i : Nat) => y i).sum
  let sum_yx := (idx.map fun (i : Nat) => y i * x i).sum
  let sum_yx2 := (idx.map fun (i : Nat) => y i * x i * x i).sum
  (⟨⟨n, sum_x, sum_x2⟩, ⟨sum_x, sum_x2, sum_x3⟩, ⟨sum_x2, sum_x3, sum_x4⟩⟩,
    ⟨sum_y, sum_yx, sum_yx2⟩)

/-- `RootOfLeastSquaresFitQuadraticCurve` (lines 272-313). -/
def RootOfLeastSquaresFitQuadraticCurve (E : Env) (n : Nat) (x y : Int → ℚ) :
    cmsFloat64Number :=
  if n < 4 then .value 0
  else
    let (m, v) := LeastSquaresSystem n x y
    match E._cmsMAT3solve m v with
    | none => .value 0
    | some res =>
      let disc := res.n1 * res.n1 - 4.0 * res.n0 * res.n2
      if disc < 0 then .value (-1)
      else cmsFloat64Number.div (-1.0 * res.n1 + E.sqrt disc) (2.0 * res.n0)

/-- The loop of `IsMonotonic` (lines 323-331), with `k = i + 1` iterations
left to run. -/
def IsMonotonicLoop (Table : Int → ℚ) : Nat → ℚ → Bool
  | 0, _ => true
  | k + 1, last => if Table k > last then false else IsMonotonicLoop Table k (Table k)

/-- `IsMonotonic` (lines 315-334). The first read is `Table[n-1]`, also
when `n = 0`. -/
def IsMonotonic (n : Nat) (Table : Int → ℚ) : Bool :=
  let last := Table ((n : Int) - 1)
  IsMonotonicLoop Table (n - 1) last

/-! ## The destination black point -/

/-- Step 1 of `cmsDetectDestinationBlackPoint` (lines 394-413): the initial
Lab and the trace; `none` is the `return FALSE` of line 401. -/
def InitialLab (E : Env) (hProfile : Profile) (Intent dwFlags : Nat) :
    Option cmsCIELab × List Event :=
  if Intent = INTENT_RELATIVE_COLORIMETRIC then
    let IniXYZ : cmsCIEXYZ := ⟨E.indeterminate 0, E.indeterminate 1, E.indeterminate 2⟩
    let r := cmsDetectBlackPoint E IniXYZ hProfile Intent dwFlags
    if !r.ok then (none, r.trace)
    else (some (E.cmsXYZ2Lab r.BlackPoint), r.trace)
  else (some ⟨0, 0, 0⟩, [])

/-- Step 3 of `cmsDetectDestinationBlackPoint` (lines 439-472): the flag
`NearlyStraightMidRange` after the sweep. -/
def NearlyStraightMidRange (hRoundTrip : cmsCIELab → cmsCIELab) (InitialLab : cmsCIELab)
    (MinL MaxL : ℚ) (Intent : Nat) : Bool :=
  if Intent = INTENT_RELATIVE_COLORIMETRIC then
    (List.range 101).all fun (l : Nat) =>
      let destLab := hRoundTrip ⟨l, InitialLab.a, InitialLab.b⟩
      let L := destLab.L
      !(decide (L > MinL + 0.2 * (MaxL - MinL)) && decide (|L - l| > 4.0))
  else false

/-- Step 2 of `cmsDetectDestinationBlackPoint`, lines 423-427: the L* the
round trip answers for the initial Lab with L* set to 0. -/
def MinL (hRoundTrip : cmsCIELab → cmsCIELab) (InitialLab : cmsCIELab) : ℚ :=
  (hRoundTrip ⟨0, InitialLab.a, InitialLab.b⟩).L

/-- Step 2 of `cmsDetectDestinationBlackPoint`, lines 429-433: the L* the
round trip answers for the initial Lab with L* set to 100. -/
def MaxL (hRoundTrip : cmsCIELab → cmsCIELab) (InitialLab : cmsCIELab) : ℚ :=
  (hRoundTrip ⟨100, InitialLab.a, InitialLab.b⟩).L

/-- The bound `lo` of step 4 (lines 491-500). -/
def lo (Intent : Nat) : ℚ := if Intent = INTENT_RELATIVE_COLORIMETRIC then 0.1 else 0.03

/-- The bound `hi` of step 4 (lines 491-500). -/
def hi (Intent : Nat) : ℚ := if Intent = INTENT_RELATIVE_COLORIMETRIC then 0.5 else 0.25

/-- The capture loop of step 4 (lines 502-523): the pairs `(x[i], y[i])`
written, in order; `n` is their number. -/
def CapturePoints (hRoundTrip : cmsCIELab → cmsCIELab) (InitialLab : cmsCIELab)
    (MinL MaxL lo hi : ℚ) : List (ℚ × ℚ) :=
  (List.range 101).filterMap fun (l : Nat) =>
    let Lab : cmsCIELab := ⟨l, InitialLab.a, InitialLab.b⟩
    let destLab := hRoundTrip Lab
    match cmsFloat64Number.div (destLab.L - MinL) (MaxL - MinL) with
    | .value ff => if ff ≥ lo ∧ ff < hi then some (Lab.L, ff) else none
    | _ => none

/-- The search of lines 542-550: `NonMonoIndx` after the loop. -/
def NonMonoIndx (n : Nat) (y : Int → ℚ) : Nat :=
  ((List.range n).foldl
    (fun (s : ℚ × Nat) (i : Nat) => if y i < s.1 then (y i, i) else s) (100, 0)).2

/-- Step 4 of `cmsDetectDestinationBlackPoint` (lines 491-567), entered with
the trace `t` of what came before. `none` stands for the one outcome outside
the model: `return TRUE` after `cmsLab2XYZ` was applied to an L* that is NaN. -/
def Step4 (E : Env) (BlackPoint : cmsCIEXYZ) (hProfile : Profile) (Intent dwFlags : Nat)
    (hRoundTrip : cmsCIELab → cmsCIELab) (InitialLab : cmsCIELab) (MinL MaxL : ℚ)
    (t : List Event) : Option Ret :=
  let pts := CapturePoints hRoundTrip InitialLab MinL MaxL (lo Intent) (hi Intent)
  let n := pts.length
  let x := stackArray E (pts.map Prod.fst)
  let y := stackArray E (pts.map Prod.snd)
  if IsMonotonic n y then
    some ⟨true, E.cmsLab2XYZ InitialLab, t ++ [Event.transformDeleted]⟩
  else if n = 0 then
    some ((cmsDetectBlackPoint E BlackPoint hProfile Intent dwFlags).after
      (t ++ [Event.transformDeleted]))
  else
    let _LabL := x (NonMonoIndx n y)
    match RootOfLeastSquaresFitQuadraticCurve E n x y with
    | .nan => none
    | .infinite =>
      some ⟨true, E.cmsLab2XYZ ⟨0, InitialLab.a, InitialLab.b⟩, t ++ [Event.transformDeleted]⟩
    | .value r =>
      let L : ℚ := if r < 0.0 ∨ r > 50.0 then 0 else r
      some ⟨true, E.cmsLab2XYZ ⟨L, InitialLab.a, InitialLab.b⟩, t ++ [Event.transformDeleted]⟩

/-- Steps 1 to 4 of `cmsDetectDestinationBlackPoint` (lines 391-567), "the
Adobe magic", entered with the trace `t0` of the checks before. -/
def AdobeSteps (E : Env) (BlackPoint : cmsCIEXYZ) (hProfile : Profile) (Intent dwFlags : Nat)
    (t0 : List Event) : Option Ret :=
  match InitialLab E hProfile Intent dwFlags with
  | (none, t1) => some ⟨false, BlackPoint, t0 ++ t1⟩
  | (some InitialLab, t1) =>
    match CreateRoundtripXForm E hProfile Intent with
    | (none, t2) => some ⟨false, BlackPoint, t0 ++ t1 ++ t2⟩
    | (some hRoundTrip, t2) =>
      let MinL := MinL hRoundTrip InitialLab
      let MaxL := MaxL hRoundTrip InitialLab
      if NearlyStraightMidRange hRoundTrip InitialLab MinL MaxL Intent then
        some ⟨true, E.cmsLab2XYZ InitialLab, t0 ++ t1 ++ t2 ++ [Event.transformDeleted]⟩
      else
        Step4 E BlackPoint hProfile Intent dwFlags hRoundTrip InitialLab MinL MaxL
          (t0 ++ t1 ++ t2)

/-- `cmsDetectDestinationBlackPoint` (lines 338-568). -/
def cmsDetectDestinationBlackPoint (E : Env) (BlackPoint : cmsCIEXYZ) (hProfile : Profile)
    (Intent dwFlags : Nat) : Option Ret :=
  if Intent ≠ INTENT_PERCEPTUAL ∧ Intent ≠ INTENT_RELATIVE_COLORIMETRIC ∧
      Intent ≠ INTENT_SATURATION then
    some ⟨false, zeroXYZ, []⟩
  else if hProfile.cmsGetEncodedICCversion ≥ 0x4000000 ∧
      (Intent = INTENT_PERCEPTUAL ∨ Intent = INTENT_SATURATION) then
    if hProfile.cmsIsMatrixShaper then
      some ((BlackPointAsDarkerColorant E hProfile INTENT_RELATIVE_COLORIMETRIC BlackPoint 0).after
        [Event.cmsGetEncodedICCversion, Event.cmsIsMatrixShaper])
    else
      some ⟨true, ⟨E.cmsPERCEPTUAL_BLACK_X, E.cmsPERCEPTUAL_BLACK_Y, E.cmsPERCEPTUAL_BLACK_Z⟩,
        [Event.cmsGetEncodedICCversion, Event.cmsIsMatrixShaper]⟩
  else
    let ColorSpace := hProfile.cmsGetColorSpace
    let t0 := [Event.cmsGetEncodedICCversion, Event.cmsGetColorSpace, Event.cmsIsCLUT]
    if !hProfile.cmsIsCLUT Intent LCMS_USED_AS_OUTPUT ∨
        (ColorSpace ≠ cmsSigGrayData ∧ ColorSpace ≠ cmsSigRgbData ∧
          ColorSpace ≠ cmsSigCmykData) then
      some ((cmsDetectBlackPoint E BlackPoint hProfile Intent dwFlags).after t0)
    else
      AdobeSteps E BlackPoint hProfile Intent dwFlags t0

/-! ## Concrete environments and profiles

The inputs at which the theorems below are instantiated. -/

/-- The dark branch of the CIE conversion Lab -> XYZ with the D50 white point
(0.9642, 1, 0.8249): the branch `f(t) = (841/108) t + 16/116` inverted. The
conversion of lcms2 takes this branch for every L* up to 8 and small chroma. -/
def darkLab2XYZ (c : cmsCIELab) : cmsCIEXYZ :=
  ⟨0.9642 * ((108 / 841) * (c.L / 116 + c.a / 500)), (108 / 841) * (c.L / 116),
    0.8249 * ((108 / 841) * (c.L / 116 - c.b / 200))⟩

/-- The dark branch of the CIE conversion XYZ -> Lab with the D50 white
point, the inverse of `darkLab2XYZ`. -/
def darkXYZ2Lab (c : cmsCIEXYZ) : cmsCIELab :=
  ⟨116 * ((841 / 108) * c.Y), 500 * ((841 / 108) * (c.X / 0.9642 - c.Y)),
    200 * ((841 / 108) * (c.Y - c.Z / 0.8249))⟩

/-- The determinant of a 3x3 matrix. -/
def det3 (m : cmsMAT3) : ℚ :=
  m.v0.n0 * (m.v1.n1 * m.v2.n2 - m.v1.n2 * m.v2.n1)
    - m.v0.n1 * (m.v1.n0 * m.v2.n2 - m.v1.n2 * m.v2.n0)
    + m.v0.n2 * (m.v1.n0 * m.v2.n1 - m.v1.n1 * m.v2.n0)

/-- A solver for `m * res = v` by the rule of Cramer; it fails on a singular
matrix. -/
def cramerSolve (m : cmsMAT3) (v : cmsVEC3) : Option cmsVEC3 :=
  let d := det3 m
  if d = 0 then none
  else some
    ⟨det3 ⟨⟨v.n0, m.v0.n1, m.v0.n2⟩, ⟨v.n1, m.v1.n1, m.v1.n2⟩, ⟨v.n2, m.v2.n1, m.v2.n2⟩⟩ / d,
     det3 ⟨⟨m.v0.n0, v.n0, m.v0.n2⟩, ⟨m.v1.n0, v.n1, m.v1.n2⟩, ⟨m.v2.n0, v.n2, m.v2.n2⟩⟩ / d,
     det3 ⟨⟨m.v0.n0, m.v0.n1, v.n0⟩, ⟨m.v1.n0, m.v1.n1, v.n1⟩, ⟨m.v2.n0, m.v2.n1, v.n2⟩⟩ / d⟩

/-- The darkest colorants of the table `_cmsEndPointsBySpace` of lcms2 for
Gray, RGB and CMYK. -/
def endPoints (Space : Nat) : Option (List Nat × Nat) :=
  if Space = cmsSigGrayData then some ([0], 1)
  else if Space = cmsSigRgbData then some ([0, 0, 0], 3)
  else if Space = cmsSigCmykData then some ([0xffff, 0xffff, 0xffff, 0xffff], 4)
  else none

/-- An environment in which every resource can be created: the round trip of
every profile is `roundTrip`, every profile sends its darkest colorant to
`darkest`, the conversions are the dark branch of the CIE formulas, the solver
is `cramerSolve`, the square root is exact on squares, the constants are those
of `lcms2.h`, and the black point tag is not used. -/
def refEnv (roundTrip : cmsCIELab → cmsCIELab) (darkest : cmsCIELab) : Env where
  cmsCreateLab4Profile := true
  cmsCreateLab2ProfileTHR := true
  cmsCreateExtendedTransform := fun _ _ _ => some roundTrip
  cmsCreateTransformTHR := fun _ _ _ => some fun _ => darkest
  _cmsEndPointsBySpace := endPoints
  T_CHANNELS := fun c => (c / 8) % 16
  cmsLab2XYZ := darkLab2XYZ
  cmsXYZ2Lab := darkXYZ2Lab
  cmsAdaptToIlluminant := fun _ _ v => v
  cmsD50_XYZ := ⟨0.9642, 1, 0.8249⟩
  _cmsMAT3solve := cramerSolve
  sqrt := Rat.sqrt
  cmsPERCEPTUAL_BLACK_X := 0.00336
  cmsPERCEPTUAL_BLACK_Y := 0.0034731
  cmsPERCEPTUAL_BLACK_Z := 0.00287
  CMS_USE_PROFILE_BLACK_POINT_TAG := false
  indeterminate := fun _ => 0

/-- A profile that answers every query about intents and lookup tables with
yes and carries no black point tag. -/
def mkProfile (DeviceClass ColorSpace Version Formatter : Nat) (MatrixShaper : Bool) :
    Profile where
  cmsGetDeviceClass := DeviceClass
  cmsGetColorSpace := ColorSpace
  cmsGetEncodedICCversion := Version
  cmsIsMatrixShaper := MatrixShaper
  cmsIsIntentSupported := fun _ _ => true
  cmsIsCLUT := fun _ _ => true
  cmsFormatterForColorspaceOfProfile := Formatter
  cmsIsTag := false
  cmsReadTag := none
  _cmsReadMediaWhitePoint := ⟨0.9642, 1, 0.8249⟩

/-- A version 2.1 RGB display profile ("mntr") built on lookup tables; its
16 bit formatter is `TYPE_RGB_16`. -/
def rgbDisplayV2 : Profile := mkProfile 0x6D6E7472 cmsSigRgbData 0x2100000 0x4001A false

/-- A version 4.2 RGB display profile built on lookup tables. -/
def rgbDisplayV4 : Profile := mkProfile 0x6D6E7472 cmsSigRgbData 0x4200000 0x4001A false

/-- A version 4.2 RGB display profile that is a matrix-shaper. -/
def rgbMatrixV4 : Profile := mkProfile 0x6D6E7472 cmsSigRgbData 0x4200000 0x4001A true

/-- A version 2.1 device-link profile between RGB spaces. -/
def rgbLinkV2 : Profile := mkProfile cmsSigLinkClass cmsSigRgbData 0x2100000 0x4001A false

/-- A version 2.1 RGB printer profile ("prtr") that has lookup tables for the
output direction only: no intent is supported in the input direction. -/
def rgbPrinterB2A : Profile :=
  { mkProfile cmsSigOutputClass cmsSigRgbData 0x2100000 0x4001A false with
    cmsIsIntentSupported := fun _ d => decide (d = LCMS_USED_AS_OUTPUT) }

/-- The round trip that maps every Lab to itself. -/
def identityRoundTrip : cmsCIELab → cmsCIELab := fun c => c

/-- A round trip that answers L* = 50 whatever the input. -/
def flatRoundTrip : cmsCIELab → cmsCIELab := fun c => ⟨50, c.a, c.b⟩

/-- A round trip whose L* response is 0 at 0, 20 at 1, 10 at 2, 100 at 100 and
50 everywhere else. -/
def kinkRoundTrip : cmsCIELab → cmsCIELab := fun c =>
  ⟨if c.L = 0 then 0 else if c.L = 1 then 20 else if c.L = 2 then 10
    else if c.L = 100 then 100 else 50, c.a, c.b⟩

/-- The reference environment with the identity round trip and a darkest
colorant of L* = 5 with some chroma. -/
def refEnv0 : Env := refEnv identityRoundTrip ⟨5, 1, -1⟩

/-- The reference environment, except that no extended transform can be
created. -/
def noRoundTripEnv : Env :=
  { refEnv0 with cmsCreateExtendedTransform := fun _ _ _ => none }

/-- Sample abscissas 0, 1, 2, 3, ... -/
def parabolaX : Int → ℚ := fun i => i

/-- Samples of the parabola `y = x^2 - 5 x + 6`, whose roots are 2 and 3. -/
def parabolaY : Int → ℚ := fun i => (i : ℚ) * i - 5 * i + 6

/-! ## Predicates used in the statements -/

/-- The guards before step 1 of `cmsDetectDestinationBlackPoint` all let the
call through: the intent is adequate (lines 353-355), the version 4 case does
not apply (lines 363-364), and the profile is lut based and gray, rgb or cmyk
(lines 380-383). -/
def AdobeCase (hProfile : Profile) (Intent : Nat) : Prop :=
  (Intent = INTENT_PERCEPTUAL ∨ Intent = INTENT_RELATIVE_COLORIMETRIC ∨
    Intent = INTENT_SATURATION) ∧
  ¬(hProfile.cmsGetEncodedICCversion ≥ 0x4000000 ∧
    (Intent = INTENT_PERCEPTUAL ∨ Intent = INTENT_SATURATION)) ∧
  hProfile.cmsIsCLUT Intent LCMS_USED_AS_OUTPUT = true ∧
  (hProfile.cmsGetColorSpace = cmsSigGrayData ∨ hProfile.cmsGetColorSpace = cmsSigRgbData ∨
    hProfile.cmsGetColorSpace = cmsSigCmykData)

instance (hProfile : Profile) (Intent : Nat) : Decidable (AdobeCase hProfile Intent) := by
  unfold AdobeCase; infer_instance

/-- Every L* that the collaborators answer for this profile is non-negative:
the L* of whatever a transform profile -> Lab yields, the L* a round trip
yields for an input of non-negative L*, and, for the black point tag, the L* of
the adapted tag value. -/
def NonNegativeResponses (E : Env) (hProfile : Profile) : Prop :=
  (∀ (fmt i : Nat) (xform : List Nat → cmsCIELab) (c : List Nat),
    E.cmsCreateTransformTHR hProfile fmt i = some xform → 0 ≤ (xform c).L) ∧
  (∀ (b : Bool) (i : Nat) (xform : cmsCIELab → cmsCIELab) (c : cmsCIELab),
    E.cmsCreateExtendedTransform b hProfile i = some xform → 0 ≤ c.L → 0 ≤ (xform c).L) ∧
  (∀ t : cmsCIEXYZ, hProfile.cmsReadTag = some t →
    0 ≤ (E.cmsXYZ2Lab (E.cmsAdaptToIlluminant hProfile._cmsReadMediaWhitePoint E.cmsD50_XYZ t)).L)

/-- The triplet `p`, converted to Lab, is a neutral with L* at most 50, and
with L* at least 0 when `nonneg` holds. -/
def DarkNeutral (E : Env) (nonneg : Prop) (p : cmsCIEXYZ) : Prop :=
  (E.cmsXYZ2Lab p).a = 0 ∧ (E.cmsXYZ2Lab p).b = 0 ∧ (E.cmsXYZ2Lab p).L ≤ 50 ∧
    (nonneg → 0 ≤ (E.cmsXYZ2Lab p).L)

/-! ## Resources and array accesses -/

/-- The trace of a call of `cmsDetectDestinationBlackPoint` in every case. For
the outcome that `cmsDetectDestinationBlackPoint` leaves out, an L* that is NaN,
lines 564-567 run as for any other root: the trace is that of the checks and of
steps 1 and 2, followed by the release of the round trip. -/
def cmsDetectDestinationBlackPointTrace (E : Env) (BlackPoint : cmsCIEXYZ) (hProfile : Profile)
    (Intent dwFlags : Nat) : List Event :=
  match cmsDetectDestinationBlackPoint E BlackPoint hProfile Intent dwFlags with
  | some r => r.trace
  | none =>
    [Event.cmsGetEncodedICCversion, Event.cmsGetColorSpace, Event.cmsIsCLUT] ++
      (InitialLab E hProfile Intent dwFlags).2 ++ (CreateRoundtripXForm E hProfile Intent).2 ++
      [Event.transformDeleted]

/-- The collaborators as counters: in the trace, as many auxiliary profiles
were closed as were created, and as many transforms deleted as created. -/
def Balanced (t : List Event) : Prop :=
  t.count Event.profileCreated = t.count Event.profileClosed ∧
  t.count Event.transformCreated = t.count Event.transformDeleted

instance (t : List Event) : Decidable (Balanced t) := by
  unfold Balanced; infer_instance

/-- The indices of the cells of `Table` that the loop of `IsMonotonic` reads
(lines 323-331), in order, with `k = i + 1` iterations left to run. -/
def IsMonotonicLoopReads (Table : Int → ℚ) : Nat → ℚ → List Int
  | 0, _ => []
  | k + 1, last =>
    (k : Int) :: (if Table k > last then [] else IsMonotonicLoopReads Table k (Table k))

/-- The indices of the cells of `Table` that `IsMonotonic` reads (lines
321-331), in order: `Table[n-1]` first, then the cells the loop reads. -/
def IsMonotonicReads (n : Nat) (Table : Int → ℚ) : List Int :=
  ((n : Int) - 1) :: IsMonotonicLoopReads Table (n - 1) (Table ((n : Int) - 1))

/-- The indices of the cells of `x` and of `y` that
`RootOfLeastSquaresFitQuadraticCurve` reads (lines 282-297): none when `n < 4`,
the cells 0 to `n - 1` otherwise. -/
def RootOfLeastSquaresFitQuadraticCurveReads (n : Nat) : List Int :=
  if n < 4 then [] else (List.range n).map fun (i : Nat) => (i : Int)

/-! ## More concrete profiles and round trips -/

/-- A version 4.2 device-link profile between RGB spaces, built on lookup
tables. -/
def rgbLinkV4 : Profile := mkProfile cmsSigLinkClass cmsSigRgbData 0x4200000 0x4001A false

/-- A version 2.1 CMYK printer profile ("prtr") that does not support the
perceptual intent in the input direction; its 16 bit formatter is
`TYPE_CMYK_16`. -/
def cmykPrinterV2 : Profile :=
  { mkProfile cmsSigOutputClass cmsSigCmykData 0x2100000 0x60022 false with
    cmsIsIntentSupported := fun i d =>
      !(decide (i = INTENT_PERCEPTUAL) && decide (d = LCMS_USED_AS_INPUT)) }

/-- A round trip whose L* response is 0 at 0, then 8, 12, 12, 8 at 1 to 4, 64
at 100 and 50 everywhere else: the normalized responses at 1 to 4 are 1/8, 3/16,
3/16, 1/8, samples of the parabola `y = (5/32) x - (1/32) x^2`, whose constant
term is 0. -/
def toeRoundTrip : cmsCIELab → cmsCIELab := fun c =>
  ⟨if c.L = 0 then 0 else if c.L = 1 then 8 else if c.L = 2 then 12 else if c.L = 3 then 12
    else if c.L = 4 then 8 else if c.L = 100 then 64 else 50, c.a, c.b⟩

/-! ## The curve fit without a number -/

/-- The call of `cmsDetectDestinationBlackPoint` reaches the curve fit of step
4 (lines 542-567) and the fitter returns a NaN: the guards let the call through
to step 1, the initial Lab and the round trip exist, the flag
`NearlyStraightMidRange` is FALSE after step 3, `IsMonotonic(n, y)` is FALSE on
the retained samples, and `RootOfLeastSquaresFitQuadraticCurve(n, x, y)` divides
0 by 0 (line 312). -/
def CurveFitIsNaN (E : Env) (hProfile : Profile) (Intent dwFlags : Nat) : Prop :=
  AdobeCase hProfile Intent ∧
  ∃ (Lab0 : cmsCIELab) (t1 : List Event) (hRoundTrip : cmsCIELab → cmsCIELab)
      (t2 : List Event),
    InitialLab E hProfile Intent dwFlags = (some Lab0, t1) ∧
    CreateRoundtripXForm E hProfile Intent = (some hRoundTrip, t2) ∧
    NearlyStraightMidRange hRoundTrip Lab0 (MinL hRoundTrip Lab0) (MaxL hRoundTrip Lab0)
      Intent = false ∧
    IsMonotonic
      (CapturePoints hRoundTrip Lab0 (MinL hRoundTrip Lab0) (MaxL hRoundTrip Lab0)
        (lo Intent) (hi Intent)).length
      (stackArray E ((CapturePoints hRoundTrip Lab0 (MinL hRoundTrip Lab0)
        (MaxL hRoundTrip Lab0) (lo Intent) (hi Intent)).map Prod.snd)) = false ∧
    RootOfLeastSquaresFitQuadraticCurve E
      (CapturePoints hRoundTrip Lab0 (MinL hRoundTrip Lab0) (MaxL hRoundTrip Lab0)
        (lo Intent) (hi Intent)).length
      (stackArray E ((CapturePoints hRoundTrip Lab0 (MinL hRoundTrip Lab0)
        (MaxL hRoundTrip Lab0) (lo Intent) (hi Intent)).map Prod.fst))
      (stackArray E ((CapturePoints hRoundTrip Lab0 (MinL hRoundTrip Lab0)
        (MaxL hRoundTrip Lab0) (lo Intent) (hi Intent)).map Prod.snd)) = .nan

/-! ## Properties -/

/-- Prefixing a trace changes neither the returned flag nor the triplet. -/
@[simp] theorem Ret.after_ok (t : List Event) (r : Ret) : (r.after t).ok = r.ok := rfl

@[simp] theorem Ret.after_BlackPoint (t : List Event) (r : Ret) :
    (r.after t).BlackPoint = r.BlackPoint := rfl

@[simp] theorem Ret.after_trace (t : List Event) (r : Ret) :
    (r.after t).trace = t ++ r.trace := rfl

/-! ### Auxiliary facts -/

/-- The loop of `IsMonotonic` answers TRUE exactly when the cells below `k`
are non-decreasing and the last of them does not exceed `last`. -/
theorem IsMonotonicLoop_iff (Table : Int → ℚ) : ∀ (k : Nat) (last : ℚ),
    IsMonotonicLoop Table k last = true ↔
      (∀ i : Nat, i + 1 < k → Table i ≤ Table ((i : Int) + 1)) ∧
      (∀ j : Nat, j + 1 = k → Table j ≤ last) := by
  intro k
  induction k with
  | zero => intro last; simp [IsMonotonicLoop]
  | succ k ih =>
    intro last
    simp only [IsMonotonicLoop]
    by_cases h : Table k > last
    · simp only [h, if_true]
      constructor
      · intro hf; cases hf
      · rintro ⟨-, h2⟩
        exact absurd (h2 k rfl) (not_le.mpr h)
    · simp only [h, if_false, ih]
      constructor
      · rintro ⟨h1, h2⟩
        refine ⟨fun i hi => ?_, fun j hj => ?_⟩
        · rcases Nat.lt_succ_iff_lt_or_eq.mp hi with h3 | h3
          · exact h1 i h3
          · have := h2 i h3
            rw [← h3] at this
            push_cast at this
            exact this
        · have : j = k := by omega
          subst this
          exact not_lt.mp h
      · rintro ⟨h1, h2⟩
        refine ⟨fun i hi => h1 i (by omega), fun j hj => ?_⟩
        have := h1 j (by omega)
        rw [← hj]
        push_cast
        exact this

/-- The function `IsMonotonic` answers TRUE exactly when the first `n` cells of the
table are non-decreasing; the cell it reads first plays no part when `n = 0`. -/
theorem IsMonotonic_iff (n : Nat) (Table : Int → ℚ) :
    IsMonotonic n Table = true ↔ ∀ i : Nat, i + 1 < n → Table i ≤ Table ((i : Int) + 1) := by
  simp only [IsMonotonic, IsMonotonicLoop_iff]
  constructor
  · rintro ⟨h1, h2⟩ i hi
    by_cases h : i + 1 < n - 1
    · exact h1 i h
    · have h3 : i + 1 = n - 1 := by omega
      have := h2 i h3
      have h4 : ((n : Int) - 1) = (i : Int) + 1 := by omega
      rw [h4] at this
      exact this
  · intro h
    refine ⟨fun i hi => h i (by omega), fun j hj => ?_⟩
    have h4 : ((n : Int) - 1) = (j : Int) + 1 := by omega
    rw [h4]
    exact h j (by omega)

/-- Reading a written cell of a stack array gives what was written. -/
theorem stackArray_lt (E : Env) (cells : List ℚ) (i : Nat) (h : i < cells.length) :
    stackArray E cells i = cells.get ⟨i, h⟩ := by
  simp [stackArray, List.getD_eq_getElem?_getD, List.getElem?_eq_getElem h]

/-- On the written cells of a stack array, `IsMonotonic` decides whether the
list of these cells is sorted. -/
theorem IsMonotonic_stackArray (E : Env) (cells : List ℚ) :
    IsMonotonic cells.length (stackArray E cells) = true ↔ List.Sorted (· ≤ ·) cells := by
  rw [IsMonotonic_iff, List.Sorted, ← List.chain'_iff_pairwise, List.chain'_iff_get]
  constructor
  · intro h i hi
    have h1 := h i (by omega)
    have e1 := stackArray_lt E cells i (by omega)
    have e2 := stackArray_lt E cells (i + 1) (by omega)
    push_cast at e2
    rw [e1, e2] at h1
    exact h1
  · intro h i hi
    have h1 := h i (by omega)
    have e1 := stackArray_lt E cells i (by omega)
    have e2 := stackArray_lt E cells (i + 1) (by omega)
    push_cast at e2
    rw [e1, e2]
    exact h1

/-- Every path of `cmsDetectBlackPoint` writes the output triplet: its content
before the call has no influence on the result. -/
theorem cmsDetectBlackPoint_output (E : Env) (BlackPoint BlackPoint2 : cmsCIEXYZ)
    (hProfile : Profile) (Intent dwFlags : Nat) :
    cmsDetectBlackPoint E BlackPoint hProfile Intent dwFlags =
      cmsDetectBlackPoint E BlackPoint2 hProfile Intent dwFlags := rfl

/-- When the guards before step 1 let the call through, `cmsDetectDestinationBlackPoint`
is its steps 1 to 4. -/
theorem cmsDetectDestinationBlackPoint_AdobeCase (E : Env) (BlackPoint : cmsCIEXYZ)
    (hProfile : Profile) (Intent dwFlags : Nat) (hCase : AdobeCase hProfile Intent) :
    cmsDetectDestinationBlackPoint E BlackPoint hProfile Intent dwFlags =
      AdobeSteps E BlackPoint hProfile Intent dwFlags
        [Event.cmsGetEncodedICCversion, Event.cmsGetColorSpace, Event.cmsIsCLUT] := by
  obtain ⟨hI, hV, hC, hS⟩ := hCase
  have hI2 : ¬(Intent ≠ INTENT_PERCEPTUAL ∧ Intent ≠ INTENT_RELATIVE_COLORIMETRIC ∧
      Intent ≠ INTENT_SATURATION) := by
    rcases hI with h | h | h <;> simp [h, INTENT_PERCEPTUAL, INTENT_RELATIVE_COLORIMETRIC,
      INTENT_SATURATION]
  have hS2 : ¬(hProfile.cmsGetColorSpace ≠ cmsSigGrayData ∧
      hProfile.cmsGetColorSpace ≠ cmsSigRgbData ∧ hProfile.cmsGetColorSpace ≠ cmsSigCmykData) := by
    rcases hS with h | h | h <;> simp [h, cmsSigGrayData, cmsSigRgbData, cmsSigCmykData]
  simp only [cmsDetectDestinationBlackPoint, if_neg hI2, if_neg hV, hC, Bool.not_true,
    Bool.false_eq_true, false_or, if_neg hS2]

/-- Step 4 accepts the initial Lab when the retained responses are sorted; the
empty list of an empty band is sorted too, so the test `n == 0` that follows
`IsMonotonic` is never reached with `n = 0`. -/
theorem Step4_sorted (E : Env) (BlackPoint : cmsCIEXYZ) (hProfile : Profile)
    (Intent dwFlags : Nat) (hRoundTrip : cmsCIELab → cmsCIELab) (Lab0 : cmsCIELab)
    (MinL MaxL : ℚ) (t : List Event)
    (hSorted : List.Sorted (· ≤ ·)
      ((CapturePoints hRoundTrip Lab0 MinL MaxL (lo Intent) (hi Intent)).map Prod.snd)) :
    Step4 E BlackPoint hProfile Intent dwFlags hRoundTrip Lab0 MinL MaxL t =
      some ⟨true, E.cmsLab2XYZ Lab0, t ++ [Event.transformDeleted]⟩ := by
  have h := (IsMonotonic_stackArray E _).mpr hSorted
  rw [List.length_map] at h
  simp only [Step4, h, if_true]

/-- With fewer than 4 samples the fitter returns 0. -/
theorem RootOfLeastSquaresFitQuadraticCurve_lt_four (E : Env) (n : Nat) (x y : Int → ℚ)
    (h : n < 4) : RootOfLeastSquaresFitQuadraticCurve E n x y = .value 0 := by
  simp [RootOfLeastSquaresFitQuadraticCurve, h]

/-- Step 4 with 2 or 3 retained samples that are not sorted: the fitter returns
0 and the result is the initial Lab with L* = 0. -/
theorem Step4_few (E : Env) (BlackPoint : cmsCIEXYZ) (hProfile : Profile)
    (Intent dwFlags : Nat) (hRoundTrip : cmsCIELab → cmsCIELab) (Lab0 : cmsCIELab)
    (MinL MaxL : ℚ) (t : List Event)
    (hSorted : ¬ List.Sorted (· ≤ ·)
      ((CapturePoints hRoundTrip Lab0 MinL MaxL (lo Intent) (hi Intent)).map Prod.snd))
    (hFew : (CapturePoints hRoundTrip Lab0 MinL MaxL (lo Intent) (hi Intent)).length < 4) :
    Step4 E BlackPoint hProfile Intent dwFlags hRoundTrip Lab0 MinL MaxL t =
      some ⟨true, E.cmsLab2XYZ ⟨0, Lab0.a, Lab0.b⟩, t ++ [Event.transformDeleted]⟩ := by
  have h : ¬ IsMonotonic (CapturePoints hRoundTrip Lab0 MinL MaxL (lo Intent) (hi Intent)).length
      (stackArray E ((CapturePoints hRoundTrip Lab0 MinL MaxL (lo Intent) (hi Intent)).map
        Prod.snd)) = true := by
    intro hm
    apply hSorted
    rw [← IsMonotonic_stackArray E, List.length_map]
    exact hm
  have hn : (CapturePoints hRoundTrip Lab0 MinL MaxL (lo Intent) (hi Intent)).length ≠ 0 := by
    intro h0
    apply hSorted
    rw [List.length_eq_zero.mp h0]
    simp
  simp only [Step4, h, if_false, hn, RootOfLeastSquaresFitQuadraticCurve_lt_four E _ _ _ hFew]
  simp

/-- Steps 2 and 3 once the initial Lab and the round trip exist. -/
theorem AdobeSteps_of (E : Env) (BlackPoint : cmsCIEXYZ) (hProfile : Profile)
    (Intent dwFlags : Nat) (t0 : List Event) (Lab0 : cmsCIELab) (t1 : List Event)
    (hRoundTrip : cmsCIELab → cmsCIELab) (t2 : List Event)
    (hIni : InitialLab E hProfile Intent dwFlags = (some Lab0, t1))
    (hXf : CreateRoundtripXForm E hProfile Intent = (some hRoundTrip, t2)) :
    AdobeSteps E BlackPoint hProfile Intent dwFlags t0 =
      if NearlyStraightMidRange hRoundTrip Lab0 (MinL hRoundTrip Lab0) (MaxL hRoundTrip Lab0)
          Intent then
        some ⟨true, E.cmsLab2XYZ Lab0, t0 ++ t1 ++ t2 ++ [Event.transformDeleted]⟩
      else
        Step4 E BlackPoint hProfile Intent dwFlags hRoundTrip Lab0 (MinL hRoundTrip Lab0)
          (MaxL hRoundTrip Lab0) (t0 ++ t1 ++ t2) := by
  simp only [AdobeSteps, hIni, hXf]

/-- A failure of `BlackPointAsDarkerColorant` leaves the zero triplet. -/
theorem BlackPointAsDarkerColorant_failure (E : Env) (hInput : Profile) (Intent : Nat)
    (BlackPoint : cmsCIEXYZ) (dwFlags : Nat) :
    (BlackPointAsDarkerColorant E hInput Intent BlackPoint dwFlags).ok = false →
    (BlackPointAsDarkerColorant E hInput Intent BlackPoint dwFlags).BlackPoint = zeroXYZ := by
  unfold BlackPointAsDarkerColorant
  simp only
  split
  · intro _; rfl
  · split
    · intro _; rfl
    · split
      · intro _; rfl
      · split
        · intro _; rfl
        · split
          · intro _; rfl
          · intro h; simp at h

/-- A failure of `BlackPointUsingPerceptualBlack` leaves the zero triplet. -/
theorem BlackPointUsingPerceptualBlack_failure (E : Env) (BlackPoint : cmsCIEXYZ)
    (hProfile : Profile) :
    (BlackPointUsingPerceptualBlack E BlackPoint hProfile).ok = false →
    (BlackPointUsingPerceptualBlack E BlackPoint hProfile).BlackPoint = zeroXYZ := by
  unfold BlackPointUsingPerceptualBlack
  simp only
  split
  · intro _; rfl
  · split
    · intro _; rfl
    · intro h; simp at h

/-- A failure of the last part of `cmsDetectBlackPoint` leaves the zero triplet. -/
theorem DetectBlackPointV2_failure (E : Env) (BlackPoint : cmsCIEXYZ) (hProfile : Profile)
    (Intent dwFlags : Nat) :
    (DetectBlackPointV2 E BlackPoint hProfile Intent dwFlags).ok = false →
    (DetectBlackPointV2 E BlackPoint hProfile Intent dwFlags).BlackPoint = zeroXYZ := by
  unfold DetectBlackPointV2
  split
  · exact BlackPointAsDarkerColorant_failure _ _ _ _ _
  · split
    · simpa using BlackPointAsDarkerColorant_failure E hProfile Intent BlackPoint dwFlags
    · split
      · simpa using BlackPointAsDarkerColorant_failure E hProfile Intent BlackPoint dwFlags
      · simpa using BlackPointUsingPerceptualBlack_failure E BlackPoint hProfile

/-- A failure of `cmsDetectBlackPoint` leaves the zero triplet, on every path. -/
theorem cmsDetectBlackPoint_failure (E : Env) (BlackPoint : cmsCIEXYZ) (hProfile : Profile)
    (Intent dwFlags : Nat) :
    (cmsDetectBlackPoint E BlackPoint hProfile Intent dwFlags).ok = false →
    (cmsDetectBlackPoint E BlackPoint hProfile Intent dwFlags).BlackPoint = zeroXYZ := by
  unfold cmsDetectBlackPoint
  split
  · intro _; rfl
  · split
    · split
      · simpa using BlackPointAsDarkerColorant_failure E hProfile INTENT_RELATIVE_COLORIMETRIC
          BlackPoint 0
      · intro h; simp at h
    · simp only
      split
      · split
        · intro h; simp at h
        · simpa using DetectBlackPointV2_failure E BlackPoint hProfile Intent dwFlags
      · simpa using DetectBlackPointV2_failure E BlackPoint hProfile Intent dwFlags

/-- The normal equations of the four samples of `parabolaY`. -/
theorem LeastSquaresSystem_parabola :
    LeastSquaresSystem 4 parabolaX parabolaY =
      (⟨⟨4, 6, 14⟩, ⟨6, 14, 36⟩, ⟨14, 36, 98⟩⟩, ⟨8, 2, 2⟩) := by
  simp [LeastSquaresSystem, parabolaX, parabolaY, List.range_succ]
  norm_num

/-- Their solution: constant term 6, linear coefficient -5, leading coefficient 1. -/
theorem cramerSolve_parabola :
    cramerSolve ⟨⟨4, 6, 14⟩, ⟨6, 14, 36⟩, ⟨14, 36, 98⟩⟩ ⟨8, 2, 2⟩ = some ⟨6, -5, 1⟩ := by
  simp [cramerSolve, det3]
  norm_num

/-- No sample is retained when `MinL = MaxL`: every quotient is an infinity or a
NaN. -/
theorem CapturePoints_degenerate (hRoundTrip : cmsCIELab → cmsCIELab) (Lab0 : cmsCIELab)
    (MinL MaxL lo hi : ℚ) (h : MinL = MaxL) :
    CapturePoints hRoundTrip Lab0 MinL MaxL lo hi = [] := by
  subst h
  unfold CapturePoints
  rw [List.filterMap_eq_nil_iff]
  intro l _
  simp only [sub_self, cmsFloat64Number.div, if_true]
  split_ifs <;> rfl

set_option maxRecDepth 100000 in
set_option maxHeartbeats 4000000 in
/-- The samples retained from `kinkRoundTrip` under the perceptual intent. -/
theorem CapturePoints_kink :
    CapturePoints kinkRoundTrip ⟨0, 0, 0⟩ (MinL kinkRoundTrip ⟨0, 0, 0⟩)
      (MaxL kinkRoundTrip ⟨0, 0, 0⟩) (lo INTENT_PERCEPTUAL) (hi INTENT_PERCEPTUAL) =
      [(1, 1 / 5), (2, 1 / 10)] := by
  simp [CapturePoints, kinkRoundTrip, MinL, MaxL, lo, hi, cmsFloat64Number.div, List.range_succ,
    INTENT_RELATIVE_COLORIMETRIC, INTENT_PERCEPTUAL, List.filterMap_cons]
  norm_num

/-- The initial Lab under the perceptual intent. -/
theorem InitialLab_perceptual (E : Env) (hProfile : Profile) (dwFlags : Nat) :
    InitialLab E hProfile INTENT_PERCEPTUAL dwFlags = (some ⟨0, 0, 0⟩, []) := by
  simp [InitialLab, INTENT_PERCEPTUAL, INTENT_RELATIVE_COLORIMETRIC]

/-- The round trip of the reference environment. -/
theorem CreateRoundtripXForm_refEnv (roundTrip : cmsCIELab → cmsCIELab) (darkest : cmsCIELab)
    (hProfile : Profile) (Intent : Nat) :
    CreateRoundtripXForm (refEnv roundTrip darkest) hProfile Intent =
      (some roundTrip, [Event.profileCreated, Event.cmsGetProfileContextID,
        Event.transformCreated, Event.profileClosed]) := by
  simp [CreateRoundtripXForm, refEnv]

/-- The profile `rgbDisplayV2` passes the guards before step 1. -/
theorem AdobeCase_rgbDisplayV2 (Intent : Nat)
    (h : Intent = INTENT_PERCEPTUAL ∨ Intent = INTENT_RELATIVE_COLORIMETRIC ∨
      Intent = INTENT_SATURATION) : AdobeCase rgbDisplayV2 Intent := by
  refine ⟨h, ?_, rfl, Or.inr (Or.inl rfl)⟩
  simp [rgbDisplayV2, mkProfile]

/-- The black point `cmsDetectBlackPoint` finds for `rgbDisplayV2` under the
perceptual intent: the darker colorant, made neutral. -/
theorem cmsDetectBlackPoint_rgbDisplayV2_perceptual (roundTrip : cmsCIELab → cmsCIELab)
    (BlackPoint : cmsCIEXYZ) (dwFlags : Nat) :
    cmsDetectBlackPoint (refEnv roundTrip ⟨5, 1, -1⟩) BlackPoint rgbDisplayV2
      INTENT_PERCEPTUAL dwFlags =
      ⟨true, darkLab2XYZ ⟨5, 0, 0⟩, [Event.cmsGetDeviceClass, Event.cmsGetEncodedICCversion,
        Event.cmsGetProfileContextID, Event.cmsIsIntentSupported,
        Event.cmsFormatterForColorspaceOfProfile, Event.cmsGetColorSpace, Event.profileCreated,
        Event.transformCreated, Event.profileClosed, Event.transformDeleted]⟩ := by
  simp [cmsDetectBlackPoint, DetectBlackPointV2, BlackPointAsDarkerColorant, rgbDisplayV2,
    mkProfile, refEnv, endPoints, INTENT_RELATIVE_COLORIMETRIC, INTENT_PERCEPTUAL,
    INTENT_SATURATION, LCMS_USED_AS_INPUT, cmsSigRgbData, cmsSigGrayData, cmsSigCmykData,
    cmsSigLinkClass, Ret.after]
  norm_num

/-- A round trip whose L* response does not decrease along the sweep retains
sorted responses. -/
theorem CapturePoints_sorted (hRoundTrip : cmsCIELab → cmsCIELab) (Lab0 : cmsCIELab)
    (MinL MaxL lo hi : ℚ) (hle : MinL ≤ MaxL)
    (hMono : ∀ i j : Nat, i ≤ j → j ≤ 100 →
      (hRoundTrip ⟨i, Lab0.a, Lab0.b⟩).L ≤ (hRoundTrip ⟨j, Lab0.a, Lab0.b⟩).L) :
    List.Sorted (· ≤ ·) ((CapturePoints hRoundTrip Lab0 MinL MaxL lo hi).map Prod.snd) := by
  unfold List.Sorted CapturePoints
  rw [List.pairwise_map, List.pairwise_filterMap]
  refine List.Pairwise.imp_of_mem ?_ (List.pairwise_lt_range 101)
  intro i j _ hj hij p hp q hq
  have hj2 : j ≤ 100 := by
    have := List.mem_range.mp hj
    omega
  have hm := hMono i j (le_of_lt hij) hj2
  simp only [cmsFloat64Number.div] at hp hq
  by_cases hz : MaxL - MinL = 0
  · simp only [hz, if_true] at hp
    split_ifs at hp <;> simp at hp
  · simp only [hz, if_false] at hp hq
    split_ifs at hp hq <;> simp at hp hq
    rw [← hp, ← hq]
    have hpos : 0 < MaxL - MinL := lt_of_le_of_ne (by linarith) (Ne.symm hz)
    exact div_le_div_of_nonneg_right (by linarith) (le_of_lt hpos)

/-- Clipping an L* to 50 gives a dark neutral exactly when the chroma is zero. -/
theorem DarkNeutral_clip (E : Env) (nn : Prop) (hInv : ∀ c, E.cmsXYZ2Lab (E.cmsLab2XYZ c) = c)
    (L a b : ℚ) (h0 : nn → 0 ≤ L) :
    DarkNeutral E nn (E.cmsLab2XYZ (if L > 50 then ⟨50, a, b⟩ else ⟨L, a, b⟩)) ↔
      a = 0 ∧ b = 0 := by
  unfold DarkNeutral
  rw [hInv]
  split_ifs with h
  · simp
  · push_neg at h
    simp only [h, true_and]
    exact ⟨fun hab => ⟨hab.1, hab.2.1⟩, fun hab => ⟨hab.1, hab.2, h0⟩⟩

/-- The zero triplet is a dark neutral when it is the XYZ of Lab (0,0,0). -/
theorem DarkNeutral_zero (E : Env) (nn : Prop) (hInv : ∀ c, E.cmsXYZ2Lab (E.cmsLab2XYZ c) = c)
    (hZero : E.cmsLab2XYZ ⟨0, 0, 0⟩ = zeroXYZ) : DarkNeutral E nn zeroXYZ := by
  unfold DarkNeutral
  rw [← hZero, hInv]
  norm_num

/-- A success of `BlackPointAsDarkerColorant` is a dark neutral. -/
theorem BlackPointAsDarkerColorant_DarkNeutral (E : Env) (hInput : Profile) (Intent : Nat)
    (BlackPoint : cmsCIEXYZ) (dwFlags : Nat) (nn : Prop)
    (hInv : ∀ c, E.cmsXYZ2Lab (E.cmsLab2XYZ c) = c)
    (hResp : nn → NonNegativeResponses E hInput) :
    (BlackPointAsDarkerColorant E hInput Intent BlackPoint dwFlags).ok = true →
    DarkNeutral E nn (BlackPointAsDarkerColorant E hInput Intent BlackPoint dwFlags).BlackPoint := by
  unfold BlackPointAsDarkerColorant
  simp only
  split
  · intro h; simp at h
  · split
    · intro h; simp at h
    · split
      · intro h; simp at h
      · split
        · intro h; simp at h
        · split
          · intro h; simp at h
          · rename_i xform hx
            intro _
            exact (DarkNeutral_clip E nn hInv _ 0 0
              (fun hn => (hResp hn).1 _ _ _ _ hx)).mpr ⟨rfl, rfl⟩

/-- A success of `BlackPointUsingPerceptualBlack` is a dark neutral. -/
theorem BlackPointUsingPerceptualBlack_DarkNeutral (E : Env) (BlackPoint : cmsCIEXYZ)
    (hProfile : Profile) (nn : Prop)
    (hInv : ∀ c, E.cmsXYZ2Lab (E.cmsLab2XYZ c) = c)
    (hZero : E.cmsLab2XYZ ⟨0, 0, 0⟩ = zeroXYZ)
    (hResp : nn → NonNegativeResponses E hProfile) :
    (BlackPointUsingPerceptualBlack E BlackPoint hProfile).ok = true →
    DarkNeutral E nn (BlackPointUsingPerceptualBlack E BlackPoint hProfile).BlackPoint := by
  unfold BlackPointUsingPerceptualBlack
  simp only
  split
  · intro _
    exact DarkNeutral_zero E nn hInv hZero
  · split
    · intro h; simp at h
    · rename_i hRoundTrip t hx
      intro _
      have hx2 : E.cmsCreateExtendedTransform E.cmsCreateLab4Profile hProfile INTENT_PERCEPTUAL =
          some hRoundTrip := by
        simp only [CreateRoundtripXForm, Prod.mk.injEq] at hx
        exact hx.1
      have h0 : nn → 0 ≤ (hRoundTrip ⟨0, 0, 0⟩).L :=
        fun hn => (hResp hn).2.1 _ _ _ ⟨0, 0, 0⟩ hx2 (le_refl _)
      unfold DarkNeutral
      rw [hInv]
      simp only [true_and]
      split_ifs with h
      · norm_num
      · push_neg at h
        exact ⟨h, h0⟩

/-- The trusted black point of the tag block is a dark neutral. -/
theorem ProfileBlackPointTag_DarkNeutral (E : Env) (hProfile : Profile) (Intent : Nat)
    (nn : Prop) (hInv : ∀ c, E.cmsXYZ2Lab (E.cmsLab2XYZ c) = c)
    (hResp : nn → NonNegativeResponses E hProfile) (p : cmsCIEXYZ) (t : List Event) :
    ProfileBlackPointTag E hProfile Intent = (some p, t) → DarkNeutral E nn p := by
  unfold ProfileBlackPointTag
  split
  · split
    · rename_i tag htag
      intro h
      simp only [Prod.mk.injEq, Option.some.injEq] at h
      rw [← h.1]
      exact (DarkNeutral_clip E nn hInv _ 0 0
        (fun hn => (hResp hn).2.2 _ htag)).mpr ⟨rfl, rfl⟩
    · intro h; simp at h
  · intro h; simp at h

/-- A success of the last part of `cmsDetectBlackPoint` is a dark neutral. -/
theorem DetectBlackPointV2_DarkNeutral (E : Env) (BlackPoint : cmsCIEXYZ) (hProfile : Profile)
    (Intent dwFlags : Nat) (nn : Prop)
    (hInv : ∀ c, E.cmsXYZ2Lab (E.cmsLab2XYZ c) = c)
    (hZero : E.cmsLab2XYZ ⟨0, 0, 0⟩ = zeroXYZ)
    (hResp : nn → NonNegativeResponses E hProfile) :
    (DetectBlackPointV2 E BlackPoint hProfile Intent dwFlags).ok = true →
    DarkNeutral E nn (DetectBlackPointV2 E BlackPoint hProfile Intent dwFlags).BlackPoint := by
  unfold DetectBlackPointV2
  split
  · exact BlackPointAsDarkerColorant_DarkNeutral E _ _ _ _ nn hInv hResp
  · split
    · simpa using BlackPointAsDarkerColorant_DarkNeutral E hProfile Intent BlackPoint dwFlags nn
        hInv hResp
    · split
      · simpa using BlackPointAsDarkerColorant_DarkNeutral E hProfile Intent BlackPoint dwFlags
          nn hInv hResp
      · simpa using BlackPointUsingPerceptualBlack_DarkNeutral E BlackPoint hProfile nn hInv
          hZero hResp

/-- A success of `cmsDetectBlackPoint`, the fixed perceptual black apart, is a dark
neutral. -/
theorem cmsDetectBlackPoint_DarkNeutral (E : Env) (BlackPoint : cmsCIEXYZ) (hProfile : Profile)
    (Intent dwFlags : Nat) (nn : Prop)
    (hInv : ∀ c, E.cmsXYZ2Lab (E.cmsLab2XYZ c) = c)
    (hZero : E.cmsLab2XYZ ⟨0, 0, 0⟩ = zeroXYZ)
    (hResp : nn → NonNegativeResponses E hProfile)
    (hConst : ¬(hProfile.cmsGetEncodedICCversion ≥ 0x4000000 ∧
      (Intent = INTENT_PERCEPTUAL ∨ Intent = INTENT_SATURATION) ∧
      hProfile.cmsIsMatrixShaper = false)) :
    (cmsDetectBlackPoint E BlackPoint hProfile Intent dwFlags).ok = true →
    DarkNeutral E nn (cmsDetectBlackPoint E BlackPoint hProfile Intent dwFlags).BlackPoint := by
  unfold cmsDetectBlackPoint
  split
  · intro h; simp at h
  · split
    · rename_i hv
      split
      · simpa using BlackPointAsDarkerColorant_DarkNeutral E hProfile
          INTENT_RELATIVE_COLORIMETRIC BlackPoint 0 nn hInv hResp
      · rename_i hs
        exact absurd ⟨hv.1, hv.2, by simpa using hs⟩ hConst
    · simp only
      split
      · split
        · rename_i p t hp
          intro _
          exact ProfileBlackPointTag_DarkNeutral E hProfile Intent nn hInv hResp p t hp
        · simpa using DetectBlackPointV2_DarkNeutral E BlackPoint hProfile Intent dwFlags nn
            hInv hZero hResp
      · simpa using DetectBlackPointV2_DarkNeutral E BlackPoint hProfile Intent dwFlags nn hInv
          hZero hResp

/-- The initial Lab of step 1 is neutral with L* at most 50, and at least 0
when the responses are non-negative. -/
theorem InitialLab_DarkNeutral (E : Env) (hProfile : Profile) (Intent dwFlags : Nat)
    (nn : Prop) (hInv : ∀ c, E.cmsXYZ2Lab (E.cmsLab2XYZ c) = c)
    (hZero : E.cmsLab2XYZ ⟨0, 0, 0⟩ = zeroXYZ)
    (hResp : nn → NonNegativeResponses E hProfile) (Lab0 : cmsCIELab) (t : List Event) :
    InitialLab E hProfile Intent dwFlags = (some Lab0, t) →
    Lab0.a = 0 ∧ Lab0.b = 0 ∧ Lab0.L ≤ 50 ∧ (nn → 0 ≤ Lab0.L) := by
  unfold InitialLab
  split
  · rename_i hR
    simp only
    split
    · intro h; simp at h
    · rename_i hok
      intro h
      simp only [Prod.mk.injEq, Option.some.injEq] at h
      rw [← h.1]
      refine cmsDetectBlackPoint_DarkNeutral E _ hProfile Intent dwFlags nn hInv hZero hResp ?_
        (by simpa using hok)
      rintro ⟨-, h2, -⟩
      rcases h2 with h2 | h2 <;> rw [h2] at hR <;> simp [INTENT_PERCEPTUAL, INTENT_SATURATION,
        INTENT_RELATIVE_COLORIMETRIC] at hR
  · intro h
    simp only [Prod.mk.injEq, Option.some.injEq] at h
    rw [← h.1]
    norm_num

/-- A success of step 4 is a dark neutral. -/
theorem Step4_DarkNeutral (E : Env) (BlackPoint : cmsCIEXYZ) (hProfile : Profile)
    (Intent dwFlags : Nat) (hRoundTrip : cmsCIELab → cmsCIELab) (Lab0 : cmsCIELab)
    (MinL MaxL : ℚ) (t : List Event) (nn : Prop)
    (hInv : ∀ c, E.cmsXYZ2Lab (E.cmsLab2XYZ c) = c)
    (hZero : E.cmsLab2XYZ ⟨0, 0, 0⟩ = zeroXYZ)
    (hResp : nn → NonNegativeResponses E hProfile)
    (hConst : ¬(hProfile.cmsGetEncodedICCversion ≥ 0x4000000 ∧
      (Intent = INTENT_PERCEPTUAL ∨ Intent = INTENT_SATURATION) ∧
      hProfile.cmsIsMatrixShaper = false))
    (hLab0 : Lab0.a = 0 ∧ Lab0.b = 0 ∧ Lab0.L ≤ 50 ∧ (nn → 0 ≤ Lab0.L)) (r : Ret) :
    Step4 E BlackPoint hProfile Intent dwFlags hRoundTrip Lab0 MinL MaxL t = some r →
    r.ok = true → DarkNeutral E nn r.BlackPoint := by
  unfold Step4
  simp only
  split
  · intro h _
    simp only [Option.some.injEq] at h
    rw [← h]
    simpa [DarkNeutral, hInv] using hLab0
  · split
    · intro h hok
      simp only [Option.some.injEq] at h
      rw [← h] at hok ⊢
      exact cmsDetectBlackPoint_DarkNeutral E BlackPoint hProfile Intent dwFlags nn hInv hZero
        hResp hConst (by simpa using hok)
    · split
      · intro h; simp at h
      · intro h _
        simp only [Option.some.injEq] at h
        rw [← h]
        simp [DarkNeutral, hInv, hLab0.1, hLab0.2.1]
      · rename_i root hroot
        intro h _
        simp only [Option.some.injEq] at h
        rw [← h]
        simp only [DarkNeutral, hInv, hLab0.1, hLab0.2.1, true_and]
        split_ifs with hc
        · norm_num
        · push_neg at hc
          norm_num at hc
          exact ⟨hc.2, fun _ => hc.1⟩

/-- A success of `cmsDetectDestinationBlackPoint`, the fixed perceptual black
apart, is a dark neutral. -/
theorem cmsDetectDestinationBlackPoint_DarkNeutral (E : Env) (BlackPoint : cmsCIEXYZ)
    (hProfile : Profile) (Intent dwFlags : Nat) (nn : Prop)
    (hInv : ∀ c, E.cmsXYZ2Lab (E.cmsLab2XYZ c) = c)
    (hZero : E.cmsLab2XYZ ⟨0, 0, 0⟩ = zeroXYZ)
    (hResp : nn → NonNegativeResponses E hProfile)
    (hConst : ¬(hProfile.cmsGetEncodedICCversion ≥ 0x4000000 ∧
      (Intent = INTENT_PERCEPTUAL ∨ Intent = INTENT_SATURATION) ∧
      hProfile.cmsIsMatrixShaper = false)) (r : Ret) :
    cmsDetectDestinationBlackPoint E BlackPoint hProfile Intent dwFlags = some r →
    r.ok = true → DarkNeutral E nn r.BlackPoint := by
  unfold cmsDetectDestinationBlackPoint
  split
  · intro h hok
    simp only [Option.some.injEq] at h
    rw [← h] at hok
    simp at hok
  · split
    · rename_i hv
      split
      · intro h hok
        simp only [Option.some.injEq] at h
        rw [← h] at hok ⊢
        exact BlackPointAsDarkerColorant_DarkNeutral E hProfile INTENT_RELATIVE_COLORIMETRIC
          BlackPoint 0 nn hInv hResp (by simpa using hok)
      · rename_i hs
        exact absurd ⟨hv.1, hv.2, by simpa using hs⟩ hConst
    · simp only
      split
      · intro h hok
        simp only [Option.some.injEq] at h
        rw [← h] at hok ⊢
        exact cmsDetectBlackPoint_DarkNeutral E BlackPoint hProfile Intent dwFlags nn hInv hZero
          hResp hConst (by simpa using hok)
      · unfold AdobeSteps
        split
        · intro h hok
          simp only [Option.some.injEq] at h
          rw [← h] at hok
          simp at hok
        · rename_i Lab0 t1 hIni
          have hLab0 := InitialLab_DarkNeutral E hProfile Intent dwFlags nn hInv hZero hResp
            Lab0 t1 hIni
          split
          · intro h hok
            simp only [Option.some.injEq] at h
            rw [← h] at hok
            simp at hok
          · simp only
            split
            · intro h _
              simp only [Option.some.injEq] at h
              rw [← h]
              simpa [DarkNeutral, hInv] using hLab0
            · exact Step4_DarkNeutral E BlackPoint hProfile Intent dwFlags _ Lab0 _ _ _ nn hInv
                hZero hResp hConst hLab0 r

/-- The dark branch XYZ -> Lab inverts the dark branch Lab -> XYZ. -/
theorem darkXYZ2Lab_darkLab2XYZ (c : cmsCIELab) : darkXYZ2Lab (darkLab2XYZ c) = c := by
  cases c
  simp only [darkXYZ2Lab, darkLab2XYZ]
  congr 1 <;> norm_num <;> ring

/-- The dark branch Lab -> XYZ inverts the dark branch XYZ -> Lab. -/
theorem darkLab2XYZ_darkXYZ2Lab (c : cmsCIEXYZ) : darkLab2XYZ (darkXYZ2Lab c) = c := by
  cases c
  simp only [darkXYZ2Lab, darkLab2XYZ]
  congr 1 <;> norm_num <;> ring

/-- In the reference environment every profile without a black point tag has
non-negative responses. -/
theorem NonNegativeResponses_refEnv0 (hProfile : Profile)
    (hTag : hProfile.cmsReadTag = none) : NonNegativeResponses refEnv0 hProfile := by
  refine ⟨?_, ?_, ?_⟩
  · intro fmt i xform c h
    simp only [refEnv0, refEnv, Option.some.injEq] at h
    rw [← h]
    norm_num
  · intro b i xform c h hc
    simp only [refEnv0, refEnv, Option.some.injEq] at h
    rw [← h]
    exact hc
  · intro t h
    rw [hTag] at h
    cases h

/-! ## Lemmas for the resources, the straightness test and the curve fit -/

/-- Under the relative colorimetric intent the flag of step 3 is still set after
the sweep exactly when every response beyond 20 % of the span is within 4 of
its source L*. -/
theorem NearlyStraightMidRange_relative (hRoundTrip : cmsCIELab → cmsCIELab)
    (Lab0 : cmsCIELab) (MinL MaxL : ℚ) :
    NearlyStraightMidRange hRoundTrip Lab0 MinL MaxL INTENT_RELATIVE_COLORIMETRIC = true ↔
      ∀ l : Nat, l ≤ 100 →
        (hRoundTrip ⟨l, Lab0.a, Lab0.b⟩).L > MinL + 0.2 * (MaxL - MinL) →
        |(hRoundTrip ⟨l, Lab0.a, Lab0.b⟩).L - l| ≤ 4 := by
  simp only [NearlyStraightMidRange, if_true, List.all_eq_true, List.mem_range]
  constructor
  · intro h l hl hgt
    have := h l (by omega)
    simp only [Bool.not_eq_true', Bool.and_eq_false_imp, decide_eq_true_eq,
      decide_eq_false_iff_not] at this
    have h2 := this hgt
    norm_num at h2
    exact h2
  · intro h l hl
    simp only [Bool.not_eq_true', Bool.and_eq_false_imp, decide_eq_true_eq,
      decide_eq_false_iff_not]
    intro hgt
    have := h l (by omega) hgt
    norm_num
    exact this

/-- Under every other intent the flag of step 3 is FALSE from the start (line
437). -/
theorem NearlyStraightMidRange_other (hRoundTrip : cmsCIELab → cmsCIELab)
    (Lab0 : cmsCIELab) (MinL MaxL : ℚ) (Intent : Nat)
    (h : Intent ≠ INTENT_RELATIVE_COLORIMETRIC) :
    NearlyStraightMidRange hRoundTrip Lab0 MinL MaxL Intent = false := by
  simp [NearlyStraightMidRange, h]

/-- Two balanced traces in a row are balanced. -/
theorem Balanced_append (t u : List Event) (ht : Balanced t) (hu : Balanced u) :
    Balanced (t ++ u) := by
  unfold Balanced at *
  simp only [List.count_append]
  omega

/-- A balanced call after a balanced trace. -/
theorem Balanced_after (t : List Event) (r : Ret) (ht : Balanced t) (hr : Balanced r.trace) :
    Balanced (r.after t).trace := Balanced_append t r.trace ht hr

/-- The estimator `BlackPointAsDarkerColorant` closes the Lab profile and deletes the
transform it created, on every exit. -/
theorem BlackPointAsDarkerColorant_Balanced (E : Env) (hInput : Profile) (Intent : Nat)
    (BlackPoint : cmsCIEXYZ) (dwFlags : Nat) :
    Balanced (BlackPointAsDarkerColorant E hInput Intent BlackPoint dwFlags).trace := by
  unfold BlackPointAsDarkerColorant
  simp only
  split
  · decide
  · split
    · decide
    · split
      · decide
      · split
        · decide
        · split
          · decide
          · simp [Balanced]

/-- The calls of `CreateRoundtripXForm`: the Lab profile is closed when it was
created, no transform is deleted, and one transform is created exactly when one
is returned. -/
theorem CreateRoundtripXForm_counts (E : Env) (hProfile : Profile) (Intent : Nat) :
    (CreateRoundtripXForm E hProfile Intent).2.count Event.profileCreated =
      (CreateRoundtripXForm E hProfile Intent).2.count Event.profileClosed ∧
    (CreateRoundtripXForm E hProfile Intent).2.count Event.transformDeleted = 0 ∧
    (CreateRoundtripXForm E hProfile Intent).2.count Event.transformCreated =
      if (CreateRoundtripXForm E hProfile Intent).1.isSome then 1 else 0 := by
  unfold CreateRoundtripXForm
  simp only
  split_ifs <;> simp

/-- A failed `CreateRoundtripXForm` leaves nothing behind. -/
theorem CreateRoundtripXForm_none_Balanced (E : Env) (hProfile : Profile) (Intent : Nat)
    (t : List Event) (h : CreateRoundtripXForm E hProfile Intent = (none, t)) : Balanced t := by
  have hc := CreateRoundtripXForm_counts E hProfile Intent
  rw [h] at hc
  simp only [Option.isSome_none, Bool.false_eq_true, if_false] at hc
  exact ⟨hc.1, by omega⟩

/-- A round trip that `CreateRoundtripXForm` returned is the one thing to release. -/
theorem CreateRoundtripXForm_some_Balanced (E : Env) (hProfile : Profile) (Intent : Nat)
    (hRoundTrip : cmsCIELab → cmsCIELab) (t : List Event)
    (h : CreateRoundtripXForm E hProfile Intent = (some hRoundTrip, t)) :
    Balanced (t ++ [Event.transformDeleted]) := by
  have hc := CreateRoundtripXForm_counts E hProfile Intent
  rw [h] at hc
  simp only [Option.isSome_some, if_true] at hc
  unfold Balanced
  simp only [List.count_append]
  refine ⟨by simpa using hc.1, ?_⟩
  have h1 : [Event.transformDeleted].count Event.transformCreated = 0 := by decide
  have h2 : [Event.transformDeleted].count Event.transformDeleted = 1 := by decide
  omega

/-- The estimator `BlackPointUsingPerceptualBlack` releases its round trip. -/
theorem BlackPointUsingPerceptualBlack_Balanced (E : Env) (BlackPoint : cmsCIEXYZ)
    (hProfile : Profile) : Balanced (BlackPointUsingPerceptualBlack E BlackPoint hProfile).trace := by
  unfold BlackPointUsingPerceptualBlack
  simp only
  split
  · decide
  · split
    · rename_i t h
      exact Balanced_append _ _ (by decide) (CreateRoundtripXForm_none_Balanced E _ _ t h)
    · rename_i xf t h
      rw [List.append_assoc]
      exact Balanced_append _ _ (by decide) (CreateRoundtripXForm_some_Balanced E _ _ xf t h)

/-- The version 2 heuristics release what they create. -/
theorem DetectBlackPointV2_Balanced (E : Env) (BlackPoint : cmsCIEXYZ) (hProfile : Profile)
    (Intent dwFlags : Nat) :
    Balanced (DetectBlackPointV2 E BlackPoint hProfile Intent dwFlags).trace := by
  unfold DetectBlackPointV2
  split
  · exact BlackPointAsDarkerColorant_Balanced _ _ _ _ _
  · split
    · exact Balanced_after _ _ (by decide) (BlackPointAsDarkerColorant_Balanced _ _ _ _ _)
    · split
      · exact Balanced_after _ _ (by decide) (BlackPointAsDarkerColorant_Balanced _ _ _ _ _)
      · exact Balanced_after _ _ (by decide) (BlackPointUsingPerceptualBlack_Balanced _ _ _)

/-- Reading the black point tag creates nothing. -/
theorem ProfileBlackPointTag_Balanced (E : Env) (hProfile : Profile) (Intent : Nat) :
    Balanced (ProfileBlackPointTag E hProfile Intent).2 := by
  unfold ProfileBlackPointTag
  split
  · split <;> simp [Balanced]
  · decide

/-- Every call of `cmsDetectBlackPoint` releases what it creates. -/
theorem cmsDetectBlackPoint_Balanced (E : Env) (BlackPoint : cmsCIEXYZ) (hProfile : Profile)
    (Intent dwFlags : Nat) :
    Balanced (cmsDetectBlackPoint E BlackPoint hProfile Intent dwFlags).trace := by
  unfold cmsDetectBlackPoint
  split
  · decide
  · split
    · split
      · exact Balanced_after _ _ (by decide) (BlackPointAsDarkerColorant_Balanced _ _ _ _ _)
      · simp [Balanced]
    · simp only
      split
      · have hT := ProfileBlackPointTag_Balanced E hProfile Intent
        split
        · rename_i p t h
          rw [h] at hT
          exact Balanced_append _ _ (by decide) hT
        · rename_i t h
          rw [h] at hT
          exact Balanced_after _ _ (Balanced_append _ _ (by decide) hT)
            (DetectBlackPointV2_Balanced _ _ _ _ _)
      · exact Balanced_after _ _ (by decide) (DetectBlackPointV2_Balanced _ _ _ _ _)

/-- Step 1 releases what it creates. -/
theorem InitialLab_Balanced (E : Env) (hProfile : Profile) (Intent dwFlags : Nat) :
    Balanced (InitialLab E hProfile Intent dwFlags).2 := by
  unfold InitialLab
  split
  · simp only
    split <;> exact cmsDetectBlackPoint_Balanced _ _ _ _ _
  · decide

/-- Step 4 releases the round trip it was entered with, on each exit with a
result. -/
theorem Step4_Balanced (E : Env) (BlackPoint : cmsCIEXYZ) (hProfile : Profile)
    (Intent dwFlags : Nat) (hRoundTrip : cmsCIELab → cmsCIELab) (Lab0 : cmsCIELab)
    (MinL MaxL : ℚ) (t : List Event) (ht : Balanced (t ++ [Event.transformDeleted])) (r : Ret) :
    Step4 E BlackPoint hProfile Intent dwFlags hRoundTrip Lab0 MinL MaxL t = some r →
    Balanced r.trace := by
  unfold Step4
  simp only
  split
  · intro h
    simp only [Option.some.injEq] at h
    rw [← h]
    exact ht
  · split
    · intro h
      simp only [Option.some.injEq] at h
      rw [← h]
      exact Balanced_after _ _ ht (cmsDetectBlackPoint_Balanced _ _ _ _ _)
    · split
      · intro h; simp at h
      · intro h
        simp only [Option.some.injEq] at h
        rw [← h]
        exact ht
      · intro h
        simp only [Option.some.injEq] at h
        rw [← h]
        exact ht

/-- Steps 1 to 4 release what they create, also when the L* found is NaN. -/
theorem AdobeSteps_Balanced (E : Env) (BlackPoint : cmsCIEXYZ) (hProfile : Profile)
    (Intent dwFlags : Nat) (t0 : List Event) (h0 : Balanced t0) :
    (∀ r, AdobeSteps E BlackPoint hProfile Intent dwFlags t0 = some r → Balanced r.trace) ∧
    (AdobeSteps E BlackPoint hProfile Intent dwFlags t0 = none →
      Balanced (t0 ++ (InitialLab E hProfile Intent dwFlags).2 ++
        (CreateRoundtripXForm E hProfile Intent).2 ++ [Event.transformDeleted])) := by
  have hI := InitialLab_Balanced E hProfile Intent dwFlags
  unfold AdobeSteps
  split
  · rename_i t1 h1
    rw [h1] at hI
    refine ⟨fun r h => ?_, fun h => by simp at h⟩
    simp only [Option.some.injEq] at h
    rw [← h]
    exact Balanced_append _ _ h0 hI
  · rename_i Lab0 t1 h1
    rw [h1] at hI
    have h01 := Balanced_append _ _ h0 hI
    split
    · rename_i t2 h2
      refine ⟨fun r h => ?_, fun h => by simp at h⟩
      simp only [Option.some.injEq] at h
      rw [← h]
      exact Balanced_append _ _ h01 (CreateRoundtripXForm_none_Balanced E _ _ t2 h2)
    · rename_i xf t2 h2
      have h012 : Balanced (t0 ++ t1 ++ t2 ++ [Event.transformDeleted]) := by
        rw [List.append_assoc (t0 ++ t1)]
        exact Balanced_append _ _ h01 (CreateRoundtripXForm_some_Balanced E _ _ xf t2 h2)
      simp only
      split
      · refine ⟨fun r h => ?_, fun h => by simp at h⟩
        simp only [Option.some.injEq] at h
        rw [← h]
        exact h012
      · exact ⟨fun r h => Step4_Balanced E _ _ _ _ _ _ _ _ _ h012 r h, fun _ => by rw [h1, h2]; exact h012⟩

/-- Every call of `cmsDetectDestinationBlackPoint` releases what it creates. -/
theorem cmsDetectDestinationBlackPointTrace_Balanced (E : Env) (BlackPoint : cmsCIEXYZ)
    (hProfile : Profile) (Intent dwFlags : Nat) :
    Balanced (cmsDetectDestinationBlackPointTrace E BlackPoint hProfile Intent dwFlags) := by
  have hA := AdobeSteps_Balanced E BlackPoint hProfile Intent dwFlags
    [Event.cmsGetEncodedICCversion, Event.cmsGetColorSpace, Event.cmsIsCLUT] (by decide)
  unfold cmsDetectDestinationBlackPointTrace
  split
  · rename_i r hr
    revert hr
    unfold cmsDetectDestinationBlackPoint
    split
    · intro h
      simp only [Option.some.injEq] at h
      rw [← h]
      decide
    · split
      · split
        · intro h
          simp only [Option.some.injEq] at h
          rw [← h]
          exact Balanced_after _ _ (by decide) (BlackPointAsDarkerColorant_Balanced _ _ _ _ _)
        · intro h
          simp only [Option.some.injEq] at h
          rw [← h]
          simp [Balanced]
      · simp only
        split
        · intro h
          simp only [Option.some.injEq] at h
          rw [← h]
          exact Balanced_after _ _ (by decide) (cmsDetectBlackPoint_Balanced _ _ _ _ _)
        · exact hA.1 r
  · rename_i hr
    apply hA.2
    revert hr
    unfold cmsDetectDestinationBlackPoint
    split
    · intro h; simp at h
    · split
      · split <;> (intro h; simp at h)
      · simp only
        split
        · intro h; simp at h
        · exact id

set_option maxRecDepth 100000 in
set_option maxHeartbeats 4000000 in
/-- The samples retained from `toeRoundTrip` under the perceptual intent: the
responses at 1, 2, 3 and 4. -/
theorem CapturePoints_toe :
    CapturePoints toeRoundTrip ⟨0, 0, 0⟩ (MinL toeRoundTrip ⟨0, 0, 0⟩)
      (MaxL toeRoundTrip ⟨0, 0, 0⟩) (lo INTENT_PERCEPTUAL) (hi INTENT_PERCEPTUAL) =
      [(1, 1 / 8), (2, 3 / 16), (3, 3 / 16), (4, 1 / 8)] := by
  simp [CapturePoints, toeRoundTrip, MinL, MaxL, lo, hi, cmsFloat64Number.div, List.range_succ,
    INTENT_RELATIVE_COLORIMETRIC, INTENT_PERCEPTUAL, List.filterMap_cons]
  norm_num

/-- The normal equations of these four samples. -/
theorem LeastSquaresSystem_toe (E : Env) :
    LeastSquaresSystem 4 (stackArray E [1, 2, 3, 4]) (stackArray E [1 / 8, 3 / 16, 3 / 16, 1 / 8]) =
      (⟨⟨4, 10, 30⟩, ⟨10, 30, 100⟩, ⟨30, 100, 354⟩⟩, ⟨5 / 8, 25 / 16, 73 / 16⟩) := by
  simp [LeastSquaresSystem, stackArray, List.range_succ]
  norm_num

/-- Their solution: constant term 0, linear coefficient 5/32, leading
coefficient -1/32. -/
theorem cramerSolve_toe :
    cramerSolve ⟨⟨4, 10, 30⟩, ⟨10, 30, 100⟩, ⟨30, 100, 354⟩⟩ ⟨5 / 8, 25 / 16, 73 / 16⟩ =
      some ⟨0, 5 / 32, -1 / 32⟩ := by
  simp [cramerSolve, det3]
  norm_num

/-- The fitter on these four samples: the discriminant is (5/32)^2, the
numerator `-5/32 + 5/32` and the divisor `2 * 0` are both zero, the quotient is
NaN. -/
theorem RootOfLeastSquaresFitQuadraticCurve_toe :
    RootOfLeastSquaresFitQuadraticCurve (refEnv toeRoundTrip ⟨5, 1, -1⟩) 4
      (stackArray (refEnv toeRoundTrip ⟨5, 1, -1⟩) [1, 2, 3, 4])
      (stackArray (refEnv toeRoundTrip ⟨5, 1, -1⟩) [1 / 8, 3 / 16, 3 / 16, 1 / 8]) = .nan := by
  have h : (refEnv toeRoundTrip ⟨5, 1, -1⟩)._cmsMAT3solve = cramerSolve := rfl
  have hs : (refEnv toeRoundTrip ⟨5, 1, -1⟩).sqrt = Rat.sqrt := rfl
  have hq : Rat.sqrt (25 / 1024) = 5 / 32 := by
    have : (25 / 1024 : ℚ) = (5 / 32) * (5 / 32) := by norm_num
    rw [this, Rat.sqrt_eq]
    norm_num
  simp only [RootOfLeastSquaresFitQuadraticCurve, LeastSquaresSystem_toe, h, cramerSolve_toe, hs]
  norm_num [cmsFloat64Number.div, hq]

/-- The curve-fit branch of step 4 (lines 542-567): when the retained responses
are not non-decreasing, the result is decided by the return value of the fitter.
A number `r` gives TRUE with L* = `r` when `0 <= r <= 50` and L* = 0 otherwise,
an infinity gives L* = 0, and a NaN passes the clip of line 557. -/
theorem Step4_fit (E : Env) (BlackPoint : cmsCIEXYZ) (hProfile : Profile)
    (Intent dwFlags : Nat) (hRoundTrip : cmsCIELab → cmsCIELab) (Lab0 : cmsCIELab)
    (MinL MaxL : ℚ) (t : List Event)
    (hNotSorted : ¬ List.Sorted (· ≤ ·)
      ((CapturePoints hRoundTrip Lab0 MinL MaxL (lo Intent) (hi Intent)).map Prod.snd)) :
    Step4 E BlackPoint hProfile Intent dwFlags hRoundTrip Lab0 MinL MaxL t =
      match RootOfLeastSquaresFitQuadraticCurve E
          (CapturePoints hRoundTrip Lab0 MinL MaxL (lo Intent) (hi Intent)).length
          (stackArray E ((CapturePoints hRoundTrip Lab0 MinL MaxL (lo Intent) (hi Intent)).map
            Prod.fst))
          (stackArray E ((CapturePoints hRoundTrip Lab0 MinL MaxL (lo Intent) (hi Intent)).map
            Prod.snd)) with
      | .nan => none
      | .infinite =>
        some ⟨true, E.cmsLab2XYZ ⟨0, Lab0.a, Lab0.b⟩, t ++ [Event.transformDeleted]⟩
      | .value r =>
        some ⟨true, E.cmsLab2XYZ ⟨if 0 ≤ r ∧ r ≤ 50 then r else 0, Lab0.a, Lab0.b⟩,
          t ++ [Event.transformDeleted]⟩ := by
  have h : ¬ IsMonotonic (CapturePoints hRoundTrip Lab0 MinL MaxL (lo Intent) (hi Intent)).length
      (stackArray E ((CapturePoints hRoundTrip Lab0 MinL MaxL (lo Intent) (hi Intent)).map
        Prod.snd)) = true := by
    intro hm
    apply hNotSorted
    rw [← IsMonotonic_stackArray E, List.length_map]
    exact hm
  have hn : (CapturePoints hRoundTrip Lab0 MinL MaxL (lo Intent) (hi Intent)).length ≠ 0 := by
    intro h0
    apply hNotSorted
    rw [List.length_eq_zero.mp h0]
    simp
  simp only [Step4]
  rw [if_neg h, if_neg hn]
  generalize RootOfLeastSquaresFitQuadraticCurve E _ _ _ = q
  cases q with
  | nan => rfl
  | infinite => rfl
  | value r =>
    simp only
    congr 3
    by_cases hc : r < 0.0 ∨ r > 50.0
    · have hc2 : ¬(0 ≤ r ∧ r ≤ 50) := by
        rintro ⟨h1, h2⟩
        rcases hc with hc | hc
        · norm_num at hc; linarith
        · norm_num at hc; linarith
      rw [if_pos hc, if_neg hc2]
    · have hc2 : 0 ≤ r ∧ r ≤ 50 := by
        push_neg at hc
        norm_num at hc
        exact hc
      rw [if_neg hc, if_pos hc2]

/-- The initial Lab of `rgbDisplayV2` under the relative colorimetric intent:
the darker colorant, made neutral. -/
theorem InitialLab_rgbDisplayV2_relative :
    InitialLab refEnv0 rgbDisplayV2 INTENT_RELATIVE_COLORIMETRIC 0 =
      (some ⟨5, 0, 0⟩, [Event.cmsGetDeviceClass, Event.cmsGetEncodedICCversion,
        Event.cmsGetDeviceClass, Event.cmsGetProfileContextID, Event.cmsIsIntentSupported,
        Event.cmsFormatterForColorspaceOfProfile, Event.cmsGetColorSpace, Event.profileCreated,
        Event.transformCreated, Event.profileClosed, Event.transformDeleted]) := by
  simp [InitialLab, cmsDetectBlackPoint, DetectBlackPointV2, BlackPointAsDarkerColorant,
    rgbDisplayV2, mkProfile, refEnv0, refEnv, endPoints, INTENT_RELATIVE_COLORIMETRIC,
    INTENT_PERCEPTUAL, INTENT_SATURATION, LCMS_USED_AS_INPUT, cmsSigRgbData, cmsSigGrayData,
    cmsSigCmykData, cmsSigLinkClass, cmsSigOutputClass, Ret.after, darkXYZ2Lab, darkLab2XYZ]
  norm_num

/-- The result of `cmsDetectDestinationBlackPoint` for `rgbDisplayV2` with the
identity round trip under the perceptual intent: the retained responses are
sorted and the initial Lab (0,0,0) is kept. -/
theorem cmsDetectDestinationBlackPoint_identity_perceptual :
    cmsDetectDestinationBlackPoint refEnv0 ⟨1, 2, 3⟩ rgbDisplayV2 INTENT_PERCEPTUAL 0 =
      some ⟨true, ⟨0, 0, 0⟩, [Event.cmsGetEncodedICCversion, Event.cmsGetColorSpace,
        Event.cmsIsCLUT, Event.profileCreated, Event.cmsGetProfileContextID,
        Event.transformCreated, Event.profileClosed, Event.transformDeleted]⟩ := by
  have hSorted := CapturePoints_sorted identityRoundTrip ⟨0, 0, 0⟩
    (MinL identityRoundTrip ⟨0, 0, 0⟩) (MaxL identityRoundTrip ⟨0, 0, 0⟩)
    (lo INTENT_PERCEPTUAL) (hi INTENT_PERCEPTUAL)
    (by simp [MinL, MaxL, identityRoundTrip])
    (fun i j hij _ => by simpa [identityRoundTrip] using hij)
  have hS : NearlyStraightMidRange identityRoundTrip ⟨0, 0, 0⟩
      (MinL identityRoundTrip ⟨0, 0, 0⟩) (MaxL identityRoundTrip ⟨0, 0, 0⟩)
      INTENT_PERCEPTUAL = false :=
    NearlyStraightMidRange_other _ _ _ _ _ (by decide)
  rw [cmsDetectDestinationBlackPoint_AdobeCase _ _ _ _ _
      (AdobeCase_rgbDisplayV2 _ (Or.inl rfl)), refEnv0,
    AdobeSteps_of _ _ _ _ _ _ _ _ _ _ (InitialLab_perceptual _ _ _)
      (CreateRoundtripXForm_refEnv _ _ _ _), hS]
  simp only [Bool.false_eq_true, if_false]
  rw [Step4_sorted _ _ _ _ _ _ _ _ _ _ hSorted]
  simp [refEnv, darkLab2XYZ]

/-! ## Lemmas for the normal equations and the array accesses -/

/-- The sum of the squared residuals of a parabola with coefficients `c` is that
of the parabola with coefficients `r`, plus the sum of the squared differences of
the two parabolas, plus a combination of the residuals of the three normal
equations at `r`. -/
theorem sum_sq_residual_split (l : List Nat) (X Y : Nat → ℝ) (r0 r1 r2 c0 c1 c2 : ℝ) :
    (l.map fun (i : Nat) => (Y i - (c0 + c1 * X i + c2 * (X i * X i))) ^ 2).sum =
      (l.map fun (i : Nat) => (Y i - (r0 + r1 * X i + r2 * (X i * X i))) ^ 2).sum +
      (l.map fun (i : Nat) =>
        ((r0 - c0) + (r1 - c1) * X i + (r2 - c2) * (X i * X i)) ^ 2).sum +
      2 * ((r0 - c0) * ((l.map fun (i : Nat) => Y i).sum -
            ((l.length : ℝ) * r0 + (l.map fun (i : Nat) => X i).sum * r1 +
              (l.map fun (i : Nat) => X i * X i).sum * r2)) +
          (r1 - c1) * ((l.map fun (i : Nat) => Y i * X i).sum -
            ((l.map fun (i : Nat) => X i).sum * r0 +
              (l.map fun (i : Nat) => X i * X i).sum * r1 +
              (l.map fun (i : Nat) => X i * X i * X i).sum * r2)) +
          (r2 - c2) * ((l.map fun (i : Nat) => Y i * X i * X i).sum -
            ((l.map fun (i : Nat) => X i * X i).sum * r0 +
              (l.map fun (i : Nat) => X i * X i * X i).sum * r1 +
              (l.map fun (i : Nat) => X i * X i * X i * X i).sum * r2))) := by
  induction l with
  | nil => simp
  | cons a l ih =>
    simp only [List.map_cons, List.sum_cons, List.length_cons, Nat.cast_add, Nat.cast_one]
    linear_combination ih

/-- A sum of rationals, read as a real number. -/
theorem cast_sum_map (l : List Nat) (f : Nat → ℚ) :
    (((l.map f).sum : ℚ) : ℝ) = (l.map fun (i : Nat) => ((f i : ℚ) : ℝ)).sum := by
  induction l with
  | nil => simp
  | cons a l ih => simp [ih]

/-- The capture loop writes at most 101 cells: `n <= 101`, the capacity of `x` and
of `y` (line 349). -/
theorem CapturePoints_length_le (hRoundTrip : cmsCIELab → cmsCIELab) (Lab0 : cmsCIELab)
    (MinL MaxL lo hi : ℚ) : (CapturePoints hRoundTrip Lab0 MinL MaxL lo hi).length ≤ 101 := by
  unfold CapturePoints
  exact le_trans (List.length_filterMap_le _ _) (by simp)

/-- Every pair written by the capture loop holds an integer `x` in [0, 100] and an
`y` in [lo, hi). -/
theorem CapturePoints_mem (hRoundTrip : cmsCIELab → cmsCIELab) (Lab0 : cmsCIELab)
    (MinL MaxL lo hi : ℚ) (p : ℚ × ℚ)
    (hp : p ∈ CapturePoints hRoundTrip Lab0 MinL MaxL lo hi) :
    ∃ l : Nat, l ≤ 100 ∧ p.1 = l ∧ lo ≤ p.2 ∧ p.2 < hi := by
  unfold CapturePoints at hp
  rw [List.mem_filterMap] at hp
  obtain ⟨l, hl, h⟩ := hp
  refine ⟨l, by have := List.mem_range.mp hl; omega, ?_⟩
  revert h
  simp only
  split
  · split_ifs with hc
    · intro h
      simp only [Option.some.injEq] at h
      rw [← h]
      exact ⟨rfl, hc.1, hc.2⟩
    · intro h; simp at h
  · intro h; simp at h

/-- The `x` written by the capture loop increase strictly. -/
theorem CapturePoints_increasing (hRoundTrip : cmsCIELab → cmsCIELab) (Lab0 : cmsCIELab)
    (MinL MaxL lo hi : ℚ) :
    List.Sorted (· < ·) ((CapturePoints hRoundTrip Lab0 MinL MaxL lo hi).map Prod.fst) := by
  unfold List.Sorted CapturePoints
  rw [List.pairwise_map, List.pairwise_filterMap]
  refine List.Pairwise.imp ?_ (List.pairwise_lt_range 101)
  intro i j hij p hp q hq
  revert hp hq
  simp only
  split
  · split_ifs
    · intro hp
      simp only [Option.mem_def, Option.some.injEq] at hp
      split
      · split_ifs
        · intro hq
          simp only [Option.mem_def, Option.some.injEq] at hq
          rw [← hp, ← hq]
          show ((i : ℚ)) < (j : ℚ)
          exact_mod_cast hij
        · intro hq; simp at hq
      · intro hq; simp at hq
    · intro hp; simp at hp
  · intro hp; simp at hp

/-- The loop of `IsMonotonic` reads cells 0 to `k - 1` only. -/
theorem IsMonotonicLoopReads_bounds (Table : Int → ℚ) : ∀ (k : Nat) (last : ℚ) (i : Int),
    i ∈ IsMonotonicLoopReads Table k last → 0 ≤ i ∧ i < k := by
  intro k
  induction k with
  | zero => intro last i h; simp [IsMonotonicLoopReads] at h
  | succ k ih =>
    intro last i h
    simp only [IsMonotonicLoopReads, List.mem_cons] at h
    rcases h with h | h
    · subst h
      constructor
      · exact Int.natCast_nonneg k
      · push_cast; omega
    · split_ifs at h
      · simp at h
      · have := ih _ _ h
        constructor
        · exact this.1
        · push_cast; omega

/-- For `n >= 1`, `IsMonotonic` reads cells 0 to `n - 1` only. -/
theorem IsMonotonicReads_bounds (n : Nat) (Table : Int → ℚ) (hn : 1 ≤ n) (i : Int)
    (h : i ∈ IsMonotonicReads n Table) : 0 ≤ i ∧ i < n := by
  simp only [IsMonotonicReads, List.mem_cons] at h
  rcases h with h | h
  · subst h; omega
  · have := IsMonotonicLoopReads_bounds Table _ _ _ h
    omega

/-- The fitter reads cells 0 to `n - 1` only. -/
theorem RootOfLeastSquaresFitQuadraticCurveReads_bounds (n : Nat) (i : Int)
    (h : i ∈ RootOfLeastSquaresFitQuadraticCurveReads n) : 0 ≤ i ∧ i < n := by
  unfold RootOfLeastSquaresFitQuadraticCurveReads at h
  split_ifs at h
  · simp at h
  · simp only [List.mem_map, List.mem_range] at h
    obtain ⟨j, hj, rfl⟩ := h
    omega

/-- The loop of `IsMonotonic` depends on the cells it reads only. -/
theorem IsMonotonicLoop_congr (Table Table2 : Int → ℚ) : ∀ (k : Nat) (last : ℚ),
    (∀ i ∈ IsMonotonicLoopReads Table k last, Table i = Table2 i) →
    IsMonotonicLoop Table k last = IsMonotonicLoop Table2 k last := by
  intro k
  induction k with
  | zero => intro last _; rfl
  | succ k ih =>
    intro last h
    have hk : Table k = Table2 k := h k (by simp [IsMonotonicLoopReads])
    simp only [IsMonotonicLoop, ← hk]
    by_cases hc : Table k > last
    · simp [hc]
    · simp only [hc, if_false]
      apply ih
      intro i hi
      apply h
      simp only [IsMonotonicLoopReads, hc, if_false, List.mem_cons]
      exact Or.inr hi

/-- The result of `IsMonotonic` depends on the cells it reads only. -/
theorem IsMonotonic_congr (n : Nat) (Table Table2 : Int → ℚ)
    (h : ∀ i ∈ IsMonotonicReads n Table, Table i = Table2 i) :
    IsMonotonic n Table = IsMonotonic n Table2 := by
  have h1 : Table ((n : Int) - 1) = Table2 ((n : Int) - 1) :=
    h _ (by simp [IsMonotonicReads])
  simp only [IsMonotonic, ← h1]
  apply IsMonotonicLoop_congr
  intro i hi
  apply h
  simp only [IsMonotonicReads, List.mem_cons]
  exact Or.inr hi

/-! ## Lemmas for the curve fit without a number -/

/-- Step 4 has no result with a number for L* exactly when `IsMonotonic` is FALSE
on the retained samples and the fitter returns a NaN. -/
theorem Step4_eq_none_iff (E : Env) (BlackPoint : cmsCIEXYZ) (hProfile : Profile)
    (Intent dwFlags : Nat) (hRoundTrip : cmsCIELab → cmsCIELab) (Lab0 : cmsCIELab)
    (MinL MaxL : ℚ) (t : List Event) :
    Step4 E BlackPoint hProfile Intent dwFlags hRoundTrip Lab0 MinL MaxL t = none ↔
      IsMonotonic (CapturePoints hRoundTrip Lab0 MinL MaxL (lo Intent) (hi Intent)).length
        (stackArray E ((CapturePoints hRoundTrip Lab0 MinL MaxL (lo Intent) (hi Intent)).map
          Prod.snd)) = false ∧
      RootOfLeastSquaresFitQuadraticCurve E
        (CapturePoints hRoundTrip Lab0 MinL MaxL (lo Intent) (hi Intent)).length
        (stackArray E ((CapturePoints hRoundTrip Lab0 MinL MaxL (lo Intent) (hi Intent)).map
          Prod.fst))
        (stackArray E ((CapturePoints hRoundTrip Lab0 MinL MaxL (lo Intent) (hi Intent)).map
          Prod.snd)) = .nan := by
  constructor
  · unfold Step4
    simp only
    split
    · intro h; simp at h
    · rename_i hM
      split
      · intro h; simp at h
      · split
        · rename_i hnan
          intro _
          exact ⟨by simpa using hM, hnan⟩
        · intro h; simp at h
        · intro h; simp at h
  · rintro ⟨hM, hnan⟩
    have hn : (CapturePoints hRoundTrip Lab0 MinL MaxL (lo Intent) (hi Intent)).length ≠ 0 := by
      intro h0
      rw [h0] at hnan
      simp [RootOfLeastSquaresFitQuadraticCurve] at hnan
    simp only [Step4, hM, Bool.false_eq_true, if_false, hn, hnan]

/-- The call of `cmsDetectDestinationBlackPoint` has no result with a number for L*
exactly when it reaches the curve fit and the fitter returns a NaN. -/
theorem cmsDetectDestinationBlackPoint_eq_none_iff (E : Env) (BlackPoint : cmsCIEXYZ)
    (hProfile : Profile) (Intent dwFlags : Nat) :
    cmsDetectDestinationBlackPoint E BlackPoint hProfile Intent dwFlags = none ↔
      CurveFitIsNaN E hProfile Intent dwFlags := by
  constructor
  · intro h
    have hCase : AdobeCase hProfile Intent := by
      revert h
      unfold cmsDetectDestinationBlackPoint
      split
      · intro h; simp at h
      · rename_i hI
        split
        · split <;> (intro h; simp at h)
        · rename_i hV
          simp only
          split
          · intro h; simp at h
          · rename_i hG
            intro _
            simp only [not_and_or, not_not, ne_eq] at hI
            simp only [not_or, not_and_or, not_not, ne_eq, Bool.not_eq_true',
              Bool.not_eq_false'] at hG
            refine ⟨?_, hV, by simpa using hG.1, hG.2⟩
            rcases hI with h | h | h
            · exact Or.inl h
            · exact Or.inr (Or.inl h)
            · exact Or.inr (Or.inr h)
    refine ⟨hCase, ?_⟩
    rw [cmsDetectDestinationBlackPoint_AdobeCase E _ _ _ _ hCase] at h
    revert h
    unfold AdobeSteps
    split
    · intro h; simp at h
    · rename_i Lab0 t1 hIni
      split
      · intro h; simp at h
      · rename_i xf t2 hXf
        simp only
        split
        · intro h; simp at h
        · rename_i hS
          intro h
          have := (Step4_eq_none_iff E _ _ _ _ _ _ _ _ _).mp h
          exact ⟨Lab0, t1, xf, t2, hIni, hXf, by simpa using hS, this.1, this.2⟩
  · rintro ⟨hCase, Lab0, t1, xf, t2, hIni, hXf, hS, hM, hnan⟩
    rw [cmsDetectDestinationBlackPoint_AdobeCase E _ _ _ _ hCase,
      AdobeSteps_of E _ _ _ _ _ Lab0 t1 xf t2 hIni hXf, hS]
    simp only [Bool.false_eq_true, if_false]
    exact (Step4_eq_none_iff E _ _ _ _ _ _ _ _ _).mpr ⟨hM, hnan⟩

/-- The call for `rgbDisplayV2` with the round trip `toeRoundTrip` under the
perceptual intent ends in a curve fit whose fitter returns a NaN. -/
theorem cmsDetectDestinationBlackPoint_toe :
    cmsDetectDestinationBlackPoint (refEnv toeRoundTrip ⟨5, 1, -1⟩) ⟨1, 2, 3⟩ rgbDisplayV2
      INTENT_PERCEPTUAL 0 = none := by
  rw [cmsDetectDestinationBlackPoint_AdobeCase _ _ _ _ _ (AdobeCase_rgbDisplayV2 _ (Or.inl rfl)),
    AdobeSteps_of _ _ _ _ _ _ _ _ _ _ (InitialLab_perceptual _ _ _)
      (CreateRoundtripXForm_refEnv _ _ _ _)]
  have hS : NearlyStraightMidRange toeRoundTrip ⟨0, 0, 0⟩ (MinL toeRoundTrip ⟨0, 0, 0⟩)
      (MaxL toeRoundTrip ⟨0, 0, 0⟩) INTENT_PERCEPTUAL = false :=
    NearlyStraightMidRange_other _ _ _ _ _ (by decide)
  rw [hS]
  simp only [Bool.false_eq_true, if_false]
  rw [Step4_fit _ _ _ _ _ _ _ _ _ _ (by rw [CapturePoints_toe]; norm_num)]
  simp only [CapturePoints_toe, List.map_cons, List.map_nil, List.length_cons, List.length_nil]
  rw [show 0 + 1 + 1 + 1 + 1 = 4 from rfl, RootOfLeastSquaresFitQuadraticCurve_toe]

/-! ### The claims -/

/-- C1: for a device-link profile, `cmsDetectBlackPoint` writes (0,0,0) and
returns FALSE for every intent, every flags value and every other content of
the profile, having asked only for the device class. -/
theorem cmsDetectBlackPoint_deviceLink (E : Env) (BlackPoint : cmsCIEXYZ) (hProfile : Profile)
    (Intent dwFlags : Nat) (hLink : hProfile.cmsGetDeviceClass = cmsSigLinkClass) :
    cmsDetectBlackPoint E BlackPoint hProfile Intent dwFlags =
      ⟨false, ⟨0, 0, 0⟩, [Event.cmsGetDeviceClass]⟩ := by
  simp [cmsDetectBlackPoint, hLink, zeroXYZ]

/-- Witness of C1: the device-link profile `rgbLinkV2` under the perceptual
intent. -/
theorem cmsDetectBlackPoint_deviceLink_witness :
    rgbLinkV2.cmsGetDeviceClass = cmsSigLinkClass ∧
    cmsDetectBlackPoint refEnv0 ⟨1, 2, 3⟩ rgbLinkV2 INTENT_PERCEPTUAL 0 =
      ⟨false, ⟨0, 0, 0⟩, [Event.cmsGetDeviceClass]⟩ :=
  ⟨rfl, cmsDetectBlackPoint_deviceLink _ _ _ _ _ rfl⟩

/-- C2, at two failing inputs: `cmsDetectDestinationBlackPoint` returns FALSE
and leaves the output triplet as it was before the call, here (1,2,3), when
the initial guess fails under the relative-colorimetric intent (line 401) and
when the round trip cannot be created (line 421). -/
theorem cmsDetectDestinationBlackPoint_failure_keeps_output :
    cmsDetectDestinationBlackPoint refEnv0 ⟨1, 2, 3⟩ rgbPrinterB2A
        INTENT_RELATIVE_COLORIMETRIC 0 =
      some ⟨false, ⟨1, 2, 3⟩, [Event.cmsGetEncodedICCversion, Event.cmsGetColorSpace,
        Event.cmsIsCLUT, Event.cmsGetDeviceClass, Event.cmsGetEncodedICCversion,
        Event.cmsGetDeviceClass, Event.cmsGetColorSpace, Event.cmsGetProfileContextID,
        Event.cmsIsIntentSupported]⟩ ∧
    cmsDetectDestinationBlackPoint noRoundTripEnv ⟨1, 2, 3⟩ rgbDisplayV2
        INTENT_RELATIVE_COLORIMETRIC 0 =
      some ⟨false, ⟨1, 2, 3⟩, [Event.cmsGetEncodedICCversion, Event.cmsGetColorSpace,
        Event.cmsIsCLUT, Event.cmsGetDeviceClass, Event.cmsGetEncodedICCversion,
        Event.cmsGetDeviceClass, Event.cmsGetProfileContextID, Event.cmsIsIntentSupported,
        Event.cmsFormatterForColorspaceOfProfile, Event.cmsGetColorSpace, Event.profileCreated,
        Event.transformCreated, Event.profileClosed, Event.transformDeleted,
        Event.profileCreated, Event.cmsGetProfileContextID, Event.profileClosed]⟩ := by
  constructor
  · simp [cmsDetectDestinationBlackPoint, AdobeSteps, InitialLab, cmsDetectBlackPoint,
      DetectBlackPointV2, BlackPointAsDarkerColorant, rgbPrinterB2A, mkProfile, refEnv, refEnv0,
      INTENT_RELATIVE_COLORIMETRIC, INTENT_PERCEPTUAL, INTENT_SATURATION, LCMS_USED_AS_OUTPUT,
      LCMS_USED_AS_INPUT, cmsSigRgbData, cmsSigGrayData, cmsSigCmykData, cmsSigLinkClass,
      cmsSigOutputClass, Ret.after, zeroXYZ]
  · simp [cmsDetectDestinationBlackPoint, AdobeSteps, InitialLab, cmsDetectBlackPoint,
      DetectBlackPointV2, BlackPointAsDarkerColorant, rgbDisplayV2, mkProfile, refEnv, refEnv0,
      noRoundTripEnv, CreateRoundtripXForm, endPoints,
      INTENT_RELATIVE_COLORIMETRIC, INTENT_PERCEPTUAL, INTENT_SATURATION, LCMS_USED_AS_OUTPUT,
      LCMS_USED_AS_INPUT, cmsSigRgbData, cmsSigGrayData, cmsSigCmykData, cmsSigLinkClass,
      cmsSigOutputClass, Ret.after, zeroXYZ]

/-- C3, at a failing input: with the round trip `flatRoundTrip` (MinL = MaxL)
no sample is retained under the perceptual intent, and
`cmsDetectDestinationBlackPoint` returns TRUE with the initial guess
Lab (0,0,0), that is the triplet (0,0,0), where `cmsDetectBlackPoint` returns
the darker colorant of L* = 5. -/
theorem cmsDetectDestinationBlackPoint_empty_band :
    CapturePoints flatRoundTrip ⟨0, 0, 0⟩ (MinL flatRoundTrip ⟨0, 0, 0⟩)
      (MaxL flatRoundTrip ⟨0, 0, 0⟩) (lo INTENT_PERCEPTUAL) (hi INTENT_PERCEPTUAL) = [] ∧
    cmsDetectDestinationBlackPoint (refEnv flatRoundTrip ⟨5, 1, -1⟩) ⟨1, 2, 3⟩ rgbDisplayV2
        INTENT_PERCEPTUAL 0 =
      some ⟨true, ⟨0, 0, 0⟩, [Event.cmsGetEncodedICCversion, Event.cmsGetColorSpace,
        Event.cmsIsCLUT, Event.profileCreated, Event.cmsGetProfileContextID,
        Event.transformCreated, Event.profileClosed, Event.transformDeleted]⟩ ∧
    (cmsDetectBlackPoint (refEnv flatRoundTrip ⟨5, 1, -1⟩) ⟨1, 2, 3⟩ rgbDisplayV2
        INTENT_PERCEPTUAL 0).ok = true ∧
    (cmsDetectBlackPoint (refEnv flatRoundTrip ⟨5, 1, -1⟩) ⟨1, 2, 3⟩ rgbDisplayV2
        INTENT_PERCEPTUAL 0).BlackPoint =
      ⟨0.9642 * (135 / 24389), 135 / 24389, 0.8249 * (135 / 24389)⟩ := by
  have hpts := CapturePoints_degenerate flatRoundTrip ⟨0, 0, 0⟩ (MinL flatRoundTrip ⟨0, 0, 0⟩)
    (MaxL flatRoundTrip ⟨0, 0, 0⟩) (lo INTENT_PERCEPTUAL) (hi INTENT_PERCEPTUAL) rfl
  refine ⟨hpts, ?_, ?_, ?_⟩
  · rw [cmsDetectDestinationBlackPoint_AdobeCase _ _ _ _ _ (AdobeCase_rgbDisplayV2 _ (Or.inl rfl)),
      AdobeSteps_of _ _ _ _ _ _ _ _ _ _ (InitialLab_perceptual _ _ _)
        (CreateRoundtripXForm_refEnv _ _ _ _),
      Step4_sorted _ _ _ _ _ _ _ _ _ _ (by rw [hpts]; simp)]
    simp [refEnv, darkLab2XYZ]
  · rw [cmsDetectBlackPoint_rgbDisplayV2_perceptual]
  · rw [cmsDetectBlackPoint_rgbDisplayV2_perceptual]
    simp only [darkLab2XYZ]
    norm_num

/-- C4: when the guards let the call through to step 1, the initial Lab and
the round trip exist, and the retained responses `y[0..n-1]` are
non-decreasing, `cmsDetectDestinationBlackPoint` returns TRUE with
`cmsLab2XYZ` of the initial Lab, releasing the round trip. The initial Lab is
`cmsXYZ2Lab` of the result of `cmsDetectBlackPoint` under the
relative-colorimetric intent and Lab (0,0,0) otherwise. The fitter is not
called: the result is the same whatever the solver and the square root are. -/
theorem cmsDetectDestinationBlackPoint_monotonic (E : Env) (BlackPoint : cmsCIEXYZ)
    (hProfile : Profile) (Intent dwFlags : Nat)
    (Lab0 : cmsCIELab) (t1 : List Event) (hRoundTrip : cmsCIELab → cmsCIELab) (t2 : List Event)
    (hCase : AdobeCase hProfile Intent)
    (hIni : InitialLab E hProfile Intent dwFlags = (some Lab0, t1))
    (hXf : CreateRoundtripXForm E hProfile Intent = (some hRoundTrip, t2))
    (hSorted : List.Sorted (· ≤ ·)
      ((CapturePoints hRoundTrip Lab0 (MinL hRoundTrip Lab0) (MaxL hRoundTrip Lab0)
        (lo Intent) (hi Intent)).map Prod.snd)) :
    cmsDetectDestinationBlackPoint E BlackPoint hProfile Intent dwFlags =
      some ⟨true, E.cmsLab2XYZ Lab0,
        [Event.cmsGetEncodedICCversion, Event.cmsGetColorSpace, Event.cmsIsCLUT] ++ t1 ++ t2 ++
          [Event.transformDeleted]⟩ ∧
    Lab0 = (if Intent = INTENT_RELATIVE_COLORIMETRIC then
        E.cmsXYZ2Lab (cmsDetectBlackPoint E BlackPoint hProfile Intent dwFlags).BlackPoint
      else ⟨0, 0, 0⟩) ∧
    ∀ (solve : cmsMAT3 → cmsVEC3 → Option cmsVEC3) (root : ℚ → ℚ),
      cmsDetectDestinationBlackPoint { E with _cmsMAT3solve := solve, sqrt := root } BlackPoint
          hProfile Intent dwFlags =
        cmsDetectDestinationBlackPoint E BlackPoint hProfile Intent dwFlags := by
  have key : ∀ E2 : Env, InitialLab E2 hProfile Intent dwFlags = (some Lab0, t1) →
      CreateRoundtripXForm E2 hProfile Intent = (some hRoundTrip, t2) →
      cmsDetectDestinationBlackPoint E2 BlackPoint hProfile Intent dwFlags =
        some ⟨true, E2.cmsLab2XYZ Lab0,
          [Event.cmsGetEncodedICCversion, Event.cmsGetColorSpace, Event.cmsIsCLUT] ++ t1 ++ t2 ++
            [Event.transformDeleted]⟩ := by
    intro E2 h1 h2
    rw [cmsDetectDestinationBlackPoint_AdobeCase E2 _ _ _ _ hCase,
      AdobeSteps_of E2 _ _ _ _ _ Lab0 t1 hRoundTrip t2 h1 h2,
      Step4_sorted E2 _ _ _ _ _ _ _ _ _ hSorted]
    simp
  refine ⟨key E hIni hXf, ?_, fun solve root => ?_⟩
  · by_cases hR : Intent = INTENT_RELATIVE_COLORIMETRIC
    · simp only [InitialLab, if_pos hR] at hIni
      rw [if_pos hR]
      by_cases hok : (cmsDetectBlackPoint E ⟨E.indeterminate 0, E.indeterminate 1,
          E.indeterminate 2⟩ hProfile Intent dwFlags).ok = true
      · simp only [hok, Bool.not_true, Bool.false_eq_true, if_false, Prod.mk.injEq,
          Option.some.injEq] at hIni
        rw [← hIni.1]
        rfl
      · simp [hok] at hIni
    · simp only [InitialLab, if_neg hR, Prod.mk.injEq, Option.some.injEq] at hIni
      rw [if_neg hR]
      exact hIni.1.symm
  · rw [key E hIni hXf]
    exact key _ hIni hXf

/-- Witness of C4: the identity round trip under the perceptual intent. -/
theorem cmsDetectDestinationBlackPoint_monotonic_witness :
    AdobeCase rgbDisplayV2 INTENT_PERCEPTUAL ∧
    InitialLab refEnv0 rgbDisplayV2 INTENT_PERCEPTUAL 0 = (some ⟨0, 0, 0⟩, []) ∧
    CreateRoundtripXForm refEnv0 rgbDisplayV2 INTENT_PERCEPTUAL =
      (some identityRoundTrip, [Event.profileCreated, Event.cmsGetProfileContextID,
        Event.transformCreated, Event.profileClosed]) ∧
    List.Sorted (· ≤ ·)
      ((CapturePoints identityRoundTrip ⟨0, 0, 0⟩ (MinL identityRoundTrip ⟨0, 0, 0⟩)
        (MaxL identityRoundTrip ⟨0, 0, 0⟩) (lo INTENT_PERCEPTUAL)
        (hi INTENT_PERCEPTUAL)).map Prod.snd) ∧
    (cmsDetectDestinationBlackPoint refEnv0 ⟨1, 2, 3⟩ rgbDisplayV2 INTENT_PERCEPTUAL 0 =
      some ⟨true, refEnv0.cmsLab2XYZ ⟨0, 0, 0⟩,
        [Event.cmsGetEncodedICCversion, Event.cmsGetColorSpace, Event.cmsIsCLUT] ++ [] ++
          [Event.profileCreated, Event.cmsGetProfileContextID, Event.transformCreated,
            Event.profileClosed] ++ [Event.transformDeleted]⟩ ∧
    (⟨0, 0, 0⟩ : cmsCIELab) = (if INTENT_PERCEPTUAL = INTENT_RELATIVE_COLORIMETRIC then
        refEnv0.cmsXYZ2Lab
          (cmsDetectBlackPoint refEnv0 ⟨1, 2, 3⟩ rgbDisplayV2 INTENT_PERCEPTUAL 0).BlackPoint
      else ⟨0, 0, 0⟩) ∧
    ∀ (solve : cmsMAT3 → cmsVEC3 → Option cmsVEC3) (root : ℚ → ℚ),
      cmsDetectDestinationBlackPoint { refEnv0 with _cmsMAT3solve := solve, sqrt := root }
          ⟨1, 2, 3⟩ rgbDisplayV2 INTENT_PERCEPTUAL 0 =
        cmsDetectDestinationBlackPoint refEnv0 ⟨1, 2, 3⟩ rgbDisplayV2 INTENT_PERCEPTUAL 0) :=
  have hSorted := CapturePoints_sorted identityRoundTrip ⟨0, 0, 0⟩
    (MinL identityRoundTrip ⟨0, 0, 0⟩) (MaxL identityRoundTrip ⟨0, 0, 0⟩)
    (lo INTENT_PERCEPTUAL) (hi INTENT_PERCEPTUAL)
    (by simp [MinL, MaxL, identityRoundTrip])
    (fun i j hij _ => by simpa [identityRoundTrip] using hij)
  ⟨AdobeCase_rgbDisplayV2 _ (Or.inl rfl), InitialLab_perceptual _ _ _,
    CreateRoundtripXForm_refEnv _ _ _ _, hSorted,
    cmsDetectDestinationBlackPoint_monotonic refEnv0 ⟨1, 2, 3⟩ rgbDisplayV2 INTENT_PERCEPTUAL 0
      ⟨0, 0, 0⟩ [] identityRoundTrip _ (AdobeCase_rgbDisplayV2 _ (Or.inl rfl))
      (InitialLab_perceptual _ _ _) (CreateRoundtripXForm_refEnv _ _ _ _) hSorted⟩

/-- C5, at a failing input: the four samples (0,6), (1,2), (2,0), (3,0) of the
parabola `y = x^2 - 5 x + 6`. The normal equations have the solution
`res` = (6, -5, 1): the least-squares parabola is this one, with constant term
`res.n[0]` = 6, linear coefficient -5, leading coefficient `res.n[2]` = 1 and
discriminant 1, and its roots are 2 and 3. The fitter divides by
`2 * res.n[0]`, twice the constant term, and returns 1/2, which is not a root.
The formula of the comment of lines 307-308,
`(-u + sqrt(u^2 - 4 t c)) / (2 t)`, with the leading coefficient
`t = res.n[2]` as divisor, gives the root 3. -/
theorem RootOfLeastSquaresFitQuadraticCurve_not_a_root :
    (∀ i : Nat, i < 4 →
      parabolaY i = 1 * (parabolaX i * parabolaX i) + (-5) * parabolaX i + 6) ∧
    refEnv0._cmsMAT3solve (LeastSquaresSystem 4 parabolaX parabolaY).1
      (LeastSquaresSystem 4 parabolaX parabolaY).2 = some ⟨6, -5, 1⟩ ∧
    RootOfLeastSquaresFitQuadraticCurve refEnv0 4 parabolaX parabolaY = .value (1 / 2) ∧
    (1 : ℚ) * ((1 / 2) * (1 / 2)) + (-5) * (1 / 2) + 6 ≠ 0 ∧
    (1 : ℚ) * (2 * 2) + (-5) * 2 + 6 = 0 ∧
    cmsFloat64Number.div
      (-1.0 * (⟨6, -5, 1⟩ : cmsVEC3).n1 +
        refEnv0.sqrt ((⟨6, -5, 1⟩ : cmsVEC3).n1 * (⟨6, -5, 1⟩ : cmsVEC3).n1 -
          4.0 * (⟨6, -5, 1⟩ : cmsVEC3).n0 * (⟨6, -5, 1⟩ : cmsVEC3).n2))
      (2.0 * (⟨6, -5, 1⟩ : cmsVEC3).n2) = .value 3 ∧
    (1 : ℚ) * (3 * 3) + (-5) * 3 + 6 = 0 := by
  refine ⟨?_, ?_, ?_, by norm_num, by norm_num, ?_, by norm_num⟩
  · intro i _
    simp only [parabolaX, parabolaY]
    push_cast
    ring
  · rw [LeastSquaresSystem_parabola]
    exact cramerSolve_parabola
  · have h : refEnv0._cmsMAT3solve = cramerSolve := rfl
    have hs : refEnv0.sqrt = Rat.sqrt := rfl
    simp only [RootOfLeastSquaresFitQuadraticCurve, LeastSquaresSystem_parabola, h,
      cramerSolve_parabola, hs]
    norm_num [cmsFloat64Number.div, Rat.sqrt]
  · have hs : refEnv0.sqrt = Rat.sqrt := rfl
    simp only [hs]
    norm_num [cmsFloat64Number.div, Rat.sqrt]

/-- C6: for a profile of version 4.0 or more that is a matrix-shaper, under
the perceptual or the saturation intent, `cmsDetectDestinationBlackPoint`
returns the flag and the triplet of `BlackPointAsDarkerColorant` run with the
relative-colorimetric intent, and so does `cmsDetectBlackPoint` when the profile
is not a device link. The right-hand sides are stated for an arbitrary output
content `BlackPoint2` and arbitrary flags `dwFlags2`: the result depends on
neither; `Ret.after` prefixes the trace only. -/
theorem version4_matrixShaper_delegation (E : Env) (BlackPoint BlackPoint2 : cmsCIEXYZ)
    (hProfile : Profile) (Intent dwFlags dwFlags2 : Nat)
    (hVersion : hProfile.cmsGetEncodedICCversion ≥ 0x4000000)
    (hShaper : hProfile.cmsIsMatrixShaper = true)
    (hIntent : Intent = INTENT_PERCEPTUAL ∨ Intent = INTENT_SATURATION) :
    cmsDetectDestinationBlackPoint E BlackPoint hProfile Intent dwFlags =
      some ((BlackPointAsDarkerColorant E hProfile INTENT_RELATIVE_COLORIMETRIC
        BlackPoint2 dwFlags2).after [Event.cmsGetEncodedICCversion, Event.cmsIsMatrixShaper]) ∧
    (hProfile.cmsGetDeviceClass ≠ cmsSigLinkClass →
      cmsDetectBlackPoint E BlackPoint hProfile Intent dwFlags =
        (BlackPointAsDarkerColorant E hProfile INTENT_RELATIVE_COLORIMETRIC
          BlackPoint2 dwFlags2).after
          [Event.cmsGetDeviceClass, Event.cmsGetEncodedICCversion, Event.cmsIsMatrixShaper]) := by
  have hI : ¬(Intent ≠ INTENT_PERCEPTUAL ∧ Intent ≠ INTENT_RELATIVE_COLORIMETRIC ∧
      Intent ≠ INTENT_SATURATION) := by
    rcases hIntent with h | h <;> simp [h]
  constructor
  · simp only [cmsDetectDestinationBlackPoint, if_neg hI, hVersion, hIntent, and_self, if_true,
      hShaper]
    rfl
  · intro hLink
    simp only [cmsDetectBlackPoint, if_neg hLink, hVersion, hIntent, and_self, if_true, hShaper]
    rfl

/-- Witness of C6: the matrix-shaper `rgbMatrixV4` under the saturation
intent, called with flags 7 and compared with flags 0. -/
theorem version4_matrixShaper_delegation_witness :
    rgbMatrixV4.cmsGetEncodedICCversion ≥ 0x4000000 ∧
    rgbMatrixV4.cmsIsMatrixShaper = true ∧
    (INTENT_SATURATION = INTENT_PERCEPTUAL ∨ INTENT_SATURATION = INTENT_SATURATION) ∧
    (cmsDetectDestinationBlackPoint refEnv0 ⟨1, 2, 3⟩ rgbMatrixV4 INTENT_SATURATION 7 =
      some ((BlackPointAsDarkerColorant refEnv0 rgbMatrixV4 INTENT_RELATIVE_COLORIMETRIC
        ⟨4, 5, 6⟩ 0).after [Event.cmsGetEncodedICCversion, Event.cmsIsMatrixShaper]) ∧
    (rgbMatrixV4.cmsGetDeviceClass ≠ cmsSigLinkClass →
      cmsDetectBlackPoint refEnv0 ⟨1, 2, 3⟩ rgbMatrixV4 INTENT_SATURATION 7 =
        (BlackPointAsDarkerColorant refEnv0 rgbMatrixV4 INTENT_RELATIVE_COLORIMETRIC
          ⟨4, 5, 6⟩ 0).after
          [Event.cmsGetDeviceClass, Event.cmsGetEncodedICCversion, Event.cmsIsMatrixShaper])) :=
  ⟨by decide, rfl, Or.inr rfl,
    version4_matrixShaper_delegation refEnv0 ⟨1, 2, 3⟩ ⟨4, 5, 6⟩ rgbMatrixV4 INTENT_SATURATION 7 0
      (by decide) rfl (Or.inr rfl)⟩

/-- C7: for a profile of version 4.0 or more that is not a matrix-shaper,
under the perceptual or the saturation intent,
`cmsDetectDestinationBlackPoint` returns TRUE with the constant
(`cmsPERCEPTUAL_BLACK_X`, `_Y`, `_Z`) after two queries on the profile, and
`cmsDetectBlackPoint` does the same after three when the profile is not a
device link. The traces hold no creation: no transform and no profile is
created. -/
theorem version4_perceptual_black (E : Env) (BlackPoint : cmsCIEXYZ) (hProfile : Profile)
    (Intent dwFlags : Nat)
    (hVersion : hProfile.cmsGetEncodedICCversion ≥ 0x4000000)
    (hShaper : hProfile.cmsIsMatrixShaper = false)
    (hIntent : Intent = INTENT_PERCEPTUAL ∨ Intent = INTENT_SATURATION) :
    cmsDetectDestinationBlackPoint E BlackPoint hProfile Intent dwFlags =
      some ⟨true, ⟨E.cmsPERCEPTUAL_BLACK_X, E.cmsPERCEPTUAL_BLACK_Y, E.cmsPERCEPTUAL_BLACK_Z⟩,
        [Event.cmsGetEncodedICCversion, Event.cmsIsMatrixShaper]⟩ ∧
    (hProfile.cmsGetDeviceClass ≠ cmsSigLinkClass →
      cmsDetectBlackPoint E BlackPoint hProfile Intent dwFlags =
        ⟨true, ⟨E.cmsPERCEPTUAL_BLACK_X, E.cmsPERCEPTUAL_BLACK_Y, E.cmsPERCEPTUAL_BLACK_Z⟩,
          [Event.cmsGetDeviceClass, Event.cmsGetEncodedICCversion, Event.cmsIsMatrixShaper]⟩) := by
  have hI : ¬(Intent ≠ INTENT_PERCEPTUAL ∧ Intent ≠ INTENT_RELATIVE_COLORIMETRIC ∧
      Intent ≠ INTENT_SATURATION) := by
    rcases hIntent with h | h <;> simp [h]
  constructor
  · simp [cmsDetectDestinationBlackPoint, hI, hVersion, hIntent, hShaper]
  · intro hLink
    simp [cmsDetectBlackPoint, hLink, hVersion, hIntent, hShaper]

/-- Witness of C7: the lookup-table profile `rgbDisplayV4` under the
perceptual intent. -/
theorem version4_perceptual_black_witness :
    rgbDisplayV4.cmsGetEncodedICCversion ≥ 0x4000000 ∧
    rgbDisplayV4.cmsIsMatrixShaper = false ∧
    (INTENT_PERCEPTUAL = INTENT_PERCEPTUAL ∨ INTENT_PERCEPTUAL = INTENT_SATURATION) ∧
    (cmsDetectDestinationBlackPoint refEnv0 ⟨1, 2, 3⟩ rgbDisplayV4 INTENT_PERCEPTUAL 0 =
      some ⟨true, ⟨refEnv0.cmsPERCEPTUAL_BLACK_X, refEnv0.cmsPERCEPTUAL_BLACK_Y,
        refEnv0.cmsPERCEPTUAL_BLACK_Z⟩,
        [Event.cmsGetEncodedICCversion, Event.cmsIsMatrixShaper]⟩ ∧
    (rgbDisplayV4.cmsGetDeviceClass ≠ cmsSigLinkClass →
      cmsDetectBlackPoint refEnv0 ⟨1, 2, 3⟩ rgbDisplayV4 INTENT_PERCEPTUAL 0 =
        ⟨true, ⟨refEnv0.cmsPERCEPTUAL_BLACK_X, refEnv0.cmsPERCEPTUAL_BLACK_Y,
          refEnv0.cmsPERCEPTUAL_BLACK_Z⟩,
          [Event.cmsGetDeviceClass, Event.cmsGetEncodedICCversion,
            Event.cmsIsMatrixShaper]⟩)) :=
  ⟨by decide, rfl, Or.inl rfl,
    version4_perceptual_black refEnv0 ⟨1, 2, 3⟩ rgbDisplayV4 INTENT_PERCEPTUAL 0
      (by decide) rfl (Or.inl rfl)⟩

/-- C8: for an intent other than perceptual, relative-colorimetric and
saturation, `cmsDetectDestinationBlackPoint` writes (0,0,0) and returns FALSE,
for every profile; its trace is empty: it asks the profile nothing and creates
nothing. -/
theorem cmsDetectDestinationBlackPoint_inadequate_intent (E : Env) (BlackPoint : cmsCIEXYZ)
    (hProfile : Profile) (Intent dwFlags : Nat)
    (hP : Intent ≠ INTENT_PERCEPTUAL) (hR : Intent ≠ INTENT_RELATIVE_COLORIMETRIC)
    (hS : Intent ≠ INTENT_SATURATION) :
    cmsDetectDestinationBlackPoint E BlackPoint hProfile Intent dwFlags =
      some ⟨false, ⟨0, 0, 0⟩, []⟩ := by
  simp [cmsDetectDestinationBlackPoint, hP, hR, hS, zeroXYZ]

/-- Witness of C8: the absolute-colorimetric intent. -/
theorem cmsDetectDestinationBlackPoint_inadequate_intent_witness :
    INTENT_ABSOLUTE_COLORIMETRIC ≠ INTENT_PERCEPTUAL ∧
    INTENT_ABSOLUTE_COLORIMETRIC ≠ INTENT_RELATIVE_COLORIMETRIC ∧
    INTENT_ABSOLUTE_COLORIMETRIC ≠ INTENT_SATURATION ∧
    cmsDetectDestinationBlackPoint refEnv0 ⟨1, 2, 3⟩ rgbDisplayV2
      INTENT_ABSOLUTE_COLORIMETRIC 0 = some ⟨false, ⟨0, 0, 0⟩, []⟩ :=
  ⟨by decide, by decide, by decide,
    cmsDetectDestinationBlackPoint_inadequate_intent refEnv0 ⟨1, 2, 3⟩ rgbDisplayV2
      INTENT_ABSOLUTE_COLORIMETRIC 0 (by decide) (by decide) (by decide)⟩

/-- C9 fails for the round trip `kinkRoundTrip` under the perceptual intent:
two samples are retained, (1, 1/5) and (2, 1/10), which decrease, so the curve
fit is reached with fewer than 4 samples. `cmsDetectDestinationBlackPoint`
returns TRUE with `cmsLab2XYZ` of Lab (0,0,0), the triplet (0,0,0), where
`cmsDetectBlackPoint` returns the darker colorant of L* = 5. -/
theorem few_points_without_fallback :
    CapturePoints kinkRoundTrip ⟨0, 0, 0⟩ (MinL kinkRoundTrip ⟨0, 0, 0⟩)
      (MaxL kinkRoundTrip ⟨0, 0, 0⟩) (lo INTENT_PERCEPTUAL) (hi INTENT_PERCEPTUAL) =
      [(1, 1 / 5), (2, 1 / 10)] ∧
    cmsDetectDestinationBlackPoint (refEnv kinkRoundTrip ⟨5, 1, -1⟩) ⟨1, 2, 3⟩ rgbDisplayV2
        INTENT_PERCEPTUAL 0 =
      some ⟨true, ⟨0, 0, 0⟩, [Event.cmsGetEncodedICCversion, Event.cmsGetColorSpace,
        Event.cmsIsCLUT, Event.profileCreated, Event.cmsGetProfileContextID,
        Event.transformCreated, Event.profileClosed, Event.transformDeleted]⟩ ∧
    (cmsDetectBlackPoint (refEnv kinkRoundTrip ⟨5, 1, -1⟩) ⟨1, 2, 3⟩ rgbDisplayV2
        INTENT_PERCEPTUAL 0).ok = true ∧
    (cmsDetectBlackPoint (refEnv kinkRoundTrip ⟨5, 1, -1⟩) ⟨1, 2, 3⟩ rgbDisplayV2
        INTENT_PERCEPTUAL 0).BlackPoint =
      ⟨0.9642 * (135 / 24389), 135 / 24389, 0.8249 * (135 / 24389)⟩ := by
  refine ⟨CapturePoints_kink, ?_, ?_, ?_⟩
  · rw [cmsDetectDestinationBlackPoint_AdobeCase _ _ _ _ _ (AdobeCase_rgbDisplayV2 _ (Or.inl rfl)),
      AdobeSteps_of _ _ _ _ _ _ _ _ _ _ (InitialLab_perceptual _ _ _)
        (CreateRoundtripXForm_refEnv _ _ _ _)]
    have hS : NearlyStraightMidRange kinkRoundTrip ⟨0, 0, 0⟩ (MinL kinkRoundTrip ⟨0, 0, 0⟩)
        (MaxL kinkRoundTrip ⟨0, 0, 0⟩) INTENT_PERCEPTUAL = false := by
      simp [NearlyStraightMidRange, INTENT_PERCEPTUAL, INTENT_RELATIVE_COLORIMETRIC]
    rw [hS, Step4_few _ _ _ _ _ _ _ _ _ _ (by rw [CapturePoints_kink]; norm_num)
      (by rw [CapturePoints_kink]; simp)]
    simp [refEnv, darkLab2XYZ]
  · rw [cmsDetectBlackPoint_rgbDisplayV2_perceptual]
  · rw [cmsDetectBlackPoint_rgbDisplayV2_perceptual]
    simp only [darkLab2XYZ]
    norm_num

/-- C9, amended: when the curve fit is reached with fewer than 4 retained
samples (the straightness shortcut is not taken and the retained responses, 2
or 3 of them, are not non-decreasing), the fitter returns 0 and
`cmsDetectDestinationBlackPoint` returns TRUE with `cmsLab2XYZ` of
(0, a0, b0), where a0 and b0 are the chroma of the initial Lab. -/
theorem cmsDetectDestinationBlackPoint_few_points (E : Env) (BlackPoint : cmsCIEXYZ)
    (hProfile : Profile) (Intent dwFlags : Nat)
    (Lab0 : cmsCIELab) (t1 : List Event) (hRoundTrip : cmsCIELab → cmsCIELab) (t2 : List Event)
    (hCase : AdobeCase hProfile Intent)
    (hIni : InitialLab E hProfile Intent dwFlags = (some Lab0, t1))
    (hXf : CreateRoundtripXForm E hProfile Intent = (some hRoundTrip, t2))
    (hStraight : NearlyStraightMidRange hRoundTrip Lab0 (MinL hRoundTrip Lab0)
      (MaxL hRoundTrip Lab0) Intent = false)
    (hNotSorted : ¬ List.Sorted (· ≤ ·)
      ((CapturePoints hRoundTrip Lab0 (MinL hRoundTrip Lab0) (MaxL hRoundTrip Lab0)
        (lo Intent) (hi Intent)).map Prod.snd))
    (hFew : (CapturePoints hRoundTrip Lab0 (MinL hRoundTrip Lab0) (MaxL hRoundTrip Lab0)
        (lo Intent) (hi Intent)).length < 4) :
    RootOfLeastSquaresFitQuadraticCurve E
      (CapturePoints hRoundTrip Lab0 (MinL hRoundTrip Lab0) (MaxL hRoundTrip Lab0)
        (lo Intent) (hi Intent)).length
      (stackArray E ((CapturePoints hRoundTrip Lab0 (MinL hRoundTrip Lab0)
        (MaxL hRoundTrip Lab0) (lo Intent) (hi Intent)).map Prod.fst))
      (stackArray E ((CapturePoints hRoundTrip Lab0 (MinL hRoundTrip Lab0)
        (MaxL hRoundTrip Lab0) (lo Intent) (hi Intent)).map Prod.snd)) = .value 0 ∧
    cmsDetectDestinationBlackPoint E BlackPoint hProfile Intent dwFlags =
      some ⟨true, E.cmsLab2XYZ ⟨0, Lab0.a, Lab0.b⟩,
        [Event.cmsGetEncodedICCversion, Event.cmsGetColorSpace, Event.cmsIsCLUT] ++ t1 ++ t2 ++
          [Event.transformDeleted]⟩ := by
  refine ⟨RootOfLeastSquaresFitQuadraticCurve_lt_four E _ _ _ hFew, ?_⟩
  rw [cmsDetectDestinationBlackPoint_AdobeCase E _ _ _ _ hCase,
    AdobeSteps_of E _ _ _ _ _ Lab0 t1 hRoundTrip t2 hIni hXf, hStraight,
    Step4_few E _ _ _ _ _ _ _ _ _ hNotSorted hFew]
  simp

/-- Witness of C9 as amended: the round trip `kinkRoundTrip` under the
perceptual intent, with its two retained samples. -/
theorem cmsDetectDestinationBlackPoint_few_points_witness :
    AdobeCase rgbDisplayV2 INTENT_PERCEPTUAL ∧
    InitialLab (refEnv kinkRoundTrip ⟨5, 1, -1⟩) rgbDisplayV2 INTENT_PERCEPTUAL 0 =
      (some ⟨0, 0, 0⟩, []) ∧
    CreateRoundtripXForm (refEnv kinkRoundTrip ⟨5, 1, -1⟩) rgbDisplayV2 INTENT_PERCEPTUAL =
      (some kinkRoundTrip, [Event.profileCreated, Event.cmsGetProfileContextID,
        Event.transformCreated, Event.profileClosed]) ∧
    NearlyStraightMidRange kinkRoundTrip ⟨0, 0, 0⟩ (MinL kinkRoundTrip ⟨0, 0, 0⟩)
      (MaxL kinkRoundTrip ⟨0, 0, 0⟩) INTENT_PERCEPTUAL = false ∧
    ¬ List.Sorted (· ≤ ·)
      ((CapturePoints kinkRoundTrip ⟨0, 0, 0⟩ (MinL kinkRoundTrip ⟨0, 0, 0⟩)
        (MaxL kinkRoundTrip ⟨0, 0, 0⟩) (lo INTENT_PERCEPTUAL)
        (hi INTENT_PERCEPTUAL)).map Prod.snd) ∧
    (CapturePoints kinkRoundTrip ⟨0, 0, 0⟩ (MinL kinkRoundTrip ⟨0, 0, 0⟩)
      (MaxL kinkRoundTrip ⟨0, 0, 0⟩) (lo INTENT_PERCEPTUAL)
      (hi INTENT_PERCEPTUAL)).length < 4 ∧
    (RootOfLeastSquaresFitQuadraticCurve (refEnv kinkRoundTrip ⟨5, 1, -1⟩)
      (CapturePoints kinkRoundTrip ⟨0, 0, 0⟩ (MinL kinkRoundTrip ⟨0, 0, 0⟩)
        (MaxL kinkRoundTrip ⟨0, 0, 0⟩) (lo INTENT_PERCEPTUAL) (hi INTENT_PERCEPTUAL)).length
      (stackArray (refEnv kinkRoundTrip ⟨5, 1, -1⟩)
        ((CapturePoints kinkRoundTrip ⟨0, 0, 0⟩ (MinL kinkRoundTrip ⟨0, 0, 0⟩)
          (MaxL kinkRoundTrip ⟨0, 0, 0⟩) (lo INTENT_PERCEPTUAL)
          (hi INTENT_PERCEPTUAL)).map Prod.fst))
      (stackArray (refEnv kinkRoundTrip ⟨5, 1, -1⟩)
        ((CapturePoints kinkRoundTrip ⟨0, 0, 0⟩ (MinL kinkRoundTrip ⟨0, 0, 0⟩)
          (MaxL kinkRoundTrip ⟨0, 0, 0⟩) (lo INTENT_PERCEPTUAL)
          (hi INTENT_PERCEPTUAL)).map Prod.snd)) = .value 0 ∧
    cmsDetectDestinationBlackPoint (refEnv kinkRoundTrip ⟨5, 1, -1⟩) ⟨1, 2, 3⟩ rgbDisplayV2
        INTENT_PERCEPTUAL 0 =
      some ⟨true, (refEnv kinkRoundTrip ⟨5, 1, -1⟩).cmsLab2XYZ ⟨0, 0, 0⟩,
        [Event.cmsGetEncodedICCversion, Event.cmsGetColorSpace, Event.cmsIsCLUT] ++ [] ++
          [Event.profileCreated, Event.cmsGetProfileContextID, Event.transformCreated,
            Event.profileClosed] ++ [Event.transformDeleted]⟩) :=
  have hS : NearlyStraightMidRange kinkRoundTrip ⟨0, 0, 0⟩ (MinL kinkRoundTrip ⟨0, 0, 0⟩)
      (MaxL kinkRoundTrip ⟨0, 0, 0⟩) INTENT_PERCEPTUAL = false := by
    simp [NearlyStraightMidRange, INTENT_PERCEPTUAL, INTENT_RELATIVE_COLORIMETRIC]
  have hN : ¬ List.Sorted (· ≤ ·)
      ((CapturePoints kinkRoundTrip ⟨0, 0, 0⟩ (MinL kinkRoundTrip ⟨0, 0, 0⟩)
        (MaxL kinkRoundTrip ⟨0, 0, 0⟩) (lo INTENT_PERCEPTUAL)
        (hi INTENT_PERCEPTUAL)).map Prod.snd) := by
    rw [CapturePoints_kink]; norm_num
  have hF : (CapturePoints kinkRoundTrip ⟨0, 0, 0⟩ (MinL kinkRoundTrip ⟨0, 0, 0⟩)
      (MaxL kinkRoundTrip ⟨0, 0, 0⟩) (lo INTENT_PERCEPTUAL)
      (hi INTENT_PERCEPTUAL)).length < 4 := by
    rw [CapturePoints_kink]; simp
  ⟨AdobeCase_rgbDisplayV2 _ (Or.inl rfl), InitialLab_perceptual _ _ _,
    CreateRoundtripXForm_refEnv _ _ _ _, hS, hN, hF,
    cmsDetectDestinationBlackPoint_few_points (refEnv kinkRoundTrip ⟨5, 1, -1⟩) ⟨1, 2, 3⟩
      rgbDisplayV2 INTENT_PERCEPTUAL 0 ⟨0, 0, 0⟩ [] kinkRoundTrip _
      (AdobeCase_rgbDisplayV2 _ (Or.inl rfl)) (InitialLab_perceptual _ _ _)
      (CreateRoundtripXForm_refEnv _ _ _ _) hS hN hF⟩

/-- C10 fails on two success paths, in environments whose conversions are
inverse to each other. The fixed perceptual black (0.00336, 0.0034731, 0.00287)
that `cmsDetectBlackPoint` returns for `rgbDisplayV4` has a Lab value with a*
not zero. The darker colorant is clipped from above only: for a transform that
answers L* = -1, the black point returned for `rgbDisplayV2` has L* = -1. -/
theorem blackPoint_chroma_or_negative :
    (∀ c, darkXYZ2Lab (darkLab2XYZ c) = c) ∧ (∀ c, darkLab2XYZ (darkXYZ2Lab c) = c) ∧
    (cmsDetectBlackPoint refEnv0 ⟨1, 2, 3⟩ rgbDisplayV4 INTENT_PERCEPTUAL 0).ok = true ∧
    (refEnv0.cmsXYZ2Lab
      (cmsDetectBlackPoint refEnv0 ⟨1, 2, 3⟩ rgbDisplayV4 INTENT_PERCEPTUAL 0).BlackPoint).a
        ≠ 0 ∧
    (cmsDetectBlackPoint (refEnv identityRoundTrip ⟨-1, 0, 0⟩) ⟨1, 2, 3⟩ rgbDisplayV2
      INTENT_PERCEPTUAL 0).ok = true ∧
    ((refEnv identityRoundTrip ⟨-1, 0, 0⟩).cmsXYZ2Lab
      (cmsDetectBlackPoint (refEnv identityRoundTrip ⟨-1, 0, 0⟩) ⟨1, 2, 3⟩ rgbDisplayV2
        INTENT_PERCEPTUAL 0).BlackPoint).L = -1 := by
  refine ⟨darkXYZ2Lab_darkLab2XYZ, darkLab2XYZ_darkXYZ2Lab, ?_, ?_, ?_, ?_⟩
  · simp [cmsDetectBlackPoint, rgbDisplayV4, mkProfile, cmsSigLinkClass, INTENT_PERCEPTUAL]
  · simp [cmsDetectBlackPoint, rgbDisplayV4, mkProfile, cmsSigLinkClass, INTENT_PERCEPTUAL,
      refEnv0, refEnv, darkXYZ2Lab]
    norm_num
  · simp [cmsDetectBlackPoint, DetectBlackPointV2, BlackPointAsDarkerColorant, rgbDisplayV2,
      mkProfile, refEnv, endPoints, INTENT_RELATIVE_COLORIMETRIC, INTENT_PERCEPTUAL,
      INTENT_SATURATION, LCMS_USED_AS_INPUT, cmsSigRgbData, cmsSigGrayData, cmsSigCmykData,
      cmsSigLinkClass, Ret.after]
  · simp [cmsDetectBlackPoint, DetectBlackPointV2, BlackPointAsDarkerColorant, rgbDisplayV2,
      mkProfile, refEnv, endPoints, INTENT_RELATIVE_COLORIMETRIC, INTENT_PERCEPTUAL,
      INTENT_SATURATION, LCMS_USED_AS_INPUT, cmsSigRgbData, cmsSigGrayData, cmsSigCmykData,
      cmsSigLinkClass, Ret.after, darkXYZ2Lab, darkLab2XYZ]
    norm_num

/-- C10, amended: assume that `cmsXYZ2Lab` inverts `cmsLab2XYZ` and that
`cmsLab2XYZ` sends Lab (0,0,0) to the zero triplet. Then every success of
`cmsDetectBlackPoint`, the fixed perceptual black of version 4 profiles apart,
returns a triplet whose Lab value has a* = b* = 0 and L* <= 50, and also
0 <= L* when every L* the collaborators answer for the profile is non-negative.
The same holds for every success of `cmsDetectDestinationBlackPoint`, with one
more exception: the curve fit whose fitter returns a NaN (`CurveFitIsNaN`),
where the code returns TRUE with `cmsLab2XYZ` of an L* that is NaN. This is the
only call without a result `some r`; every other call has a result, and when
that result is a success it is such a dark neutral. -/
theorem blackPoint_dark_neutral (E : Env) (BlackPoint : cmsCIEXYZ) (hProfile : Profile)
    (Intent dwFlags : Nat)
    (hInv : ∀ c, E.cmsXYZ2Lab (E.cmsLab2XYZ c) = c)
    (hZero : E.cmsLab2XYZ ⟨0, 0, 0⟩ = ⟨0, 0, 0⟩)
    (hConst : ¬(hProfile.cmsGetEncodedICCversion ≥ 0x4000000 ∧
      (Intent = INTENT_PERCEPTUAL ∨ Intent = INTENT_SATURATION) ∧
      hProfile.cmsIsMatrixShaper = false)) :
    ((cmsDetectBlackPoint E BlackPoint hProfile Intent dwFlags).ok = true →
      (E.cmsXYZ2Lab (cmsDetectBlackPoint E BlackPoint hProfile Intent dwFlags).BlackPoint).a = 0 ∧
      (E.cmsXYZ2Lab (cmsDetectBlackPoint E BlackPoint hProfile Intent dwFlags).BlackPoint).b = 0 ∧
      (E.cmsXYZ2Lab (cmsDetectBlackPoint E BlackPoint hProfile Intent dwFlags).BlackPoint).L
        ≤ 50 ∧
      (NonNegativeResponses E hProfile →
        0 ≤ (E.cmsXYZ2Lab
          (cmsDetectBlackPoint E BlackPoint hProfile Intent dwFlags).BlackPoint).L)) ∧
    (∀ r : Ret, cmsDetectDestinationBlackPoint E BlackPoint hProfile Intent dwFlags = some r →
      r.ok = true →
      (E.cmsXYZ2Lab r.BlackPoint).a = 0 ∧ (E.cmsXYZ2Lab r.BlackPoint).b = 0 ∧
      (E.cmsXYZ2Lab r.BlackPoint).L ≤ 50 ∧
      (NonNegativeResponses E hProfile → 0 ≤ (E.cmsXYZ2Lab r.BlackPoint).L)) ∧
    (cmsDetectDestinationBlackPoint E BlackPoint hProfile Intent dwFlags = none ↔
      CurveFitIsNaN E hProfile Intent dwFlags) ∧
    (¬CurveFitIsNaN E hProfile Intent dwFlags →
      ∃ r : Ret, cmsDetectDestinationBlackPoint E BlackPoint hProfile Intent dwFlags = some r ∧
        (r.ok = true →
          (E.cmsXYZ2Lab r.BlackPoint).a = 0 ∧ (E.cmsXYZ2Lab r.BlackPoint).b = 0 ∧
          (E.cmsXYZ2Lab r.BlackPoint).L ≤ 50 ∧
          (NonNegativeResponses E hProfile → 0 ≤ (E.cmsXYZ2Lab r.BlackPoint).L))) := by
  have hD := cmsDetectDestinationBlackPoint_DarkNeutral E BlackPoint hProfile Intent dwFlags
    (NonNegativeResponses E hProfile) hInv hZero id hConst
  have hN := cmsDetectDestinationBlackPoint_eq_none_iff E BlackPoint hProfile Intent dwFlags
  refine ⟨cmsDetectBlackPoint_DarkNeutral E BlackPoint hProfile Intent dwFlags _ hInv hZero id
    hConst, hD, hN, fun hNot => ?_⟩
  cases hres : cmsDetectDestinationBlackPoint E BlackPoint hProfile Intent dwFlags with
  | none => exact absurd (hN.mp hres) hNot
  | some r => exact ⟨r, rfl, hD r hres⟩

/-- Witness of C10 as amended: `rgbDisplayV2` in the reference environment
under the relative-colorimetric intent, where the call has a result, and with
the round trip `toeRoundTrip` under the perceptual intent, where the fitter
returns a NaN. -/
theorem blackPoint_dark_neutral_witness :
    (∀ c, refEnv0.cmsXYZ2Lab (refEnv0.cmsLab2XYZ c) = c) ∧
    refEnv0.cmsLab2XYZ ⟨0, 0, 0⟩ = ⟨0, 0, 0⟩ ∧
    ¬(rgbDisplayV2.cmsGetEncodedICCversion ≥ 0x4000000 ∧
      (INTENT_RELATIVE_COLORIMETRIC = INTENT_PERCEPTUAL ∨
        INTENT_RELATIVE_COLORIMETRIC = INTENT_SATURATION) ∧
      rgbDisplayV2.cmsIsMatrixShaper = false) ∧
    ((cmsDetectBlackPoint refEnv0 ⟨1, 2, 3⟩ rgbDisplayV2
        INTENT_RELATIVE_COLORIMETRIC 0).ok = true →
      (refEnv0.cmsXYZ2Lab (cmsDetectBlackPoint refEnv0 ⟨1, 2, 3⟩ rgbDisplayV2
        INTENT_RELATIVE_COLORIMETRIC 0).BlackPoint).a = 0 ∧
      (refEnv0.cmsXYZ2Lab (cmsDetectBlackPoint refEnv0 ⟨1, 2, 3⟩ rgbDisplayV2
        INTENT_RELATIVE_COLORIMETRIC 0).BlackPoint).b = 0 ∧
      (refEnv0.cmsXYZ2Lab (cmsDetectBlackPoint refEnv0 ⟨1, 2, 3⟩ rgbDisplayV2
        INTENT_RELATIVE_COLORIMETRIC 0).BlackPoint).L ≤ 50 ∧
      (NonNegativeResponses refEnv0 rgbDisplayV2 →
        0 ≤ (refEnv0.cmsXYZ2Lab (cmsDetectBlackPoint refEnv0 ⟨1, 2, 3⟩ rgbDisplayV2
          INTENT_RELATIVE_COLORIMETRIC 0).BlackPoint).L)) ∧
    (∀ r : Ret, cmsDetectDestinationBlackPoint refEnv0 ⟨1, 2, 3⟩ rgbDisplayV2
        INTENT_RELATIVE_COLORIMETRIC 0 = some r →
      r.ok = true →
      (refEnv0.cmsXYZ2Lab r.BlackPoint).a = 0 ∧ (refEnv0.cmsXYZ2Lab r.BlackPoint).b = 0 ∧
      (refEnv0.cmsXYZ2Lab r.BlackPoint).L ≤ 50 ∧
      (NonNegativeResponses refEnv0 rgbDisplayV2 → 0 ≤ (refEnv0.cmsXYZ2Lab r.BlackPoint).L)) ∧
    NonNegativeResponses refEnv0 rgbDisplayV2 ∧
    (∀ c, (refEnv toeRoundTrip ⟨5, 1, -1⟩).cmsXYZ2Lab
      ((refEnv toeRoundTrip ⟨5, 1, -1⟩).cmsLab2XYZ c) = c) ∧
    (refEnv toeRoundTrip ⟨5, 1, -1⟩).cmsLab2XYZ ⟨0, 0, 0⟩ = ⟨0, 0, 0⟩ ∧
    ¬(rgbDisplayV2.cmsGetEncodedICCversion ≥ 0x4000000 ∧
      (INTENT_PERCEPTUAL = INTENT_PERCEPTUAL ∨ INTENT_PERCEPTUAL = INTENT_SATURATION) ∧
      rgbDisplayV2.cmsIsMatrixShaper = false) ∧
    cmsDetectDestinationBlackPoint (refEnv toeRoundTrip ⟨5, 1, -1⟩) ⟨1, 2, 3⟩ rgbDisplayV2
      INTENT_PERCEPTUAL 0 = none ∧
    CurveFitIsNaN (refEnv toeRoundTrip ⟨5, 1, -1⟩) rgbDisplayV2 INTENT_PERCEPTUAL 0 :=
  have hInv : ∀ c, refEnv0.cmsXYZ2Lab (refEnv0.cmsLab2XYZ c) = c := darkXYZ2Lab_darkLab2XYZ
  have hZero : refEnv0.cmsLab2XYZ ⟨0, 0, 0⟩ = ⟨0, 0, 0⟩ := by
    simp [refEnv0, refEnv, darkLab2XYZ]
  have hConst : ¬(rgbDisplayV2.cmsGetEncodedICCversion ≥ 0x4000000 ∧
      (INTENT_RELATIVE_COLORIMETRIC = INTENT_PERCEPTUAL ∨
        INTENT_RELATIVE_COLORIMETRIC = INTENT_SATURATION) ∧
      rgbDisplayV2.cmsIsMatrixShaper = false) := by decide
  have hInvT : ∀ c, (refEnv toeRoundTrip ⟨5, 1, -1⟩).cmsXYZ2Lab
      ((refEnv toeRoundTrip ⟨5, 1, -1⟩).cmsLab2XYZ c) = c := darkXYZ2Lab_darkLab2XYZ
  have hZeroT : (refEnv toeRoundTrip ⟨5, 1, -1⟩).cmsLab2XYZ ⟨0, 0, 0⟩ = ⟨0, 0, 0⟩ := by
    simp [refEnv, darkLab2XYZ]
  have hConstT : ¬(rgbDisplayV2.cmsGetEncodedICCversion ≥ 0x4000000 ∧
      (INTENT_PERCEPTUAL = INTENT_PERCEPTUAL ∨ INTENT_PERCEPTUAL = INTENT_SATURATION) ∧
      rgbDisplayV2.cmsIsMatrixShaper = false) := by decide
  ⟨hInv, hZero, hConst,
    (blackPoint_dark_neutral refEnv0 ⟨1, 2, 3⟩ rgbDisplayV2 INTENT_RELATIVE_COLORIMETRIC 0
      hInv hZero hConst).1,
    (blackPoint_dark_neutral refEnv0 ⟨1, 2, 3⟩ rgbDisplayV2 INTENT_RELATIVE_COLORIMETRIC 0
      hInv hZero hConst).2.1,
    NonNegativeResponses_refEnv0 _ rfl, hInvT, hZeroT, hConstT,
    cmsDetectDestinationBlackPoint_toe,
    (blackPoint_dark_neutral (refEnv toeRoundTrip ⟨5, 1, -1⟩) ⟨1, 2, 3⟩ rgbDisplayV2
      INTENT_PERCEPTUAL 0 hInvT hZeroT hConstT).2.2.1.mp cmsDetectDestinationBlackPoint_toe⟩

/-! ## Claims C11 to C20 -/

/-- C11: with the collaborators seen as counters of the auxiliary Lab profiles
and of the transforms, after every call of `cmsDetectBlackPoint` and of
`cmsDetectDestinationBlackPoint`, for every profile, intent, flags and every
outcome of the collaborators (creation failures included), as many profiles were
closed as were created and as many transforms deleted as created. The trace of
`cmsDetectDestinationBlackPoint` is the one of its result whenever there is
one. -/
theorem resources_released (E : Env) (BlackPoint : cmsCIEXYZ) (hProfile : Profile)
    (Intent dwFlags : Nat) :
    Balanced (cmsDetectBlackPoint E BlackPoint hProfile Intent dwFlags).trace ∧
    Balanced (cmsDetectDestinationBlackPointTrace E BlackPoint hProfile Intent dwFlags) ∧
    ∀ r : Ret, cmsDetectDestinationBlackPoint E BlackPoint hProfile Intent dwFlags = some r →
      cmsDetectDestinationBlackPointTrace E BlackPoint hProfile Intent dwFlags = r.trace ∧
      Balanced r.trace := by
  refine ⟨cmsDetectBlackPoint_Balanced _ _ _ _ _,
    cmsDetectDestinationBlackPointTrace_Balanced _ _ _ _ _, fun r h => ?_⟩
  have hB := cmsDetectDestinationBlackPointTrace_Balanced E BlackPoint hProfile Intent dwFlags
  have hT : cmsDetectDestinationBlackPointTrace E BlackPoint hProfile Intent dwFlags =
      r.trace := by
    simp only [cmsDetectDestinationBlackPointTrace, h]
  exact ⟨hT, hT ▸ hB⟩

/-- Witness of C11: a call that creates and releases a Lab profile and a round
trip, and a call in an environment where the round trip cannot be created. -/
theorem resources_released_witness :
    cmsDetectDestinationBlackPoint refEnv0 ⟨1, 2, 3⟩ rgbDisplayV2 INTENT_PERCEPTUAL 0 =
      some ⟨true, ⟨0, 0, 0⟩, [Event.cmsGetEncodedICCversion, Event.cmsGetColorSpace,
        Event.cmsIsCLUT, Event.profileCreated, Event.cmsGetProfileContextID,
        Event.transformCreated, Event.profileClosed, Event.transformDeleted]⟩ ∧
    (cmsDetectDestinationBlackPointTrace refEnv0 ⟨1, 2, 3⟩ rgbDisplayV2 INTENT_PERCEPTUAL 0 =
        [Event.cmsGetEncodedICCversion, Event.cmsGetColorSpace,
          Event.cmsIsCLUT, Event.profileCreated, Event.cmsGetProfileContextID,
          Event.transformCreated, Event.profileClosed, Event.transformDeleted] ∧
      Balanced [Event.cmsGetEncodedICCversion, Event.cmsGetColorSpace,
        Event.cmsIsCLUT, Event.profileCreated, Event.cmsGetProfileContextID,
        Event.transformCreated, Event.profileClosed, Event.transformDeleted]) ∧
    Balanced (cmsDetectBlackPoint noRoundTripEnv ⟨1, 2, 3⟩ rgbDisplayV2
      INTENT_RELATIVE_COLORIMETRIC 0).trace ∧
    Balanced (cmsDetectDestinationBlackPointTrace noRoundTripEnv ⟨1, 2, 3⟩ rgbDisplayV2
      INTENT_PERCEPTUAL 0) :=
  ⟨cmsDetectDestinationBlackPoint_identity_perceptual,
    (resources_released refEnv0 ⟨1, 2, 3⟩ rgbDisplayV2 INTENT_PERCEPTUAL 0).2.2 _
      cmsDetectDestinationBlackPoint_identity_perceptual,
    (resources_released noRoundTripEnv ⟨1, 2, 3⟩ rgbDisplayV2 INTENT_RELATIVE_COLORIMETRIC
      0).1,
    (resources_released noRoundTripEnv ⟨1, 2, 3⟩ rgbDisplayV2 INTENT_PERCEPTUAL 0).2.1⟩

/-- C12: for a profile that is not a device link, is of the output class with
CMYK data and does not support the perceptual intent as input,
`cmsDetectBlackPoint` under the relative colorimetric intent, black point tag
feature off, is `BlackPointUsingPerceptualBlack` after four queries, and returns
TRUE with (0,0,0); the trace holds queries only, no transform or profile is
created. -/
theorem cmsDetectBlackPoint_cmyk_without_perceptual (E : Env) (BlackPoint : cmsCIEXYZ)
    (hProfile : Profile) (dwFlags : Nat)
    (hLink : hProfile.cmsGetDeviceClass ≠ cmsSigLinkClass)
    (hOutput : hProfile.cmsGetDeviceClass = cmsSigOutputClass)
    (hCmyk : hProfile.cmsGetColorSpace = cmsSigCmykData)
    (hPerceptual : hProfile.cmsIsIntentSupported INTENT_PERCEPTUAL LCMS_USED_AS_INPUT = false)
    (hTag : E.CMS_USE_PROFILE_BLACK_POINT_TAG = false) :
    cmsDetectBlackPoint E BlackPoint hProfile INTENT_RELATIVE_COLORIMETRIC dwFlags =
      (BlackPointUsingPerceptualBlack E BlackPoint hProfile).after
        [Event.cmsGetDeviceClass, Event.cmsGetEncodedICCversion, Event.cmsGetDeviceClass,
          Event.cmsGetColorSpace] ∧
    cmsDetectBlackPoint E BlackPoint hProfile INTENT_RELATIVE_COLORIMETRIC dwFlags =
      ⟨true, ⟨0, 0, 0⟩, [Event.cmsGetDeviceClass, Event.cmsGetEncodedICCversion,
        Event.cmsGetDeviceClass, Event.cmsGetColorSpace, Event.cmsIsIntentSupported]⟩ := by
  have hI : ¬(hProfile.cmsGetEncodedICCversion ≥ 0x4000000 ∧
      (INTENT_RELATIVE_COLORIMETRIC = INTENT_PERCEPTUAL ∨
        INTENT_RELATIVE_COLORIMETRIC = INTENT_SATURATION)) := by
    rintro ⟨-, h | h⟩ <;> simp [INTENT_RELATIVE_COLORIMETRIC, INTENT_PERCEPTUAL,
      INTENT_SATURATION] at h
  have hR : ¬INTENT_RELATIVE_COLORIMETRIC ≠ INTENT_RELATIVE_COLORIMETRIC := fun h => h rfl
  have hO : ¬hProfile.cmsGetDeviceClass ≠ cmsSigOutputClass := fun h => h hOutput
  have hC : ¬hProfile.cmsGetColorSpace ≠ cmsSigCmykData := fun h => h hCmyk
  have key : cmsDetectBlackPoint E BlackPoint hProfile INTENT_RELATIVE_COLORIMETRIC dwFlags =
      (BlackPointUsingPerceptualBlack E BlackPoint hProfile).after
        [Event.cmsGetDeviceClass, Event.cmsGetEncodedICCversion, Event.cmsGetDeviceClass,
          Event.cmsGetColorSpace] := by
    simp only [cmsDetectBlackPoint, if_neg hLink, if_neg hI, hTag, Bool.false_eq_true, if_false,
      DetectBlackPointV2, if_neg hR, if_neg hO, if_neg hC]
    rfl
  refine ⟨key, ?_⟩
  rw [key]
  simp [BlackPointUsingPerceptualBlack, hPerceptual, Ret.after, zeroXYZ]

/-- Witness of C12: a version 2.1 CMYK printer profile without the perceptual
intent in the input direction. -/
theorem cmsDetectBlackPoint_cmyk_without_perceptual_witness :
    cmykPrinterV2.cmsGetDeviceClass ≠ cmsSigLinkClass ∧
    cmykPrinterV2.cmsGetDeviceClass = cmsSigOutputClass ∧
    cmykPrinterV2.cmsGetColorSpace = cmsSigCmykData ∧
    cmykPrinterV2.cmsIsIntentSupported INTENT_PERCEPTUAL LCMS_USED_AS_INPUT = false ∧
    refEnv0.CMS_USE_PROFILE_BLACK_POINT_TAG = false ∧
    (cmsDetectBlackPoint refEnv0 ⟨1, 2, 3⟩ cmykPrinterV2 INTENT_RELATIVE_COLORIMETRIC 0 =
      (BlackPointUsingPerceptualBlack refEnv0 ⟨1, 2, 3⟩ cmykPrinterV2).after
        [Event.cmsGetDeviceClass, Event.cmsGetEncodedICCversion, Event.cmsGetDeviceClass,
          Event.cmsGetColorSpace] ∧
    cmsDetectBlackPoint refEnv0 ⟨1, 2, 3⟩ cmykPrinterV2 INTENT_RELATIVE_COLORIMETRIC 0 =
      ⟨true, ⟨0, 0, 0⟩, [Event.cmsGetDeviceClass, Event.cmsGetEncodedICCversion,
        Event.cmsGetDeviceClass, Event.cmsGetColorSpace, Event.cmsIsIntentSupported]⟩) :=
  ⟨by decide, rfl, rfl, rfl, rfl,
    cmsDetectBlackPoint_cmyk_without_perceptual refEnv0 ⟨1, 2, 3⟩ cmykPrinterV2 0 (by decide) rfl
      rfl rfl rfl⟩

/-- C13, at two failing inputs: `cmsDetectDestinationBlackPoint` does not look
at the device class. For the version 4.2 device link `rgbLinkV4` under the
perceptual intent it returns TRUE with the fixed perceptual black; for the
version 2.1 device link `rgbLinkV2` under the perceptual intent it runs the
round trip and returns TRUE. `cmsDetectBlackPoint` returns FALSE with (0,0,0)
for both. -/
theorem cmsDetectDestinationBlackPoint_deviceLink_accepted :
    rgbLinkV4.cmsGetDeviceClass = cmsSigLinkClass ∧
    cmsDetectDestinationBlackPoint refEnv0 ⟨1, 2, 3⟩ rgbLinkV4 INTENT_PERCEPTUAL 0 =
      some ⟨true, ⟨0.00336, 0.0034731, 0.00287⟩,
        [Event.cmsGetEncodedICCversion, Event.cmsIsMatrixShaper]⟩ ∧
    cmsDetectBlackPoint refEnv0 ⟨1, 2, 3⟩ rgbLinkV4 INTENT_PERCEPTUAL 0 =
      ⟨false, ⟨0, 0, 0⟩, [Event.cmsGetDeviceClass]⟩ ∧
    rgbLinkV2.cmsGetDeviceClass = cmsSigLinkClass ∧
    cmsDetectDestinationBlackPoint refEnv0 ⟨1, 2, 3⟩ rgbLinkV2 INTENT_PERCEPTUAL 0 =
      some ⟨true, ⟨0, 0, 0⟩, [Event.cmsGetEncodedICCversion, Event.cmsGetColorSpace,
        Event.cmsIsCLUT, Event.profileCreated, Event.cmsGetProfileContextID,
        Event.transformCreated, Event.profileClosed, Event.transformDeleted]⟩ ∧
    cmsDetectBlackPoint refEnv0 ⟨1, 2, 3⟩ rgbLinkV2 INTENT_PERCEPTUAL 0 =
      ⟨false, ⟨0, 0, 0⟩, [Event.cmsGetDeviceClass]⟩ := by
  have hCase : AdobeCase rgbLinkV2 INTENT_PERCEPTUAL :=
    ⟨Or.inl rfl, by simp [rgbLinkV2, mkProfile], rfl, Or.inr (Or.inl rfl)⟩
  have hSorted := CapturePoints_sorted identityRoundTrip ⟨0, 0, 0⟩
    (MinL identityRoundTrip ⟨0, 0, 0⟩) (MaxL identityRoundTrip ⟨0, 0, 0⟩)
    (lo INTENT_PERCEPTUAL) (hi INTENT_PERCEPTUAL)
    (by simp [MinL, MaxL, identityRoundTrip])
    (fun i j hij _ => by simpa [identityRoundTrip] using hij)
  refine ⟨rfl, ?_, ?_, rfl, ?_, ?_⟩
  · simp [cmsDetectDestinationBlackPoint, rgbLinkV4, mkProfile, INTENT_PERCEPTUAL,
      INTENT_RELATIVE_COLORIMETRIC, INTENT_SATURATION, refEnv0, refEnv]
  · simp [cmsDetectBlackPoint, rgbLinkV4, mkProfile, zeroXYZ]
  · have hS : NearlyStraightMidRange identityRoundTrip ⟨0, 0, 0⟩
        (MinL identityRoundTrip ⟨0, 0, 0⟩) (MaxL identityRoundTrip ⟨0, 0, 0⟩)
        INTENT_PERCEPTUAL = false :=
      NearlyStraightMidRange_other _ _ _ _ _ (by decide)
    rw [cmsDetectDestinationBlackPoint_AdobeCase _ _ _ _ _ hCase, refEnv0,
      AdobeSteps_of _ _ _ _ _ _ _ _ _ _ (InitialLab_perceptual _ _ _)
        (CreateRoundtripXForm_refEnv _ _ _ _), hS]
    simp only [Bool.false_eq_true, if_false]
    rw [Step4_sorted _ _ _ _ _ _ _ _ _ _ hSorted]
    simp [refEnv, darkLab2XYZ]
  · simp [cmsDetectBlackPoint, rgbLinkV2, mkProfile, zeroXYZ]

/-- C14: `BlackPointAsDarkerColorant` returns FALSE with (0,0,0) when the
intent is not supported as input, when the color space has no entry in the table
of darkest colorants, when the channel count of the entry differs from that of
the formatter, when the Lab profile cannot be created or when the transform
cannot be created; in every other case it returns TRUE with `cmsLab2XYZ` of
(min(L, 50), 0, 0), where L is the L* that the transform answers for the darkest
colorant. -/
theorem BlackPointAsDarkerColorant_outcomes (E : Env) (hInput : Profile) (Intent : Nat)
    (BlackPoint : cmsCIEXYZ) (dwFlags : Nat) :
    ((hInput.cmsIsIntentSupported Intent LCMS_USED_AS_INPUT = false ∨
        E._cmsEndPointsBySpace hInput.cmsGetColorSpace = none ∨
        (∃ Black nChannels, E._cmsEndPointsBySpace hInput.cmsGetColorSpace =
            some (Black, nChannels) ∧
          nChannels ≠ E.T_CHANNELS hInput.cmsFormatterForColorspaceOfProfile) ∨
        E.cmsCreateLab2ProfileTHR = false ∨
        E.cmsCreateTransformTHR hInput hInput.cmsFormatterForColorspaceOfProfile Intent = none) →
      (BlackPointAsDarkerColorant E hInput Intent BlackPoint dwFlags).ok = false ∧
      (BlackPointAsDarkerColorant E hInput Intent BlackPoint dwFlags).BlackPoint = ⟨0, 0, 0⟩) ∧
    (∀ (Black : List Nat) (nChannels : Nat) (xform : List Nat → cmsCIELab),
      hInput.cmsIsIntentSupported Intent LCMS_USED_AS_INPUT = true →
      E._cmsEndPointsBySpace hInput.cmsGetColorSpace = some (Black, nChannels) →
      nChannels = E.T_CHANNELS hInput.cmsFormatterForColorspaceOfProfile →
      E.cmsCreateLab2ProfileTHR = true →
      E.cmsCreateTransformTHR hInput hInput.cmsFormatterForColorspaceOfProfile Intent =
        some xform →
      (BlackPointAsDarkerColorant E hInput Intent BlackPoint dwFlags).ok = true ∧
      (BlackPointAsDarkerColorant E hInput Intent BlackPoint dwFlags).BlackPoint =
        E.cmsLab2XYZ ⟨min (xform Black).L 50, 0, 0⟩) := by
  constructor
  · intro h
    unfold BlackPointAsDarkerColorant
    simp only
    split
    · exact ⟨rfl, rfl⟩
    · rename_i hs
      split
      · exact ⟨rfl, rfl⟩
      · rename_i Black nChannels he
        split
        · exact ⟨rfl, rfl⟩
        · rename_i hn
          split
          · exact ⟨rfl, rfl⟩
          · rename_i hl
            split
            · exact ⟨rfl, rfl⟩
            · rename_i xform hx
              exfalso
              rcases h with h | h | ⟨B, n, h1, h2⟩ | h | h
              · simp [h] at hs
              · rw [h] at he; cases he
              · rw [h1] at he
                simp only [Option.some.injEq, Prod.mk.injEq] at he
                exact hn (he.2 ▸ h2)
              · simp [h] at hl
              · rw [h] at hx; cases hx
  · intro Black nChannels xform hs he hn hl hx
    unfold BlackPointAsDarkerColorant
    simp only [hs, he, hn, hl, hx, Bool.not_true, Bool.false_eq_true, if_false, ne_eq,
      not_true_eq_false, true_and]
    congr 1
    by_cases h50 : (xform Black).L > 50
    · simp [h50, min_eq_right (le_of_lt h50)]
    · simp [h50, min_eq_left (not_lt.mp h50)]

/-- Witness of C14: a printer profile without input tables fails, the display
profile `rgbDisplayV2`, whose darkest colorant has L* = 5, succeeds. -/
theorem BlackPointAsDarkerColorant_outcomes_witness :
    rgbPrinterB2A.cmsIsIntentSupported INTENT_RELATIVE_COLORIMETRIC LCMS_USED_AS_INPUT = false ∧
    ((BlackPointAsDarkerColorant refEnv0 rgbPrinterB2A INTENT_RELATIVE_COLORIMETRIC
        ⟨1, 2, 3⟩ 0).ok = false ∧
      (BlackPointAsDarkerColorant refEnv0 rgbPrinterB2A INTENT_RELATIVE_COLORIMETRIC
        ⟨1, 2, 3⟩ 0).BlackPoint = ⟨0, 0, 0⟩) ∧
    rgbDisplayV2.cmsIsIntentSupported INTENT_PERCEPTUAL LCMS_USED_AS_INPUT = true ∧
    refEnv0._cmsEndPointsBySpace rgbDisplayV2.cmsGetColorSpace = some ([0, 0, 0], 3) ∧
    3 = refEnv0.T_CHANNELS rgbDisplayV2.cmsFormatterForColorspaceOfProfile ∧
    refEnv0.cmsCreateLab2ProfileTHR = true ∧
    refEnv0.cmsCreateTransformTHR rgbDisplayV2 rgbDisplayV2.cmsFormatterForColorspaceOfProfile
      INTENT_PERCEPTUAL = some (fun _ => ⟨5, 1, -1⟩) ∧
    ((BlackPointAsDarkerColorant refEnv0 rgbDisplayV2 INTENT_PERCEPTUAL ⟨1, 2, 3⟩ 0).ok = true ∧
      (BlackPointAsDarkerColorant refEnv0 rgbDisplayV2 INTENT_PERCEPTUAL
        ⟨1, 2, 3⟩ 0).BlackPoint = refEnv0.cmsLab2XYZ ⟨min 5 50, 0, 0⟩) :=
  ⟨rfl,
    (BlackPointAsDarkerColorant_outcomes refEnv0 rgbPrinterB2A INTENT_RELATIVE_COLORIMETRIC
      ⟨1, 2, 3⟩ 0).1 (Or.inl rfl),
    rfl, rfl, rfl, rfl, rfl,
    (BlackPointAsDarkerColorant_outcomes refEnv0 rgbDisplayV2 INTENT_PERCEPTUAL
      ⟨1, 2, 3⟩ 0).2 [0, 0, 0] 3 (fun _ => ⟨5, 1, -1⟩) rfl rfl rfl rfl rfl⟩

/-- C15: on the Adobe path of `cmsDetectDestinationBlackPoint`, with the
initial Lab and the round trip at hand. Under the relative colorimetric intent,
if every response L of the sweep `l = 0..100` with
`L > MinL + 0.2 * (MaxL - MinL)` has `|L - l| <= 4`, the call returns TRUE with
`cmsLab2XYZ` of the initial Lab and releases the round trip, and the result does
not depend on the solver nor on the square root, the collaborators of the
fitter. Under every other intent the flag `NearlyStraightMidRange` is FALSE
whatever the round trip answers, and the result is that of step 4. -/
theorem cmsDetectDestinationBlackPoint_straight_shortcut (E : Env) (BlackPoint : cmsCIEXYZ)
    (hProfile : Profile) (Intent dwFlags : Nat)
    (Lab0 : cmsCIELab) (t1 : List Event) (hRoundTrip : cmsCIELab → cmsCIELab) (t2 : List Event)
    (hCase : AdobeCase hProfile Intent)
    (hIni : InitialLab E hProfile Intent dwFlags = (some Lab0, t1))
    (hXf : CreateRoundtripXForm E hProfile Intent = (some hRoundTrip, t2)) :
    (Intent = INTENT_RELATIVE_COLORIMETRIC →
      (∀ l : Nat, l ≤ 100 →
        (hRoundTrip ⟨l, Lab0.a, Lab0.b⟩).L >
          MinL hRoundTrip Lab0 + 0.2 * (MaxL hRoundTrip Lab0 - MinL hRoundTrip Lab0) →
        |(hRoundTrip ⟨l, Lab0.a, Lab0.b⟩).L - l| ≤ 4) →
      cmsDetectDestinationBlackPoint E BlackPoint hProfile Intent dwFlags =
        some ⟨true, E.cmsLab2XYZ Lab0,
          [Event.cmsGetEncodedICCversion, Event.cmsGetColorSpace, Event.cmsIsCLUT] ++ t1 ++ t2 ++
            [Event.transformDeleted]⟩ ∧
      ∀ (solve : cmsMAT3 → cmsVEC3 → Option cmsVEC3) (root : ℚ → ℚ),
        cmsDetectDestinationBlackPoint { E with _cmsMAT3solve := solve, sqrt := root } BlackPoint
            hProfile Intent dwFlags =
          cmsDetectDestinationBlackPoint E BlackPoint hProfile Intent dwFlags) ∧
    (Intent ≠ INTENT_RELATIVE_COLORIMETRIC →
      NearlyStraightMidRange hRoundTrip Lab0 (MinL hRoundTrip Lab0) (MaxL hRoundTrip Lab0)
        Intent = false ∧
      cmsDetectDestinationBlackPoint E BlackPoint hProfile Intent dwFlags =
        Step4 E BlackPoint hProfile Intent dwFlags hRoundTrip Lab0 (MinL hRoundTrip Lab0)
          (MaxL hRoundTrip Lab0)
          ([Event.cmsGetEncodedICCversion, Event.cmsGetColorSpace, Event.cmsIsCLUT] ++ t1 ++
            t2)) := by
  constructor
  · intro hR hClose
    subst hR
    have hS := (NearlyStraightMidRange_relative hRoundTrip Lab0 (MinL hRoundTrip Lab0)
      (MaxL hRoundTrip Lab0)).mpr hClose
    have key : ∀ E2 : Env,
        InitialLab E2 hProfile INTENT_RELATIVE_COLORIMETRIC dwFlags = (some Lab0, t1) →
        CreateRoundtripXForm E2 hProfile INTENT_RELATIVE_COLORIMETRIC = (some hRoundTrip, t2) →
        cmsDetectDestinationBlackPoint E2 BlackPoint hProfile INTENT_RELATIVE_COLORIMETRIC
            dwFlags =
          some ⟨true, E2.cmsLab2XYZ Lab0,
            [Event.cmsGetEncodedICCversion, Event.cmsGetColorSpace, Event.cmsIsCLUT] ++ t1 ++
              t2 ++ [Event.transformDeleted]⟩ := by
      intro E2 h1 h2
      rw [cmsDetectDestinationBlackPoint_AdobeCase E2 _ _ _ _ hCase,
        AdobeSteps_of E2 _ _ _ _ _ Lab0 t1 hRoundTrip t2 h1 h2, hS]
      simp
    refine ⟨key E hIni hXf, fun solve root => ?_⟩
    rw [key E hIni hXf]
    exact key _ hIni hXf
  · intro hR
    have hS := NearlyStraightMidRange_other hRoundTrip Lab0 (MinL hRoundTrip Lab0)
      (MaxL hRoundTrip Lab0) Intent hR
    refine ⟨hS, ?_⟩
    rw [cmsDetectDestinationBlackPoint_AdobeCase E _ _ _ _ hCase,
      AdobeSteps_of E _ _ _ _ _ Lab0 t1 hRoundTrip t2 hIni hXf, hS]
    simp

/-- Witness of C15: the identity round trip, under the relative colorimetric
intent (shortcut taken) and under the perceptual intent (step 4 runs). -/
theorem cmsDetectDestinationBlackPoint_straight_shortcut_witness :
    AdobeCase rgbDisplayV2 INTENT_RELATIVE_COLORIMETRIC ∧
    AdobeCase rgbDisplayV2 INTENT_PERCEPTUAL ∧
    INTENT_PERCEPTUAL ≠ INTENT_RELATIVE_COLORIMETRIC ∧
    (∀ l : Nat, l ≤ 100 →
      (identityRoundTrip ⟨l, (⟨5, 0, 0⟩ : cmsCIELab).a, (⟨5, 0, 0⟩ : cmsCIELab).b⟩).L >
        MinL identityRoundTrip ⟨5, 0, 0⟩ +
          0.2 * (MaxL identityRoundTrip ⟨5, 0, 0⟩ - MinL identityRoundTrip ⟨5, 0, 0⟩) →
      |(identityRoundTrip ⟨l, (⟨5, 0, 0⟩ : cmsCIELab).a, (⟨5, 0, 0⟩ : cmsCIELab).b⟩).L - l| ≤
        4) ∧
    cmsDetectDestinationBlackPoint refEnv0 ⟨1, 2, 3⟩ rgbDisplayV2 INTENT_RELATIVE_COLORIMETRIC
        0 =
      some ⟨true, refEnv0.cmsLab2XYZ ⟨5, 0, 0⟩,
        [Event.cmsGetEncodedICCversion, Event.cmsGetColorSpace, Event.cmsIsCLUT] ++
          [Event.cmsGetDeviceClass, Event.cmsGetEncodedICCversion, Event.cmsGetDeviceClass,
            Event.cmsGetProfileContextID, Event.cmsIsIntentSupported,
            Event.cmsFormatterForColorspaceOfProfile, Event.cmsGetColorSpace,
            Event.profileCreated, Event.transformCreated, Event.profileClosed,
            Event.transformDeleted] ++
          [Event.profileCreated, Event.cmsGetProfileContextID, Event.transformCreated,
            Event.profileClosed] ++ [Event.transformDeleted]⟩ ∧
    NearlyStraightMidRange identityRoundTrip ⟨0, 0, 0⟩ (MinL identityRoundTrip ⟨0, 0, 0⟩)
      (MaxL identityRoundTrip ⟨0, 0, 0⟩) INTENT_PERCEPTUAL = false :=
  have hClose : ∀ l : Nat, l ≤ 100 →
      (identityRoundTrip ⟨l, (⟨5, 0, 0⟩ : cmsCIELab).a, (⟨5, 0, 0⟩ : cmsCIELab).b⟩).L >
        MinL identityRoundTrip ⟨5, 0, 0⟩ +
          0.2 * (MaxL identityRoundTrip ⟨5, 0, 0⟩ - MinL identityRoundTrip ⟨5, 0, 0⟩) →
      |(identityRoundTrip ⟨l, (⟨5, 0, 0⟩ : cmsCIELab).a, (⟨5, 0, 0⟩ : cmsCIELab).b⟩).L - l| ≤
        4 := fun l _ _ => by simp [identityRoundTrip]
  ⟨AdobeCase_rgbDisplayV2 _ (Or.inr (Or.inl rfl)), AdobeCase_rgbDisplayV2 _ (Or.inl rfl),
    by decide, hClose,
    ((cmsDetectDestinationBlackPoint_straight_shortcut refEnv0 ⟨1, 2, 3⟩ rgbDisplayV2
      INTENT_RELATIVE_COLORIMETRIC 0 ⟨5, 0, 0⟩ _ identityRoundTrip _
      (AdobeCase_rgbDisplayV2 _ (Or.inr (Or.inl rfl))) InitialLab_rgbDisplayV2_relative
      (CreateRoundtripXForm_refEnv _ _ _ _)).1 rfl hClose).1,
    ((cmsDetectDestinationBlackPoint_straight_shortcut refEnv0 ⟨1, 2, 3⟩ rgbDisplayV2
      INTENT_PERCEPTUAL 0 ⟨0, 0, 0⟩ _ identityRoundTrip _
      (AdobeCase_rgbDisplayV2 _ (Or.inl rfl)) (InitialLab_perceptual _ _ _)
      (CreateRoundtripXForm_refEnv _ _ _ _)).2 (by decide)).1⟩

/-- C16, at a failing input: with the round trip `toeRoundTrip` under the
perceptual intent the retained responses 1/8, 3/16, 3/16, 1/8 are not
non-decreasing, the solution of the normal equations has `res.n[0] = 0` and
`res.n[1] = 5/32`, and the fitter returns `(-5/32 + 5/32) / (2 * 0)`, a NaN. Both
comparisons of the clip (line 557) are false for a NaN, so L* stays NaN: the
call has no result with an L* in [0, 50]. -/
theorem cmsDetectDestinationBlackPoint_fit_not_a_number :
    CapturePoints toeRoundTrip ⟨0, 0, 0⟩ (MinL toeRoundTrip ⟨0, 0, 0⟩)
      (MaxL toeRoundTrip ⟨0, 0, 0⟩) (lo INTENT_PERCEPTUAL) (hi INTENT_PERCEPTUAL) =
      [(1, 1 / 8), (2, 3 / 16), (3, 3 / 16), (4, 1 / 8)] ∧
    (refEnv toeRoundTrip ⟨5, 1, -1⟩)._cmsMAT3solve
      (LeastSquaresSystem 4 (stackArray (refEnv toeRoundTrip ⟨5, 1, -1⟩) [1, 2, 3, 4])
        (stackArray (refEnv toeRoundTrip ⟨5, 1, -1⟩) [1 / 8, 3 / 16, 3 / 16, 1 / 8])).1
      (LeastSquaresSystem 4 (stackArray (refEnv toeRoundTrip ⟨5, 1, -1⟩) [1, 2, 3, 4])
        (stackArray (refEnv toeRoundTrip ⟨5, 1, -1⟩) [1 / 8, 3 / 16, 3 / 16, 1 / 8])).2 =
      some ⟨0, 5 / 32, -1 / 32⟩ ∧
    RootOfLeastSquaresFitQuadraticCurve (refEnv toeRoundTrip ⟨5, 1, -1⟩) 4
      (stackArray (refEnv toeRoundTrip ⟨5, 1, -1⟩) [1, 2, 3, 4])
      (stackArray (refEnv toeRoundTrip ⟨5, 1, -1⟩) [1 / 8, 3 / 16, 3 / 16, 1 / 8]) = .nan ∧
    cmsDetectDestinationBlackPoint (refEnv toeRoundTrip ⟨5, 1, -1⟩) ⟨1, 2, 3⟩ rgbDisplayV2
      INTENT_PERCEPTUAL 0 = none := by
  refine ⟨CapturePoints_toe, ?_, RootOfLeastSquaresFitQuadraticCurve_toe, ?_⟩
  · rw [LeastSquaresSystem_toe]
    exact cramerSolve_toe
  · rw [cmsDetectDestinationBlackPoint_AdobeCase _ _ _ _ _ (AdobeCase_rgbDisplayV2 _ (Or.inl rfl)),
      AdobeSteps_of _ _ _ _ _ _ _ _ _ _ (InitialLab_perceptual _ _ _)
        (CreateRoundtripXForm_refEnv _ _ _ _)]
    have hS : NearlyStraightMidRange toeRoundTrip ⟨0, 0, 0⟩ (MinL toeRoundTrip ⟨0, 0, 0⟩)
        (MaxL toeRoundTrip ⟨0, 0, 0⟩) INTENT_PERCEPTUAL = false := by
      simp [NearlyStraightMidRange, INTENT_PERCEPTUAL, INTENT_RELATIVE_COLORIMETRIC]
    rw [hS]
    simp only [Bool.false_eq_true, if_false]
    rw [Step4_fit _ _ _ _ _ _ _ _ _ _ (by rw [CapturePoints_toe]; norm_num)]
    simp only [CapturePoints_toe, List.map_cons, List.map_nil, List.length_cons, List.length_nil]
    rw [show 0 + 1 + 1 + 1 + 1 = 4 from rfl, RootOfLeastSquaresFitQuadraticCurve_toe]

/-- C17: the system `m . r = v` that the fitter builds, with the rows
(n, Sx, Sx2), (Sx, Sx2, Sx3), (Sx2, Sx3, Sx4) and the right-hand side
(Sy, Sxy, Sx2y), is the system of normal equations of the least-squares
parabola, for every number `n` of samples. Every solution `r` of it minimises
the sum of the squares `(y[i] - (r0 + r1 x[i] + r2 x[i]^2))^2` over all real
triples of coefficients: `r.n0` is the constant term, `r.n1` the linear
coefficient and `r.n2` the leading coefficient of the fitted parabola. -/
theorem LeastSquaresSystem_normal_equations (n : Nat) (x y : Int → ℚ) (r : cmsVEC3)
    (h0 : (LeastSquaresSystem n x y).1.v0.n0 * r.n0 + (LeastSquaresSystem n x y).1.v0.n1 * r.n1 +
      (LeastSquaresSystem n x y).1.v0.n2 * r.n2 = (LeastSquaresSystem n x y).2.n0)
    (h1 : (LeastSquaresSystem n x y).1.v1.n0 * r.n0 + (LeastSquaresSystem n x y).1.v1.n1 * r.n1 +
      (LeastSquaresSystem n x y).1.v1.n2 * r.n2 = (LeastSquaresSystem n x y).2.n1)
    (h2 : (LeastSquaresSystem n x y).1.v2.n0 * r.n0 + (LeastSquaresSystem n x y).1.v2.n1 * r.n1 +
      (LeastSquaresSystem n x y).1.v2.n2 * r.n2 = (LeastSquaresSystem n x y).2.n2)
    (c0 c1 c2 : ℝ) :
    ((List.range n).map fun (i : Nat) =>
        ((y i : ℝ) - ((r.n0 : ℝ) + r.n1 * x i + r.n2 * ((x i : ℝ) * x i))) ^ 2).sum ≤
      ((List.range n).map fun (i : Nat) =>
        ((y i : ℝ) - (c0 + c1 * x i + c2 * ((x i : ℝ) * x i))) ^ 2).sum := by
  have e0 := congrArg (Rat.cast : ℚ → ℝ) h0
  have e1 := congrArg (Rat.cast : ℚ → ℝ) h1
  have e2 := congrArg (Rat.cast : ℚ → ℝ) h2
  simp only [LeastSquaresSystem, Rat.cast_add, Rat.cast_mul, cast_sum_map, Rat.cast_natCast]
    at e0 e1 e2
  rw [sum_sq_residual_split (List.range n) (fun i => (x i : ℝ)) (fun i => (y i : ℝ))
    r.n0 r.n1 r.n2 c0 c1 c2]
  simp only [List.length_range]
  have hnn : 0 ≤ ((List.range n).map fun (i : Nat) =>
      (((r.n0 : ℝ) - c0) + (r.n1 - c1) * x i + (r.n2 - c2) * ((x i : ℝ) * x i)) ^ 2).sum := by
    apply List.sum_nonneg
    intro a ha
    simp only [List.mem_map] at ha
    obtain ⟨i, -, rfl⟩ := ha
    positivity
  rw [← e0, ← e1, ← e2]
  linarith

/-- Witness of C17: the four samples of `y = x^2 - 5 x + 6`, whose normal
equations have the solution (6, -5, 1), against the zero parabola. -/
theorem LeastSquaresSystem_normal_equations_witness :
    ((LeastSquaresSystem 4 parabolaX parabolaY).1.v0.n0 * (⟨6, -5, 1⟩ : cmsVEC3).n0 +
      (LeastSquaresSystem 4 parabolaX parabolaY).1.v0.n1 * (⟨6, -5, 1⟩ : cmsVEC3).n1 +
      (LeastSquaresSystem 4 parabolaX parabolaY).1.v0.n2 * (⟨6, -5, 1⟩ : cmsVEC3).n2 =
        (LeastSquaresSystem 4 parabolaX parabolaY).2.n0) ∧
    ((LeastSquaresSystem 4 parabolaX parabolaY).1.v1.n0 * (⟨6, -5, 1⟩ : cmsVEC3).n0 +
      (LeastSquaresSystem 4 parabolaX parabolaY).1.v1.n1 * (⟨6, -5, 1⟩ : cmsVEC3).n1 +
      (LeastSquaresSystem 4 parabolaX parabolaY).1.v1.n2 * (⟨6, -5, 1⟩ : cmsVEC3).n2 =
        (LeastSquaresSystem 4 parabolaX parabolaY).2.n1) ∧
    ((LeastSquaresSystem 4 parabolaX parabolaY).1.v2.n0 * (⟨6, -5, 1⟩ : cmsVEC3).n0 +
      (LeastSquaresSystem 4 parabolaX parabolaY).1.v2.n1 * (⟨6, -5, 1⟩ : cmsVEC3).n1 +
      (LeastSquaresSystem 4 parabolaX parabolaY).1.v2.n2 * (⟨6, -5, 1⟩ : cmsVEC3).n2 =
        (LeastSquaresSystem 4 parabolaX parabolaY).2.n2) ∧
    ((List.range 4).map fun (i : Nat) =>
        ((parabolaY i : ℝ) - (((⟨6, -5, 1⟩ : cmsVEC3).n0 : ℝ) +
          (⟨6, -5, 1⟩ : cmsVEC3).n1 * parabolaX i +
          (⟨6, -5, 1⟩ : cmsVEC3).n2 * ((parabolaX i : ℝ) * parabolaX i))) ^ 2).sum ≤
      ((List.range 4).map fun (i : Nat) =>
        ((parabolaY i : ℝ) - ((0 : ℝ) + (0 : ℝ) * parabolaX i +
          (0 : ℝ) * ((parabolaX i : ℝ) * parabolaX i))) ^ 2).sum :=
  have h0 : (LeastSquaresSystem 4 parabolaX parabolaY).1.v0.n0 * (⟨6, -5, 1⟩ : cmsVEC3).n0 +
      (LeastSquaresSystem 4 parabolaX parabolaY).1.v0.n1 * (⟨6, -5, 1⟩ : cmsVEC3).n1 +
      (LeastSquaresSystem 4 parabolaX parabolaY).1.v0.n2 * (⟨6, -5, 1⟩ : cmsVEC3).n2 =
        (LeastSquaresSystem 4 parabolaX parabolaY).2.n0 := by
    rw [LeastSquaresSystem_parabola]; norm_num
  have h1 : (LeastSquaresSystem 4 parabolaX parabolaY).1.v1.n0 * (⟨6, -5, 1⟩ : cmsVEC3).n0 +
      (LeastSquaresSystem 4 parabolaX parabolaY).1.v1.n1 * (⟨6, -5, 1⟩ : cmsVEC3).n1 +
      (LeastSquaresSystem 4 parabolaX parabolaY).1.v1.n2 * (⟨6, -5, 1⟩ : cmsVEC3).n2 =
        (LeastSquaresSystem 4 parabolaX parabolaY).2.n1 := by
    rw [LeastSquaresSystem_parabola]; norm_num
  have h2 : (LeastSquaresSystem 4 parabolaX parabolaY).1.v2.n0 * (⟨6, -5, 1⟩ : cmsVEC3).n0 +
      (LeastSquaresSystem 4 parabolaX parabolaY).1.v2.n1 * (⟨6, -5, 1⟩ : cmsVEC3).n1 +
      (LeastSquaresSystem 4 parabolaX parabolaY).1.v2.n2 * (⟨6, -5, 1⟩ : cmsVEC3).n2 =
        (LeastSquaresSystem 4 parabolaX parabolaY).2.n2 := by
    rw [LeastSquaresSystem_parabola]; norm_num
  ⟨h0, h1, h2,
    LeastSquaresSystem_normal_equations 4 parabolaX parabolaY ⟨6, -5, 1⟩ h0 h1 h2 0 0 0⟩

/-- C18: for a table of `n >= 1` values, `IsMonotonic` returns TRUE exactly
when `Table[i] <= Table[i+1]` for every `0 <= i < n - 1`; it returns TRUE for
every table of length 1. -/
theorem IsMonotonic_nondecreasing (n : Nat) (Table : Int → ℚ) (hn : 1 ≤ n) :
    (IsMonotonic n Table = true ↔
      ∀ i : Nat, i + 1 < n → Table i ≤ Table ((i : Int) + 1)) ∧
    (n = 1 → IsMonotonic n Table = true) := by
  obtain ⟨m, rfl⟩ : ∃ m, n = m + 1 := ⟨n - 1, by omega⟩
  refine ⟨IsMonotonic_iff (m + 1) Table, fun h1 => ?_⟩
  rw [IsMonotonic_iff]
  intro i hi
  omega

/-- Witness of C18: a table of three cells, and a table of one cell. -/
theorem IsMonotonic_nondecreasing_witness :
    1 ≤ 3 ∧
    ((IsMonotonic 3 (stackArray refEnv0 [1, 2, 2]) = true ↔
      ∀ i : Nat, i + 1 < 3 →
        stackArray refEnv0 [1, 2, 2] i ≤ stackArray refEnv0 [1, 2, 2] ((i : Int) + 1)) ∧
    (3 = 1 → IsMonotonic 3 (stackArray refEnv0 [1, 2, 2]) = true)) :=
  ⟨by decide, IsMonotonic_nondecreasing 3 (stackArray refEnv0 [1, 2, 2]) (by decide)⟩

/-- C19: the flags argument is not used. For the same collaborators, profile,
intent and previous content of the output, `cmsDetectBlackPoint` returns the
same flag, triplet and trace for any two values of `dwFlags`, and so does
`cmsDetectDestinationBlackPoint`. -/
theorem flags_unused (E : Env) (BlackPoint : cmsCIEXYZ) (hProfile : Profile)
    (Intent f1 f2 : Nat) :
    cmsDetectBlackPoint E BlackPoint hProfile Intent f1 =
      cmsDetectBlackPoint E BlackPoint hProfile Intent f2 ∧
    cmsDetectDestinationBlackPoint E BlackPoint hProfile Intent f1 =
      cmsDetectDestinationBlackPoint E BlackPoint hProfile Intent f2 := ⟨rfl, rfl⟩

/-- C20, at a failing input: with the round trip `flatRoundTrip` under the
perceptual intent no sample is retained, `n = 0`, and `IsMonotonic(n, y)` reads
the cell `y[-1]` (line 321), which is not in [0, n) and lies before the array.
With `n = 0` it is so for every table, and the cell read holds indeterminate
content. -/
theorem IsMonotonic_reads_before_array :
    CapturePoints flatRoundTrip ⟨0, 0, 0⟩ (MinL flatRoundTrip ⟨0, 0, 0⟩)
      (MaxL flatRoundTrip ⟨0, 0, 0⟩) (lo INTENT_PERCEPTUAL) (hi INTENT_PERCEPTUAL) = [] ∧
    IsMonotonicReads
      (CapturePoints flatRoundTrip ⟨0, 0, 0⟩ (MinL flatRoundTrip ⟨0, 0, 0⟩)
        (MaxL flatRoundTrip ⟨0, 0, 0⟩) (lo INTENT_PERCEPTUAL) (hi INTENT_PERCEPTUAL)).length
      (stackArray (refEnv flatRoundTrip ⟨5, 1, -1⟩)
        ((CapturePoints flatRoundTrip ⟨0, 0, 0⟩ (MinL flatRoundTrip ⟨0, 0, 0⟩)
          (MaxL flatRoundTrip ⟨0, 0, 0⟩) (lo INTENT_PERCEPTUAL)
          (hi INTENT_PERCEPTUAL)).map Prod.snd)) = [-1] ∧
    (∀ (E : Env) (Table : Int → ℚ), IsMonotonicReads 0 Table = [-1] ∧
      stackArray E [] (-1) = E.indeterminate (-1)) := by
  have hpts := CapturePoints_degenerate flatRoundTrip ⟨0, 0, 0⟩ (MinL flatRoundTrip ⟨0, 0, 0⟩)
    (MaxL flatRoundTrip ⟨0, 0, 0⟩) (lo INTENT_PERCEPTUAL) (hi INTENT_PERCEPTUAL) rfl
  refine ⟨hpts, ?_, fun E Table => ⟨?_, ?_⟩⟩
  · rw [hpts]
    simp [IsMonotonicReads, IsMonotonicLoopReads]
  · simp [IsMonotonicReads, IsMonotonicLoopReads]
  · simp [stackArray]

end Cmssamp
